import Mathlib

/-! RenderDoc image viewer: a shallow embedding of `renderdoc/core/image_viewer.cpp`.

The image viewer is a replay driver that owns one texture, loaded from an image
file, and forwards the rendering work to a proxy driver (`m_Proxy`).

Conventions of the embedding.

* `uint32_t` values are natural numbers; every `uint32_t` product the source
  computes is reduced modulo `2^32` (`u32`).
* `size_t` values are byte counts and byte offsets of buffers held in memory;
  their arithmetic is exact (a buffer of that many bytes is allocated).
* An operation whose behaviour C++ leaves undefined (indexing an array outside
  its size, `%` or `/` by zero, a shift by 32 or more) makes the embedded
  function return `none`.
* A pointer into a buffer is the offset it points at; the bytes handed to a
  callee that receives `(pointer, length)` are `(buffer.drop offset).take length`
  (a range that reaches past the end of the buffer yields the bytes that exist).
* The proxy driver, the image libraries and the file system are outside the
  shown sources.  Their answers are fields of `IReplayDriver`, `FormatOps` and
  `FileWorld`; the calls the viewer issues are recorded as a list of `Event`s.
-/

namespace RenderDoc

/-! ## Scalars -/

/-- A `ResourceId`; `ResourceId()` (the null id) is `0`. -/
abbrev ResourceId := Nat

abbrev byte := Nat

abbrev bytebuf := List byte

/-- A 32-bit float, as its bit pattern. -/
abbrev float := Nat

/-- The bit pattern of `0.0f`. -/
def float_zero : float := 0

/-- The bit pattern of `1.0f`. -/
def float_one : float := 0x3F800000

/-- Reduction of a `uint32_t` result modulo `2^32`. -/
def u32 (n : Nat) : Nat := n % 4294967296

/-- `RDCMAX(1U, x)`. -/
def RDCMAX (a b : Nat) : Nat := if a > b then a else b

/-- The four bytes of a 32-bit value in memory (little-endian). -/
def le32 (f : Nat) : bytebuf :=
  [f % 256, (f / 256) % 256, (f / 65536) % 256, (f / 16777216) % 256]

/-- `FloatVector`: four floats, `sizeof(FloatVector) = 16`. -/
structure FloatVector where
  x : float
  y : float
  z : float
  w : float
deriving DecidableEq, Repr

/-- The 16 bytes a `FloatVector` occupies. -/
def FloatVector.toBytes (v : FloatVector) : bytebuf :=
  le32 v.x ++ le32 v.y ++ le32 v.z ++ le32 v.w

/-! ## Enumerations

The enumerations are declared outside the shown sources.  Each keeps the
enumerators the source names; every other enumerator is `Other n`. -/

inductive ResourceFormatType where
  | Regular
  | D16S8
  | D32S8
  | Other (n : Nat)
deriving DecidableEq, Repr

inductive CompType where
  | UNormSRGB
  | Float
  | Other (n : Nat)
deriving DecidableEq, Repr

inductive TextureType where
  | Texture1D
  | Texture1DArray
  | Texture2D
  | Texture2DArray
  | Texture3D
  | TextureCube
  | TextureCubeArray
  | Other (n : Nat)
deriving DecidableEq, Repr

inductive GraphicsAPI where
  | D3D11
  | OpenGL
  | Other (n : Nat)
deriving DecidableEq, Repr

inductive ResultCode where
  | Succeeded
  | InvalidParameter
  | ImageUnsupported
  | FileIOFailed
  | ReplayOutOfMemory
  | APIInitFailed
  | Other (n : Nat)
deriving DecidableEq, Repr

inductive RemapTexture where
  | NoRemap
  | Other (n : Nat)
deriving DecidableEq, Repr

/-! ## Descriptions -/

/-- `ResourceFormat` (declared in the replay API headers, outside the shown
sources): the four fields the source assigns, and `flags` for the remaining
state, which a default-constructed format has as 0.  `operator!=` of the source
is inequality of the formats. -/
structure ResourceFormat where
  type : ResourceFormatType
  compType : CompType
  compCount : Nat
  compByteWidth : Nat
  flags : Nat
deriving DecidableEq, Repr

/-- `TextureDescription` (declared in the replay API headers, outside the shown
sources), with the fields the source reads or writes.  The extents and counts
(`width`, `height`, `depth`, `mips`, `arraysize`, `dimension`, `msQual`,
`msSamp`) are `uint32_t` there, `byteSize` is `uint64_t`. -/
structure TextureDescription where
  creationFlags : Nat
  cubemap : Bool
  resourceId : ResourceId
  byteSize : Nat
  msQual : Nat
  msSamp : Nat
  format : ResourceFormat
  type : TextureType
  dimension : Nat
  arraysize : Nat
  width : Nat
  height : Nat
  depth : Nat
  mips : Nat
deriving DecidableEq, Repr

/-- `Subresource`; `Subresource()` is mip 0, slice 0, sample 0. -/
structure Subresource where
  mip : Nat
  slice : Nat
  sample : Nat
deriving DecidableEq, Repr

structure GetTextureDataParams where
  remap : RemapTexture
deriving DecidableEq, Repr

/-- `TextureDisplay`, with the two fields the viewer touches; `rest` stands for
the fields it passes on untouched. -/
structure TextureDisplay where
  resourceId : ResourceId
  flipY : Bool
  rest : Nat
deriving DecidableEq, Repr

/-- `read_dds_data`: what `load_dds_from_file` fills in.  A subresource entry is
`(first, second)` = (byte offset into `buffer`, byte length). -/
structure read_dds_data where
  cubemap : Bool
  slices : Nat
  width : Nat
  height : Nat
  depth : Nat
  mips : Nat
  format : ResourceFormat
  buffer : bytebuf
  subresources : List (Nat × Nat)
deriving DecidableEq, Repr

/-- `read_dds_data read_data = {}`. -/
def read_dds_data.empty : read_dds_data :=
  { cubemap := false, slices := 0, width := 0, height := 0, depth := 0, mips := 0,
    format := { type := ResourceFormatType.Regular, compType := CompType.Other 0,
                compCount := 0, compByteWidth := 0, flags := 0 },
    buffer := [], subresources := [] }

/-! ## The outside world -/

/-- Methods of `ResourceFormat` and the pixel decoder of `maths/formatpacking.h`,
which are outside the shown sources.  `convertSupported fmt` is the flag
`DecodeFormattedComponents(fmt, NULL, &convertSupported)` reports;
`DecodeFormattedComponents fmt src` is the texel decoded from the bytes that
start at the pointer `src`. -/
structure FormatOps where
  BlockFormat : ResourceFormat → Bool
  ElementSize : ResourceFormat → Nat
  convertSupported : ResourceFormat → Bool
  DecodeFormattedComponents : ResourceFormat → bytebuf → FloatVector

/-- The answers of the proxy driver `m_Proxy`.  `CreateProxyTexture n tex` is
the id returned by the call made after `n` earlier creations. -/
structure IReplayDriver where
  localRenderer : GraphicsAPI
  IsTextureSupported : TextureDescription → Bool
  CreateProxyTexture : Nat → TextureDescription → ResourceId
  GetTexture : ResourceId → TextureDescription
  GetTextureData : ResourceId → Subresource → GetTextureDataParams → bytebuf
  GetMinMax : ResourceId → Subresource → CompType → Bool
  GetHistogram : ResourceId → Subresource → CompType → Bool
  RenderTexture : TextureDisplay → Bool
  ApplyCustomShader : TextureDisplay → ResourceId
  FatalErrorCheck : ResultCode

/-- A call that leaves the viewer, in the order issued. -/
inductive Event where
  | fopen (attempt : Nat)
  | Sleep (ms : Nat)
  | CreateProxyReplayDriver
  | Shutdown
  | IsTextureSupported (tex : TextureDescription)
  | CreateProxyTexture (templateTex : TextureDescription)
  | SetProxyTextureData (texid : ResourceId) (sub : Subresource) (data : bytebuf)
      (dataSize : Nat)
  | GetTexture (id : ResourceId)
  | PickPixel (texture : ResourceId) (x y : Nat) (sub : Subresource) (typeCast : CompType)
  | GetMinMax (texid : ResourceId) (sub : Subresource) (typeCast : CompType)
  | GetHistogram (texid : ResourceId) (sub : Subresource) (typeCast : CompType)
  | RenderTexture (cfg : TextureDisplay)
  | ApplyCustomShader (display : TextureDisplay)
  | GetTextureData (tex : ResourceId) (sub : Subresource) (params : GetTextureDataParams)
deriving DecidableEq, Repr

/-- The part of `m_FrameRecord.frameInfo` that `RefreshFile` writes. -/
structure FrameInfo where
  initDataSize : Nat
  persistentSize : Nat
  uncompressedFileSize : Nat
  compressedFileSize : Nat
deriving DecidableEq, Repr

/-- The members of `class ImageViewer` that change after construction, and
`created`, the number of textures the proxy has created so far. -/
structure ImageViewer where
  m_TextureID : ResourceId
  m_CustomTexID : ResourceId
  m_TexDetails : TextureDescription
  m_Error : ResultCode
  m_RealTexData : List bytebuf
  frameInfo : FrameInfo
  created : Nat
deriving DecidableEq, Repr

/-! ## Loops -/

/-- A `for(i = 0; i < n; i++)` loop whose body appends `f i` to an array; the
loop is undefined as soon as one body is. -/
def collect {α : Type} (f : Nat → Option α) : Nat → Option (List α)
  | 0 => some []
  | n + 1 =>
    match collect f n with
    | none => none
    | some xs =>
      match f n with
      | none => none
      | some x => some (xs ++ [x])

/-- A `for(i = 0; i < n; i++)` loop that updates a state. -/
def loopFrom {σ : Type} (body : σ → Nat → Option σ) (s : σ) : Nat → Option σ
  | 0 => some s
  | n + 1 =>
    match loopFrom body s n with
    | none => none
    | some t => body t n

/-- `rdcarray::resize(n)` on an array of byte buffers. -/
def resizeBufs (l : List bytebuf) (n : Nat) : List bytebuf :=
  l.take n ++ List.replicate (n - l.length) []

/-! ## `ImageViewer::CreateProxyTexture` (lines 939-1059) -/

/-- The body of the loop of lines 966-978: the entry pushed for index `i`. -/
def remapEntry (oldSubs : List (Nat × Nat)) (arraysize mips i : Nat) : Option (Nat × Nat) :=
  if mips = 0 then none
  else
    match oldSubs[i % mips]? with
    | none => none
    | some old =>
      if arraysize = 0 then none
      else
        let size := old.2 / arraysize
        let offset := old.1 + size * (i / mips)
        some (offset, size)

/-- The innermost loop of lines 1026-1031: `n` texels are decoded, `src`
advancing by `srcStride` and `dst` by one texel each time.  The state is
(`src`, texels written so far). -/
def texelLoop (decode : Nat → FloatVector) (srcStride : Nat) :
    Nat → Nat × List FloatVector → Nat × List FloatVector
  | 0, st => st
  | n + 1, st => texelLoop decode srcStride n (st.1 + srcStride, st.2 ++ [decode st.1])

/-- The three nested loops of lines 1022-1033. -/
def decodeLoops (decode : Nat → FloatVector) (srcStride mipwidth mipheight mipdepth : Nat)
    (st : Nat × List FloatVector) : Nat × List FloatVector :=
  Nat.iterate (Nat.iterate (texelLoop decode srcStride mipwidth) mipheight) mipdepth st

/-- The state the conversion loop of lines 1003-1034 updates. -/
structure ConvState where
  subresources : List (Nat × Nat)
  m_RealTexData : List bytebuf
  convertedData : bytebuf
deriving DecidableEq, Repr

/-- `srcStride` of lines 992-997. -/
def srcStrideOf (ops : FormatOps) (format : ResourceFormat) : Nat :=
  if format.type = ResourceFormatType.D16S8 then 4
  else if format.type = ResourceFormatType.D32S8 then 8
  else ops.ElementSize format

/-- One iteration of the conversion loop (lines 1005-1033). -/
def convertStep (ops : FormatOps) (texDetails : TextureDescription) (buffer : bytebuf)
    (st : ConvState) (i : Nat) : Option ConvState :=
  if texDetails.mips = 0 then none
  else
    let mip := i % texDetails.mips
    if 32 ≤ mip then none
    else
      let mipwidth := RDCMAX 1 (texDetails.width >>> mip)
      let mipheight := RDCMAX 1 (texDetails.height >>> mip)
      let mipdepth := RDCMAX 1 (texDetails.depth >>> mip)
      match st.subresources[i]? with
      | none => none
      | some sub =>
        if st.m_RealTexData.length ≤ i then none
        else
          let old := sub.1
          let real := st.m_RealTexData.set i ((buffer.drop old).take sub.2)
          let first := st.convertedData.length
          let second := 16 * mipwidth * mipheight * mipdepth
          let texels :=
            (decodeLoops (fun src => ops.DecodeFormattedComponents texDetails.format
                (buffer.drop src)) (srcStrideOf ops texDetails.format)
              mipwidth mipheight mipdepth (old, [])).2
          some { subresources := st.subresources.set i (first, second),
                 m_RealTexData := real,
                 convertedData := st.convertedData ++ (texels.map FloatVector.toBytes).flatten }

/-- The format built at lines 1038-1042. -/
def rgba32_float : ResourceFormat :=
  { type := ResourceFormatType.Regular, compType := CompType.Float,
    compCount := 4, compByteWidth := 4, flags := 0 }

/-- The result of `CreateProxyTexture`: the viewer, and the two arguments it
receives by reference. -/
structure Negotiated where
  viewer : ImageViewer
  texDetails : TextureDescription
  read_data : read_dds_data
  events : List Event
deriving DecidableEq, Repr

/-- `m_TextureID = m_Proxy->CreateProxyTexture(tex)`. -/
def proxyCreate (proxy : IReplayDriver) (v : ImageViewer) (tex : TextureDescription) :
    ImageViewer :=
  { v with m_TextureID := proxy.CreateProxyTexture v.created tex, created := v.created + 1 }

/-- The candidate description of lines 951-955. -/
def arrayDetailsOf (texDetails : TextureDescription) : TextureDescription :=
  { texDetails with arraysize := texDetails.depth, depth := 1,
                    type := TextureType.Texture2DArray, dimension := 2 }

/-- Lines 984-1057: the CPU conversion, reached when neither the description nor
the 2D-array candidate was adopted.  `pre` holds the events issued before. -/
def convertPath (ops : FormatOps) (proxy : IReplayDriver) (v : ImageViewer)
    (texDetails : TextureDescription) (read_data : read_dds_data) (pre : List Event) :
    Option Negotiated :=
  if read_data.width ≠ 0 then
    if ops.convertSupported texDetails.format then
      let n := u32 (texDetails.arraysize * texDetails.mips)
      let st0 : ConvState :=
        { subresources := read_data.subresources,
          m_RealTexData := resizeBufs v.m_RealTexData n,
          convertedData := [] }
      match loopFrom (convertStep ops texDetails read_data.buffer) st0 n with
      | none => none
      | some st =>
        let texDetails1 := { texDetails with format := rgba32_float }
        let v1 := proxyCreate proxy { v with m_RealTexData := st.m_RealTexData } texDetails1
        some { viewer := v1, texDetails := texDetails1,
               read_data := { read_data with buffer := st.convertedData,
                                             subresources := st.subresources },
               events := pre ++ [Event.CreateProxyTexture texDetails1] }
    else
      some { viewer := v, texDetails := texDetails, read_data := read_data, events := pre }
  else
    some { viewer := v, texDetails := texDetails, read_data := read_data, events := pre }

/-- `ImageViewer::CreateProxyTexture(texDetails, read_data)`. -/
def CreateProxyTexture (ops : FormatOps) (proxy : IReplayDriver) (v : ImageViewer)
    (texDetails : TextureDescription) (read_data : read_dds_data) : Option Negotiated :=
  if proxy.IsTextureSupported texDetails then
    some { viewer := proxyCreate proxy v texDetails, texDetails := texDetails,
           read_data := read_data,
           events := [Event.IsTextureSupported texDetails,
                      Event.CreateProxyTexture texDetails] }
  else if ops.BlockFormat texDetails.format ∧ texDetails.type = TextureType.Texture3D then
    let arrayDetails := arrayDetailsOf texDetails
    if proxy.IsTextureSupported arrayDetails then
      let n := u32 (arrayDetails.arraysize * arrayDetails.mips)
      match collect (remapEntry read_data.subresources arrayDetails.arraysize
              arrayDetails.mips) n with
      | none => none
      | some subs =>
        some { viewer := proxyCreate proxy v arrayDetails, texDetails := arrayDetails,
               read_data := { read_data with subresources := subs },
               events := [Event.IsTextureSupported texDetails,
                          Event.IsTextureSupported arrayDetails,
                          Event.CreateProxyTexture arrayDetails] }
    else
      convertPath ops proxy v texDetails read_data
        [Event.IsTextureSupported texDetails, Event.IsTextureSupported arrayDetails]
  else
    convertPath ops proxy v texDetails read_data [Event.IsTextureSupported texDetails]

/-! ## The file, as one refresh sees it -/

/-- `EXRVersion` of tinyexr; the flags are C `int`s. -/
structure EXRVersion where
  version : Int
  tiled : Int
  long_name : Int
  non_image : Int
  multipart : Int
deriving DecidableEq, Repr

/-- What tinyexr answers for the bytes of the file.  `channelNames` holds
`exrHeader.channels[i].name`, `images` holds `exrImage.images`. -/
structure ExrAnswers where
  ParseEXRVersionFromMemory : Int
  exrVersion : EXRVersion
  ParseEXRHeaderFromMemory : Int
  channelNames : List (List Char)
  LoadEXRImageFromMemory : Int
  width : Nat
  height : Nat
  num_channels : Nat
  images : List (List float)
  FreeEXRImage : Int
deriving DecidableEq, Repr

/-- What `stbi_loadf_from_file` / `stbi_load_from_file` leave behind: the
returned buffer (`none` is `NULL`) and the values of the two `int`s it was
given, read as `uint32_t`. -/
structure StbiLoad where
  data : Option bytebuf
  x : Nat
  y : Nat
deriving DecidableEq, Repr

/-- What `stbi_info_from_file` leaves behind. -/
structure StbiInfo where
  ret : Int
  x : Nat
  y : Nat
deriving DecidableEq, Repr

/-- Everything outside the viewer that one run of `RefreshFile` consults:
`fopen k` tells whether the open attempt number `k` succeeds, the other fields
are the answers for the opened file. -/
structure FileWorld where
  fopen : Nat → Bool
  fileSize : Nat
  is_exr_file : Bool
  stbi_is_hdr_from_file : Bool
  is_dds_file : Bool
  exr : ExrAnswers
  malloc : Nat → Bool
  stbi_loadf_from_file : StbiLoad
  stbi_info_from_file : StbiInfo
  stbi_load_from_file : StbiLoad
  load_dds_from_file : ResultCode × read_dds_data

/-! ## `ImageViewer::RefreshFile` (lines 565-937) -/

/-- The open-retry loop of lines 569-575.  `remaining` is `10 - attempt`, the
number of iterations the loop condition `attempt < 10` still admits.  The
result tells whether `f` is non-null after the loop. -/
def openLoop (fopen : Nat → Bool) : Nat → Nat → Bool × List Event
  | 0, _ => (false, [])
  | remaining + 1, attempt =>
    if fopen attempt then (true, [Event.fopen attempt])
    else
      let r := openLoop fopen remaining (attempt + 1)
      (r.1, Event.fopen attempt :: Event.Sleep 40 :: r.2)

/-- The format built at lines 587-591. -/
def rgba8_unorm : ResourceFormat :=
  { type := ResourceFormatType.Regular, compType := CompType.UNormSRGB,
    compCount := 4, compByteWidth := 1, flags := 0 }

/-- `TextureCategory::ShaderRead | TextureCategory::ColorTarget`; the
enumeration is declared outside the shown sources. -/
def ShaderRead_or_ColorTarget : Nat := 3

/-- The local `texDetails` after lines 585-612. -/
def defaultTexDetails (m_TextureID : ResourceId) : TextureDescription :=
  { creationFlags := ShaderRead_or_ColorTarget, cubemap := false,
    resourceId := m_TextureID, byteSize := 0, msQual := 0, msSamp := 1,
    format := rgba8_unorm, type := TextureType.Texture2D, dimension := 2,
    arraysize := 1, width := 1, height := 1, depth := 1, mips := 1 }

/-- `texDetails.width * texDetails.height * 4 * sizeof(T)`: the first two
products are `uint32_t`, the last one is `size_t`. -/
def datasizeOf (width height elem : Nat) : Nat :=
  u32 (u32 (width * height) * 4) * elem

/-- What the decoding part of `RefreshFile` hands to the rest of the function. -/
structure Decoded where
  texDetails : TextureDescription
  data : bytebuf
  datasize : Nat
  dds : Bool
  read_data : read_dds_data
deriving DecidableEq, Repr

/-- How the decoding part ends: with an early `return` (the viewer as it is
left), or at line 890 with the locals of `Decoded`. -/
inductive Loaded where
  | failed (v : ImageViewer)
  | ok (v : ImageViewer) (d : Decoded)
deriving DecidableEq, Repr

/-- `SET_ERROR_RESULT(m_Error, code, ...); return;`. -/
def failWith (v : ImageViewer) (code : ResultCode) : Loaded :=
  Loaded.failed { v with m_Error := code }

/-- `exrHeader.channels[i].name[0]`; an empty name starts with its terminator. -/
def name0 (name : List Char) : Char := name.headD (Char.ofNat 0)

/-- One iteration of the loop of lines 740-749 on `int channels[4]`. -/
def channelStep (names : List (List Char)) (channels : List Int) (i : Nat) :
    Option (List Int) :=
  match names[i]? with
  | none => none
  | some name =>
    if name0 name = 'R' then some (channels.set 0 i)
    else if name0 name = 'G' then some (channels.set 1 i)
    else if name0 name = 'B' then some (channels.set 2 i)
    else if name0 name = 'A' then some (channels.set 3 i)
    else some channels

/-- The value stored to `rgba[i * 4 + c]` (lines 758-763). -/
def exrSlot (images : List (List float)) (channels : List Int) (i c : Nat) : Option float :=
  match channels[c]? with
  | none => none
  | some ch =>
    if 0 ≤ ch then
      match images[ch.toNat]? with
      | none => none
      | some img => img[i]?
    else if c < 3 then some float_zero
    else some float_one

/-- The four floats of pixel `i` (the inner loop of lines 756-764). -/
def exrPixel (images : List (List float)) (channels : List Int) (i : Nat) :
    Option (List float) :=
  collect (exrSlot images channels i) 4

/-- Lines 739-765: the bytes written to `data`, a buffer of `datasize` bytes
(16 bytes per pixel are written; writing past the end of the allocation is
undefined). -/
def exrData (w : FileWorld) (width height datasize : Nat) : Option bytebuf :=
  match loopFrom (channelStep w.exr.channelNames) [-1, -1, -1, -1] w.exr.num_channels with
  | none => none
  | some channels =>
    if datasize < 16 * u32 (width * height) then none
    else
      match collect (exrPixel w.exr.images channels) (u32 (width * height)) with
      | none => none
      | some pixels => some (pixels.flatten.map le32).flatten

/-- Lines 726-778: the EXR branch once the image is loaded. -/
def loadEXRImage (w : FileWorld) (v : ImageViewer) (texDetails : TextureDescription) :
    Option Loaded :=
  if w.malloc (datasizeOf w.exr.width w.exr.height 4) = false then
    some (failWith v ResultCode.ReplayOutOfMemory)
  else
    match exrData w w.exr.width w.exr.height (datasizeOf w.exr.width w.exr.height 4) with
    | none => none
    | some data =>
      if w.exr.FreeEXRImage ≠ 0 then some (failWith v ResultCode.ImageUnsupported)
      else
        some (Loaded.ok v
          { texDetails := { texDetails with width := w.exr.width, height := w.exr.height },
            data := data,
            datasize := datasizeOf w.exr.width w.exr.height 4, dds := false,
            read_data := read_dds_data.empty })

/-- Lines 636-724: the checks of the EXR branch; `true` when one of them
records `ImageUnsupported` and returns. -/
def exrRejected (w : FileWorld) : Bool :=
  w.exr.ParseEXRVersionFromMemory ≠ 0 || w.exr.exrVersion.multipart ≠ 0 ||
  w.exr.exrVersion.non_image ≠ 0 || w.exr.exrVersion.tiled ≠ 0 ||
  w.exr.ParseEXRHeaderFromMemory ≠ 0 || w.exr.LoadEXRImageFromMemory ≠ 0

/-- Lines 625-778: the EXR branch. -/
def loadEXR (w : FileWorld) (v : ImageViewer) (texDetails : TextureDescription) :
    Option Loaded :=
  if exrRejected w then some (failWith v ResultCode.ImageUnsupported)
  else loadEXRImage w v { texDetails with format := rgba32_float }

/-- Lines 779-789: the HDR branch, up to the test of line 828. -/
def loadHDR (w : FileWorld) (v : ImageViewer) (texDetails : TextureDescription) :
    Option Loaded :=
  let texDetails := { texDetails with format := rgba32_float }
  let texDetails := { texDetails with width := w.stbi_loadf_from_file.x,
                                      height := w.stbi_loadf_from_file.y }
  let datasize := datasizeOf texDetails.width texDetails.height 4
  match w.stbi_loadf_from_file.data with
  | none => some (failWith v ResultCode.ImageUnsupported)
  | some data =>
    some (Loaded.ok v
      { texDetails := texDetails, data := data, datasize := datasize, dds := false,
        read_data := read_dds_data.empty })

/-- Lines 794-824: the branch of the generic raster formats, up to the test of
line 828. -/
def loadGeneric (w : FileWorld) (v : ImageViewer) (texDetails : TextureDescription) :
    Option Loaded :=
  let texDetails := { texDetails with width := w.stbi_info_from_file.x,
                                      height := w.stbi_info_from_file.y }
  if w.stbi_info_from_file.ret = 0 then some (failWith v ResultCode.ImageUnsupported)
  else if texDetails.width = 0 ∨ texDetails.width ≥ 65536 ∨ texDetails.height = 0 ∨
      texDetails.height ≥ 65536 then
    some (failWith v ResultCode.ImageUnsupported)
  else
    let texDetails := { texDetails with format := rgba8_unorm }
    let texDetails := { texDetails with width := w.stbi_load_from_file.x,
                                        height := w.stbi_load_from_file.y }
    let datasize := datasizeOf texDetails.width texDetails.height 1
    match w.stbi_load_from_file.data with
    | none => some (failWith v ResultCode.ImageUnsupported)
    | some data =>
      some (Loaded.ok v
        { texDetails := texDetails, data := data, datasize := datasize, dds := false,
          read_data := read_dds_data.empty })

/-- Lines 861-883: `type` and `dimension` of a DDS description. -/
def ddsTypeOf (texDetails : TextureDescription) : TextureDescription :=
  if texDetails.depth > 1 then
    { texDetails with type := TextureType.Texture3D, dimension := 3 }
  else if texDetails.cubemap then
    { texDetails with
        type := if texDetails.arraysize > 1 then TextureType.TextureCubeArray
                else TextureType.TextureCube,
        dimension := 2 }
  else if texDetails.height > 1 then
    { texDetails with
        type := if texDetails.arraysize > 1 then TextureType.Texture2DArray
                else TextureType.Texture2D,
        dimension := 2 }
  else
    { texDetails with
        type := if texDetails.arraysize > 1 then TextureType.Texture1DArray
                else TextureType.Texture1D,
        dimension := 1 }

/-- One iteration of the loop of lines 886-887. -/
def sizeStep (subresources : List (Nat × Nat)) (total : Nat) (i : Nat) : Option Nat :=
  match subresources[i]? with
  | none => none
  | some sub => some (total + sub.2)

/-- Lines 835-890 for a DDS file (`dds` is true and `data` is `NULL`). -/
def loadDDS (w : FileWorld) (v : ImageViewer) (texDetails : TextureDescription) :
    Option Loaded :=
  let v := { v with frameInfo := { v.frameInfo with initDataSize := 0, persistentSize := 0,
                                                    uncompressedFileSize := 0 } }
  let read_data := w.load_dds_from_file.2
  if w.load_dds_from_file.1 ≠ ResultCode.Succeeded then
    some (Loaded.failed { v with m_Error := w.load_dds_from_file.1 })
  else
    let texDetails := { texDetails with cubemap := read_data.cubemap,
                                        arraysize := read_data.slices,
                                        width := read_data.width,
                                        height := read_data.height,
                                        depth := read_data.depth,
                                        mips := read_data.mips,
                                        format := read_data.format }
    let texDetails := ddsTypeOf texDetails
    match loopFrom (sizeStep read_data.subresources) 0
        (u32 (texDetails.arraysize * texDetails.mips)) with
    | none => none
    | some total =>
      some (Loaded.ok
        { v with frameInfo := { v.frameInfo with uncompressedFileSize := total,
                                                 compressedFileSize := total } }
        { texDetails := texDetails, data := [], datasize := 0, dds := true,
          read_data := read_data })

/-- Lines 835-837 and 890 for a file that is not DDS. -/
def recordSizes (l : Loaded) : Loaded :=
  match l with
  | Loaded.failed v => Loaded.failed v
  | Loaded.ok v d =>
    Loaded.ok { v with frameInfo := { initDataSize := 0, persistentSize := 0,
                                      uncompressedFileSize := d.datasize,
                                      compressedFileSize := d.datasize } } d

/-- Lines 585-890: classification and decoding of the opened file. -/
def loadFile (w : FileWorld) (v : ImageViewer) : Option Loaded :=
  let texDetails := defaultTexDetails v.m_TextureID
  if w.is_exr_file then (loadEXR w v texDetails).map recordSizes
  else if w.stbi_is_hdr_from_file then (loadHDR w v texDetails).map recordSizes
  else if w.is_dds_file then loadDDS w v texDetails
  else (loadGeneric w v texDetails).map recordSizes

/-- The test of lines 897-900. -/
def structuralChange (old new : TextureDescription) : Bool :=
  old.width != new.width || old.height != new.height || old.depth != new.depth ||
  old.cubemap != new.cubemap || old.mips != new.mips || old.arraysize != new.arraysize ||
  old.format != new.format

/-- Lines 895-904: the handle after the comparison with the stored description. -/
def invalidateIfChanged (v : ImageViewer) (texDetails : TextureDescription) : ImageViewer :=
  if v.m_TextureID ≠ 0 then
    if structuralChange v.m_TexDetails texDetails then { v with m_TextureID := 0 } else v
  else v

/-- Lines 908-909. -/
def negotiate (ops : FormatOps) (proxy : IReplayDriver) (v : ImageViewer) (d : Decoded) :
    Option Negotiated :=
  if v.m_TextureID = 0 then CreateProxyTexture ops proxy v d.texDetails d.read_data
  else some { viewer := v, texDetails := d.texDetails, read_data := d.read_data, events := [] }

/-- The body of the upload loop of lines 927-932: the call for index `i`. -/
def uploadCall (m_TextureID : ResourceId) (texDetails : TextureDescription)
    (read_data : read_dds_data) (i : Nat) : Option Event :=
  if texDetails.mips = 0 then none
  else
    match read_data.subresources[i]? with
    | none => none
    | some sub =>
      some (Event.SetProxyTextureData m_TextureID
        { mip := i % texDetails.mips, slice := i / texDetails.mips, sample := 0 }
        ((read_data.buffer.drop sub.1).take sub.2) sub.2)

/-- Lines 920-933: the upload calls. -/
def uploads (m_TextureID : ResourceId) (d : Decoded) (r : Negotiated) : Option (List Event) :=
  if d.dds = false then
    some [Event.SetProxyTextureData m_TextureID { mip := 0, slice := 0, sample := 0 }
            (d.data.take d.datasize) d.datasize]
  else
    collect (uploadCall m_TextureID r.texDetails r.read_data)
      (u32 (r.texDetails.arraysize * r.texDetails.mips))

/-- Lines 917-918: the stored description gets the handle and the file size. -/
def storedDetails (t : TextureDescription) (m_TextureID : ResourceId) (fileSize : Nat) :
    TextureDescription :=
  { t with resourceId := m_TextureID, byteSize := fileSize }

/-- Lines 892-937: the part of `RefreshFile` after decoding. -/
def finishRefresh (ops : FormatOps) (proxy : IReplayDriver) (fileSize : Nat)
    (v : ImageViewer) (d : Decoded) : Option (ImageViewer × List Event) :=
  let v1 := invalidateIfChanged v d.texDetails
  let v2 := { v1 with m_TexDetails := d.texDetails }
  match negotiate ops proxy v2 d with
  | none => none
  | some r =>
    let v3 := if r.viewer.m_TextureID = 0 then
                { r.viewer with m_Error := ResultCode.APIInitFailed }
              else r.viewer
    let v4 := { v3 with m_TexDetails := storedDetails v3.m_TexDetails v3.m_TextureID fileSize }
    match uploads v4.m_TextureID d r with
    | none => none
    | some ups => some (v4, r.events ++ ups)

/-- Lines 585-937: `RefreshFile` once the file is open (classification,
decoding, negotiation, upload). -/
def refreshOpened (ops : FormatOps) (proxy : IReplayDriver) (w : FileWorld) (v : ImageViewer) :
    Option (ImageViewer × List Event) :=
  match loadFile w v with
  | none => none
  | some (Loaded.failed v1) => some (v1, [])
  | some (Loaded.ok v1 d) => finishRefresh ops proxy w.fileSize v1 d

/-- `ImageViewer::RefreshFile()`: the viewer afterwards and the calls issued. -/
def RefreshFile (ops : FormatOps) (proxy : IReplayDriver) (w : FileWorld) (v : ImageViewer) :
    Option (ImageViewer × List Event) :=
  let opened := openLoop w.fopen 10 0
  if opened.1 = false then some ({ v with m_Error := ResultCode.FileIOFailed }, opened.2)
  else
    match refreshOpened ops proxy w v with
    | none => none
    | some r => some (r.1, opened.2 ++ r.2)

/-! ## The facade operations (lines 86-231) -/

/-- `ImageViewer::FatalErrorCheck()`. -/
def FatalErrorCheck (proxy : IReplayDriver) (v : ImageViewer) : ResultCode :=
  if v.m_Error ≠ ResultCode.Succeeded then v.m_Error else proxy.FatalErrorCheck

/-- `ImageViewer::GetTexture(id)`. -/
def GetTexture (v : ImageViewer) (_id : ResourceId) : TextureDescription := v.m_TexDetails

/-- `ImageViewer::GetTextures()`. -/
def GetTextures (v : ImageViewer) : List TextureDescription := [v.m_TexDetails]

/-- `a - b` on `uint32_t`. -/
def sub32 (a b : Nat) : Nat := u32 (u32 a + 4294967296 - u32 b)

/-- `ImageViewer::PickPixel`: the calls issued to the proxy.  `m_Props` is the
proxy's `GetAPIProperties()` taken at construction, so `m_Props.localRenderer`
is `proxy.localRenderer`. -/
def PickPixel (proxy : IReplayDriver) (_v : ImageViewer) (texture : ResourceId) (x y : Nat)
    (sub : Subresource) (typeCast : CompType) : Option (List Event) :=
  if proxy.localRenderer = GraphicsAPI.OpenGL then
    let tex := proxy.GetTexture texture
    if 32 ≤ sub.mip then none
    else
      let mipHeight := RDCMAX 1 (tex.height >>> sub.mip)
      let y := sub32 (sub32 mipHeight 1) y
      some [Event.GetTexture texture, Event.PickPixel texture x y sub typeCast]
  else
    some [Event.PickPixel texture x y sub typeCast]

/-- `ImageViewer::GetMinMax`: the result and the call issued. -/
def GetMinMax (proxy : IReplayDriver) (v : ImageViewer) (_texid : ResourceId)
    (sub : Subresource) (typeCast : CompType) : Bool × List Event :=
  (proxy.GetMinMax v.m_TextureID sub typeCast, [Event.GetMinMax v.m_TextureID sub typeCast])

/-- `ImageViewer::GetHistogram`: the result and the call issued. -/
def GetHistogram (proxy : IReplayDriver) (v : ImageViewer) (_texid : ResourceId)
    (sub : Subresource) (typeCast : CompType) : Bool × List Event :=
  (proxy.GetHistogram v.m_TextureID sub typeCast,
   [Event.GetHistogram v.m_TextureID sub typeCast])

/-- `ImageViewer::RenderTexture`: the result and the call issued. -/
def RenderTexture (proxy : IReplayDriver) (v : ImageViewer) (cfg : TextureDisplay) :
    Bool × List Event :=
  let cfg := if cfg.resourceId ≠ v.m_TextureID ∧ cfg.resourceId ≠ v.m_CustomTexID then
               { cfg with resourceId := v.m_TextureID }
             else cfg
  let cfg := if proxy.localRenderer = GraphicsAPI.OpenGL then { cfg with flipY := !cfg.flipY }
             else cfg
  (proxy.RenderTexture cfg, [Event.RenderTexture cfg])

/-- `ImageViewer::ApplyCustomShader`. -/
def ApplyCustomShader (proxy : IReplayDriver) (v : ImageViewer) (display : TextureDisplay) :
    ImageViewer × ResourceId × List Event :=
  let id := proxy.ApplyCustomShader display
  ({ v with m_CustomTexID := id }, id, [Event.ApplyCustomShader display])

/-- `ImageViewer::GetTextureData`: the bytes stored to `data` and the call
issued to the proxy, if any. -/
def GetTextureData (proxy : IReplayDriver) (v : ImageViewer) (tex : ResourceId)
    (sub : Subresource) (params : GetTextureDataParams) : Option (bytebuf × List Event) :=
  let tex := if tex ≠ v.m_TextureID ∧ tex ≠ v.m_CustomTexID then v.m_TextureID else tex
  if tex = v.m_TextureID ∧ v.m_RealTexData ≠ [] ∧ params.remap = RemapTexture.NoRemap then
    let idx := u32 (u32 (sub.slice * v.m_TexDetails.mips) + sub.mip)
    match v.m_RealTexData[idx]? with
    | none => none
    | some data => some (data, [])
  else
    some (proxy.GetTextureData tex sub params, [Event.GetTextureData tex sub params])

/-! ## Construction and `IMG_CreateReplayDevice` (lines 39-73, 388-563) -/

/-- The members as the constructor's initialiser list leaves them.
`TextureDescription()` is declared outside the shown sources and is the
parameter `blank`. -/
def initialViewer (blank : TextureDescription) : ImageViewer :=
  { m_TextureID := 0, m_CustomTexID := 0, m_TexDetails := blank,
    m_Error := ResultCode.Succeeded, m_RealTexData := [],
    frameInfo := { initDataSize := 0, persistentSize := 0, uncompressedFileSize := 0,
                   compressedFileSize := 0 },
    created := 0 }

/-- `ImageViewer::ImageViewer(proxy, filename)`: the constructor runs
`RefreshFile()` once. -/
def construct (ops : FormatOps) (proxy : IReplayDriver) (blank : TextureDescription)
    (w : FileWorld) : Option (ImageViewer × List Event) :=
  RefreshFile ops proxy w (initialViewer blank)

/-- A 32-bit value read as a C `int`. -/
def asInt (x : Nat) : Int := if u32 x < 2147483648 then (u32 x : Int) else (u32 x : Int) - 4294967296

/-- What `IMG_CreateReplayDevice` consults besides the file: whether `rdc` and
the stolen file handle are non-null, and the answer of
`CreateProxyReplayDriver`. -/
structure DeviceWorld where
  rdc : Bool
  f : Bool
  CreateProxyReplayDriver : ResultCode × Option IReplayDriver

/-- Lines 407-535: the checks on the stolen file handle; `none` means that all
of them passed. -/
def precheck (w : FileWorld) : Option ResultCode :=
  if w.is_exr_file then
    if w.exr.ParseEXRVersionFromMemory ≠ 0 then some ResultCode.ImageUnsupported
    else if w.exr.exrVersion.multipart ≠ 0 then some ResultCode.ImageUnsupported
    else if w.exr.exrVersion.non_image ≠ 0 then some ResultCode.ImageUnsupported
    else if w.exr.exrVersion.tiled ≠ 0 then some ResultCode.ImageUnsupported
    else if w.exr.ParseEXRHeaderFromMemory ≠ 0 then some ResultCode.ImageUnsupported
    else none
  else if w.stbi_is_hdr_from_file then
    if w.stbi_loadf_from_file.data = none then some ResultCode.ImageUnsupported else none
  else if w.is_dds_file then
    if w.load_dds_from_file.1 ≠ ResultCode.Succeeded then some w.load_dds_from_file.1
    else none
  else
    if w.stbi_info_from_file.ret = 0 then some ResultCode.ImageUnsupported
    else if asInt w.stbi_info_from_file.x ≤ 0 ∨ asInt w.stbi_info_from_file.x ≥ 65536 ∨
        asInt w.stbi_info_from_file.y ≤ 0 ∨ asInt w.stbi_info_from_file.y ≥ 65536 then
      some ResultCode.ImageUnsupported
    else if w.stbi_load_from_file.data = none then some ResultCode.ImageUnsupported
    else none

/-- `IMG_CreateReplayDevice(rdc, driver)`: the result, the driver stored to
`*driver` if one is left alive, and the calls issued.  `pre` is the file as the
stolen handle shows it, `w` the file as the constructor's `RefreshFile` finds
it. -/
def IMG_CreateReplayDevice (ops : FormatOps) (dw : DeviceWorld) (blank : TextureDescription)
    (pre w : FileWorld) : Option (ResultCode × Option ImageViewer × List Event) :=
  if dw.rdc = false then some (ResultCode.InvalidParameter, none, [])
  else if dw.f = false then some (ResultCode.InvalidParameter, none, [])
  else
    match precheck pre with
    | some code => some (code, none, [])
    | none =>
      match dw.CreateProxyReplayDriver with
      | (result, none) => some (result, none, [Event.CreateProxyReplayDriver])
      | (result, some proxy) =>
        if result ≠ ResultCode.Succeeded then
          some (result, none, [Event.CreateProxyReplayDriver, Event.Shutdown])
        else
          match construct ops proxy blank w with
          | none => none
          | some (v, evs) =>
            if FatalErrorCheck proxy v ≠ ResultCode.Succeeded then
              some (FatalErrorCheck proxy v, none,
                Event.CreateProxyReplayDriver :: evs ++ [Event.Shutdown])
            else
              some (ResultCode.Succeeded, some v, Event.CreateProxyReplayDriver :: evs)

/-! ## Events by kind -/

/-- An `IsTextureSupported` query: the first thing `CreateProxyTexture` does. -/
def Event.isQuery : Event → Bool
  | Event.IsTextureSupported _ => true
  | _ => false

/-- A `CreateProxyTexture` call on the proxy. -/
def Event.isCreate : Event → Bool
  | Event.CreateProxyTexture _ => true
  | _ => false

/-- A `SetProxyTextureData` call on the proxy. -/
def Event.isUpload : Event → Bool
  | Event.SetProxyTextureData _ _ _ _ => true
  | _ => false

/-- A call on the proxy driver (anything but `fopen` and `Sleep`). -/
def Event.onProxy : Event → Bool
  | Event.fopen _ => false
  | Event.Sleep _ => false
  | _ => true

/-- The seven fields compared at lines 897-900. -/
def fieldsDiffer (old new : TextureDescription) : Prop :=
  old.width ≠ new.width ∨ old.height ≠ new.height ∨ old.depth ≠ new.depth ∨
  old.cubemap ≠ new.cubemap ∨ old.mips ≠ new.mips ∨ old.arraysize ≠ new.arraysize ∨
  old.format ≠ new.format

/-! ## Closed forms and rules

Closed forms for what the loops compute (each is compared with its loop by a
lemma below), and the rules of the specification in its own words. -/

/-- The upload calls among the calls issued. -/
def uploadsOf (evs : List Event) : List Event := evs.filter Event.isUpload

/-- The create calls among the calls issued. -/
def createsOf (evs : List Event) : List Event := evs.filter Event.isCreate

/-- What a run of `RefreshFile` leaves to observe: the viewer, the create calls
and the upload calls. -/
def observed (r : Option (ImageViewer × List Event)) :
    Option (ImageViewer × List Event × List Event) :=
  r.map (fun p => (p.1, createsOf p.2, uploadsOf p.2))

/-- The calls of `n` failed open attempts starting at `attempt`: each attempt is
followed by one sleep of 40 ms. -/
def failedAttempts (attempt n : Nat) : List Event :=
  ((List.range n).map (fun j => [Event.fopen (attempt + j), Event.Sleep 40])).flatten

/-- A closed form for the list that the loop of lines 966-978 builds from
`oldSubs` for an array of `D` slices and `M` mips (compared with the loop in
`remap_collect`). -/
def remapped (oldSubs : List (Nat × Nat)) (D M : Nat) : List (Nat × Nat) :=
  (List.range (u32 (D * M))).map (fun i =>
    ((oldSubs.getD (i % M) (0, 0)).1 + (oldSubs.getD (i % M) (0, 0)).2 / D * (i / M),
     (oldSubs.getD (i % M) (0, 0)).2 / D))

/-- `RDCMAX(1U, x >> mip)` for the mip of subresource index `i`. -/
def mipExtent (x mips i : Nat) : Nat := RDCMAX 1 (x >>> (i % mips))

/-- The number of texels the three nested loops visit for subresource `i`. -/
def texelCount (t : TextureDescription) (i : Nat) : Nat :=
  mipExtent t.depth t.mips i * mipExtent t.height t.mips i * mipExtent t.width t.mips i

/-- The byte length given to the converted subresource `i` (line 1015). -/
def convertedSize (t : TextureDescription) (i : Nat) : Nat :=
  16 * mipExtent t.width t.mips i * mipExtent t.height t.mips i * mipExtent t.depth t.mips i

/-- The sum of the converted lengths of the subresources before `i`. -/
def convertedOffset (t : TextureDescription) (i : Nat) : Nat :=
  ((List.range i).map (convertedSize t)).sum

/-- The texel decoded from the source bytes at `originalOffset(i) + k * srcStride`. -/
def sourceTexel (ops : FormatOps) (t : TextureDescription) (rd : read_dds_data) (i k : Nat) :
    FloatVector :=
  ops.DecodeFormattedComponents t.format
    (rd.buffer.drop ((rd.subresources.getD i (0, 0)).1 + k * srcStrideOf ops t.format))

/-- The bytes of the converted subresource `i`: its texels in order. -/
def convertedBytes (ops : FormatOps) (t : TextureDescription) (rd : read_dds_data) (i : Nat) :
    bytebuf :=
  ((List.range (texelCount t i)).map (fun k => (sourceTexel ops t rd i k).toBytes)).flatten

/-- The original bytes of subresource `i`, as `m_RealTexData[i]` keeps them. -/
def originalBytes (rd : read_dds_data) (i : Nat) : bytebuf :=
  (rd.buffer.drop (rd.subresources.getD i (0, 0)).1).take (rd.subresources.getD i (0, 0)).2

/-- The state of the conversion loop after `k` iterations, in closed form. -/
def convertedState (ops : FormatOps) (t : TextureDescription) (rd : read_dds_data)
    (real0 : List bytebuf) (k : Nat) : ConvState :=
  { subresources :=
      (List.range k).map (fun j => (convertedOffset t j, convertedSize t j)) ++
        rd.subresources.drop k,
    m_RealTexData := (List.range k).map (originalBytes rd) ++ real0.drop k,
    convertedData := ((List.range k).map (convertedBytes ops t rd)).flatten }

/-- What the conversion leaves for subresource `i`: `before` and `after` are
`read_data` before and after the negotiator.  Entry `i` existed before; after,
it starts where the converted lengths of the subresources before it end and is
`convertedSize t i` bytes long; and texel `k` of it holds the 16 bytes of the
vector decoded from the source bytes at `originalOffset(i) + k * srcStride`. -/
def ConvertedAt (ops : FormatOps) (t : TextureDescription) (before after : read_dds_data)
    (i : Nat) : Prop :=
  ∃ old, before.subresources[i]? = some old ∧
    after.subresources[i]? = some (convertedOffset t i, convertedSize t i) ∧
    ∀ k, k < texelCount t i →
      (after.buffer.drop (convertedOffset t i + 16 * k)).take 16 =
        (ops.DecodeFormattedComponents t.format
          (before.buffer.drop (old.1 + k * srcStrideOf ops t.format))).toBytes

/-- The rule of the specification for `type` and `dimension`, in its words:
depth > 1 gives Texture3D with dimension 3; otherwise cubemap gives TextureCube
(TextureCubeArray when arraysize > 1) with dimension 2; otherwise height > 1
gives Texture2D (Texture2DArray when arraysize > 1) with dimension 2; otherwise
Texture1D (Texture1DArray when arraysize > 1) with dimension 1. -/
def typeRule (depth : Nat) (cubemap : Bool) (arraysize height : Nat) : TextureType × Nat :=
  if depth > 1 then (TextureType.Texture3D, 3)
  else if cubemap then
    (if arraysize > 1 then TextureType.TextureCubeArray else TextureType.TextureCube, 2)
  else if height > 1 then
    (if arraysize > 1 then TextureType.Texture2DArray else TextureType.Texture2D, 2)
  else
    (if arraysize > 1 then TextureType.Texture1DArray else TextureType.Texture1D, 1)

/-- The rule applied to a description. -/
def followsRule (t : TextureDescription) : Prop :=
  (t.type, t.dimension) = typeRule t.depth t.cubemap t.arraysize t.height

/-- The rule of the specification for a caller-supplied identity, in its words:
the identity itself when it equals the current primary or the current derived
(custom) identity, and the current primary identity otherwise. -/
def rewrittenId (v : ImageViewer) (id : ResourceId) : ResourceId :=
  if id = v.m_TextureID ∨ id = v.m_CustomTexID then id else v.m_TextureID

/-! ## Concrete instances

A format table, a proxy driver and a few files on which the definitions are
evaluated. -/

/-- A block-compressed format (`Other 1` stands for `BC1`). -/
def bc1 : ResourceFormat :=
  { type := ResourceFormatType.Other 1, compType := CompType.Other 0, compCount := 4,
    compByteWidth := 1, flags := 0 }

/-- A one-byte format that drivers do not support natively (`Other 19` stands
for `R4G4`). -/
def r4g4 : ResourceFormat :=
  { type := ResourceFormatType.Other 19, compType := CompType.Other 0, compCount := 2,
    compByteWidth := 1, flags := 0 }

/-- Format methods: `bc1` is the block format, `r4g4` texels are one byte and
decode to a vector that carries the byte. -/
def sampleOps : FormatOps :=
  { BlockFormat := fun f => decide (f = bc1),
    ElementSize := fun f => if f = r4g4 then 1 else f.compCount * f.compByteWidth,
    convertSupported := fun f => decide (f = r4g4),
    DecodeFormattedComponents := fun _ src =>
      { x := src.headD 0, y := 0, z := 0, w := float_one } }

/-- A proxy that supports the two RGBA formats, and `bc1` on everything but 3D
textures; the `n`-th texture it creates gets the id `n + 1`. -/
def sampleProxy : IReplayDriver :=
  { localRenderer := GraphicsAPI.D3D11,
    IsTextureSupported := fun t =>
      decide (t.format = rgba8_unorm ∨ t.format = rgba32_float ∨
        (t.format = bc1 ∧ t.type ≠ TextureType.Texture3D)),
    CreateProxyTexture := fun n _ => n + 1,
    GetTexture := fun _ => defaultTexDetails 0,
    GetTextureData := fun _ _ _ => [],
    GetMinMax := fun _ _ _ => true,
    GetHistogram := fun _ _ _ => true,
    RenderTexture := fun _ => true,
    ApplyCustomShader := fun _ => 100,
    FatalErrorCheck := ResultCode.Succeeded }

/-- Answers of tinyexr that are never consulted. -/
def noExr : ExrAnswers :=
  { ParseEXRVersionFromMemory := -1,
    exrVersion := { version := 0, tiled := 0, long_name := 0, non_image := 0, multipart := 0 },
    ParseEXRHeaderFromMemory := -1, channelNames := [], LoadEXRImageFromMemory := -1,
    width := 0, height := 0, num_channels := 0, images := [], FreeEXRImage := 0 }

/-- A generic raster file of `W` by `H` pixels that opens at once. -/
def genericFile (W H : Nat) (pixels : bytebuf) : FileWorld :=
  { fopen := fun _ => true, fileSize := 64, is_exr_file := false,
    stbi_is_hdr_from_file := false, is_dds_file := false, exr := noExr,
    malloc := fun _ => true,
    stbi_loadf_from_file := { data := none, x := 0, y := 0 },
    stbi_info_from_file := { ret := 1, x := W, y := H },
    stbi_load_from_file := { data := some pixels, x := W, y := H },
    load_dds_from_file := (ResultCode.FileIOFailed, read_dds_data.empty) }

/-- A DDS file with the given contents that opens at once. -/
def ddsFile (rd : read_dds_data) : FileWorld :=
  { fopen := fun _ => true, fileSize := 128, is_exr_file := false,
    stbi_is_hdr_from_file := false, is_dds_file := true, exr := noExr,
    malloc := fun _ => true,
    stbi_loadf_from_file := { data := none, x := 0, y := 0 },
    stbi_info_from_file := { ret := 0, x := 0, y := 0 },
    stbi_load_from_file := { data := none, x := 0, y := 0 },
    load_dds_from_file := (ResultCode.Succeeded, rd) }

/-- `TextureDescription()`, for the instances. -/
def blankDetails : TextureDescription :=
  { creationFlags := 0, cubemap := false, resourceId := 0, byteSize := 0, msQual := 0,
    msSamp := 0, format := { type := ResourceFormatType.Regular, compType := CompType.Other 0,
                             compCount := 0, compByteWidth := 0, flags := 0 },
    type := TextureType.Other 0, dimension := 0, arraysize := 0, width := 0, height := 0,
    depth := 0, mips := 0 }

/-- A raster of 2 by 1 pixels: eight bytes of RGBA. -/
def raster2x1 : FileWorld := genericFile 2 1 [10, 11, 12, 13, 20, 21, 22, 23]

/-- The viewer after `raster2x1` was loaded by the constructor. -/
def viewerAfterRaster : ImageViewer :=
  { m_TextureID := 1, m_CustomTexID := 0,
    m_TexDetails := storedDetails
      { defaultTexDetails 0 with width := 2, height := 1 } 1 64,
    m_Error := ResultCode.Succeeded, m_RealTexData := [],
    frameInfo := { initDataSize := 0, persistentSize := 0, uncompressedFileSize := 8,
                   compressedFileSize := 8 },
    created := 1 }

/-- The locals of `RefreshFile` at line 890 when `raster2x1` is refreshed while
the handle `1` is held. -/
def decodedRaster : Decoded :=
  { texDetails := { defaultTexDetails 1 with width := 2, height := 1 },
    data := [10, 11, 12, 13, 20, 21, 22, 23], datasize := 8, dds := false,
    read_data := read_dds_data.empty }

/-- A DDS file of one `r4g4` texel: the proxy rejects the format and the
viewer converts it on the CPU. -/
def r4g4File : FileWorld :=
  ddsFile { cubemap := false, slices := 1, width := 1, height := 1, depth := 1, mips := 1,
            format := r4g4, buffer := [7], subresources := [(0, 1)] }

/-- A DDS file with a `bc1` volume of 4 by 4 by 2 texels and one mip: the proxy
rejects it as a 3D texture and accepts it as a 2D array. -/
def bc1Volume : FileWorld :=
  ddsFile { cubemap := false, slices := 1, width := 4, height := 4, depth := 2, mips := 1,
            format := bc1,
            buffer := [1, 2, 3, 4, 5, 6, 7, 8, 9, 10, 11, 12, 13, 14, 15, 16],
            subresources := [(0, 16)] }

/-- The sixteen bytes of the texel that `sampleOps` decodes from the byte 7. -/
def texel7 : bytebuf := [7, 0, 0, 0, 0, 0, 0, 0, 0, 0, 0, 0, 0, 0, 128, 63]

/-- The viewer after the constructor has loaded `r4g4File`. -/
def viewerAfterR4G4 : ImageViewer :=
  { m_TextureID := 1, m_CustomTexID := 0,
    m_TexDetails :=
      { defaultTexDetails 1 with format := r4g4, type := TextureType.Texture1D,
                                 dimension := 1, byteSize := 128 },
    m_Error := ResultCode.Succeeded, m_RealTexData := [[7]],
    frameInfo := { initDataSize := 0, persistentSize := 0, uncompressedFileSize := 1,
                   compressedFileSize := 1 },
    created := 1 }

/-- The viewer after the constructor has loaded `bc1Volume`. -/
def viewerAfterVolume : ImageViewer :=
  { m_TextureID := 1, m_CustomTexID := 0,
    m_TexDetails :=
      { defaultTexDetails 1 with format := bc1, type := TextureType.Texture3D,
                                 dimension := 3, width := 4, height := 4, depth := 2,
                                 byteSize := 128 },
    m_Error := ResultCode.Succeeded, m_RealTexData := [],
    frameInfo := { initDataSize := 0, persistentSize := 0, uncompressedFileSize := 16,
                   compressedFileSize := 16 },
    created := 1 }

/-- The description of a `bc1` volume of 8 by 8 by 4 texels with two mips. -/
def volumeDetails : TextureDescription :=
  { defaultTexDetails 0 with format := bc1, type := TextureType.Texture3D, dimension := 3,
                             width := 8, height := 8, depth := 4, mips := 2 }

/-- Its data: mip 0 is 128 bytes at offset 0, mip 1 is 16 bytes at offset 128. -/
def volumeData : read_dds_data :=
  { cubemap := false, slices := 1, width := 8, height := 8, depth := 4, mips := 2,
    format := bc1, buffer := List.replicate 144 0, subresources := [(0, 128), (128, 16)] }

/-- The description of a `bc1` volume of depth `2^31` with two mips: the 32-bit
product `arraysize * mips` of the remapped description is `2^32`. -/
def hugeDetails : TextureDescription :=
  { defaultTexDetails 0 with format := bc1, type := TextureType.Texture3D, dimension := 3,
                             width := 4, height := 4, depth := 2147483648, mips := 2 }

/-- Its data: one 8-byte block per slice in mip 0 (`2^34` bytes) and in mip 1
(`2^33` bytes). -/
def hugeData : read_dds_data :=
  { cubemap := false, slices := 1, width := 4, height := 4, depth := 2147483648, mips := 2,
    format := bc1, buffer := List.replicate 25769803776 0,
    subresources := [(0, 17179869184), (17179869184, 8589934592)] }

/-- The description of an `r4g4` texture of 2 by 2 texels with two mips and
three slices. -/
def arrayDetails3 : TextureDescription :=
  { defaultTexDetails 0 with format := r4g4, type := TextureType.Texture2DArray,
                             width := 2, height := 2, arraysize := 3, mips := 2 }

/-- Its data: every slice is 4 bytes of mip 0 followed by 1 byte of mip 1. -/
def arrayData3 : read_dds_data :=
  { cubemap := false, slices := 3, width := 2, height := 2, depth := 1, mips := 2,
    format := r4g4,
    buffer := [10, 11, 12, 13, 14, 20, 21, 22, 23, 24, 30, 31, 32, 33, 34],
    subresources := [(0, 4), (4, 1), (5, 4), (9, 1), (10, 4), (14, 1)] }

/-- The description of an `r4g4` texture of 2 by 2 texels with two mips and
`2^31` slices: the 32-bit product `arraysize * mips` is `2^32`. -/
def hugeArrayDetails : TextureDescription :=
  { defaultTexDetails 0 with format := r4g4, type := TextureType.Texture2DArray,
                             width := 2, height := 2, arraysize := 2147483648, mips := 2 }

/-- Data with `2^32` subresource entries for it. -/
def hugeArrayData : read_dds_data :=
  { cubemap := false, slices := 2147483648, width := 2, height := 2, depth := 1, mips := 2,
    format := r4g4, buffer := List.replicate 4294967296 0,
    subresources := List.replicate 4294967296 (0, 4) }

/-- A DDS file with the contents `arrayData3`. -/
def arrayFile3 : FileWorld := ddsFile arrayData3

/-- The locals of `RefreshFile` at line 890 when the constructor loads
`arrayFile3`. -/
def decodedArray3 : Decoded :=
  { texDetails := arrayDetails3, data := [], datasize := 0, dds := true,
    read_data := arrayData3 }

/-- The viewer at line 890 when the constructor loads `arrayFile3`. -/
def viewerLoadingArray3 : ImageViewer :=
  { initialViewer blankDetails with
      frameInfo := { initDataSize := 0, persistentSize := 0, uncompressedFileSize := 15,
                     compressedFileSize := 15 } }

/-- A DDS file with the contents `hugeArrayData`. -/
def hugeArrayFile : FileWorld := ddsFile hugeArrayData

/-- A tiled EXR file: the version block parses and has the `tiled` flag set. -/
def tiledExr : FileWorld :=
  { fopen := fun _ => true, fileSize := 256, is_exr_file := true,
    stbi_is_hdr_from_file := false, is_dds_file := false,
    exr := { ParseEXRVersionFromMemory := 0,
             exrVersion := { version := 2, tiled := 1, long_name := 0, non_image := 0,
                             multipart := 0 },
             ParseEXRHeaderFromMemory := 0, channelNames := [], LoadEXRImageFromMemory := 0,
             width := 1, height := 1, num_channels := 0, images := [], FreeEXRImage := 0 },
    malloc := fun _ => true,
    stbi_loadf_from_file := { data := none, x := 0, y := 0 },
    stbi_info_from_file := { ret := 0, x := 0, y := 0 },
    stbi_load_from_file := { data := none, x := 0, y := 0 },
    load_dds_from_file := (ResultCode.FileIOFailed, read_dds_data.empty) }

/-- A call of `IMG_CreateReplayDevice` with a valid file handle, for which a
proxy driver would be available. -/
def sampleDevice : DeviceWorld :=
  { rdc := true, f := true,
    CreateProxyReplayDriver := (ResultCode.Succeeded, some sampleProxy) }

/-- A file that is locked for the first three open attempts. -/
def lockedThrice : FileWorld :=
  { raster2x1 with fopen := fun k => decide (3 ≤ k) }

/-- A file that stays locked. -/
def lockedForever : FileWorld :=
  { raster2x1 with fopen := fun _ => false }

/-- The viewer after `raster2x1` was loaded and a custom shader was applied:
the primary identity is 1, the derived one is 100. -/
def viewerWithCustom : ImageViewer :=
  (ApplyCustomShader sampleProxy viewerAfterRaster
    { resourceId := 1, flipY := false, rest := 0 }).1

/-! ## Sequences of calls on the viewer -/

/-- One call on the viewer from outside.  `FileChanged()` (line 366) runs
`RefreshFile()` on the file as it is at that moment. -/
inductive Call where
  | FileChanged (w : FileWorld)
  | PickPixel (texture : ResourceId) (x y : Nat) (sub : Subresource) (typeCast : CompType)
  | GetMinMax (texid : ResourceId) (sub : Subresource) (typeCast : CompType)
  | GetHistogram (texid : ResourceId) (sub : Subresource) (typeCast : CompType)
  | RenderTexture (cfg : TextureDisplay)
  | ApplyCustomShader (display : TextureDisplay)
  | GetTextureData (tex : ResourceId) (sub : Subresource) (params : GetTextureDataParams)

/-- The viewer after one call, and the calls issued to the outside. -/
def perform (ops : FormatOps) (proxy : IReplayDriver) (v : ImageViewer) :
    Call → Option (ImageViewer × List Event)
  | Call.FileChanged w => RefreshFile ops proxy w v
  | Call.PickPixel texture x y sub typeCast =>
    (PickPixel proxy v texture x y sub typeCast).map (fun evs => (v, evs))
  | Call.GetMinMax texid sub typeCast => some (v, (GetMinMax proxy v texid sub typeCast).2)
  | Call.GetHistogram texid sub typeCast =>
    some (v, (GetHistogram proxy v texid sub typeCast).2)
  | Call.RenderTexture cfg => some (v, (RenderTexture proxy v cfg).2)
  | Call.ApplyCustomShader display =>
    some ((ApplyCustomShader proxy v display).1, (ApplyCustomShader proxy v display).2.2)
  | Call.GetTextureData tex sub params =>
    (GetTextureData proxy v tex sub params).map (fun r => (v, r.2))

/-- The viewer after a sequence of calls, and the calls issued. -/
def performAll (ops : FormatOps) (proxy : IReplayDriver) (v : ImageViewer) :
    List Call → Option (ImageViewer × List Event)
  | [] => some (v, [])
  | c :: cs =>
    match perform ops proxy v c with
    | none => none
    | some r1 =>
      match performAll ops proxy r1.1 cs with
      | none => none
      | some r2 => some (r2.1, r1.2 ++ r2.2)

/-- A file whose decoder fails: a generic raster that `stbi_info` cannot
identify. -/
def unreadableFile : FileWorld :=
  { genericFile 0 0 [] with stbi_info_from_file := { ret := 0, x := 0, y := 0 } }

/-- The viewer after the constructor's refresh of `unreadableFile`. -/
def viewerAfterUnreadable : ImageViewer :=
  { initialViewer blankDetails with m_Error := ResultCode.ImageUnsupported }

/-- A successful refresh, a custom shader, a converted DDS load and a query. -/
def callsAfterFailure : List Call :=
  [Call.FileChanged raster2x1,
   Call.ApplyCustomShader { resourceId := 1, flipY := false, rest := 0 },
   Call.FileChanged r4g4File,
   Call.GetMinMax 1 { mip := 0, slice := 0, sample := 0 } CompType.Float]

/-- A format that `sampleProxy` does not support and `sampleOps` cannot
decode. -/
def oddFormat : ResourceFormat :=
  { type := ResourceFormatType.Other 77, compType := CompType.Other 0, compCount := 1,
    compByteWidth := 1, flags := 0 }

/-- A DDS file of one texel in `oddFormat`. -/
def oddFile : FileWorld :=
  ddsFile { cubemap := false, slices := 1, width := 1, height := 1, depth := 1, mips := 1,
            format := oddFormat, buffer := [9], subresources := [(0, 1)] }

/-- The description decoded from `oddFile` while the handle `id` is held. -/
def oddDetails (id : ResourceId) : TextureDescription :=
  { defaultTexDetails id with format := oddFormat, type := TextureType.Texture1D,
                              dimension := 1 }

/-- A proxy that renders with OpenGL and reports a height of 8 for every
texture. -/
def glProxy : IReplayDriver :=
  { sampleProxy with localRenderer := GraphicsAPI.OpenGL,
                     GetTexture := fun _ => { defaultTexDetails 0 with height := 8 } }

/-! ## The EXR channel rule -/

/-- The letter that selects slot `c` of a pixel: R, G, B, A. -/
def slotLetter (c : Nat) : Char :=
  if c = 0 then 'R' else if c = 1 then 'G' else if c = 2 then 'B' else 'A'

/-- The last of the first `n` header channels whose name starts with
`letter`. -/
def lastChannel (names : List (List Char)) (letter : Char) : Nat → Option Nat
  | 0 => none
  | n + 1 =>
    if names[n]?.map name0 = some letter then some n else lastChannel names letter n

/-- Closed form of `channels[c]` after the loop of lines 740-749. -/
def channelIndex (names : List (List Char)) (n c : Nat) : Int :=
  match lastChannel names (slotLetter c) n with
  | some ch => (ch : Int)
  | none => -1

/-- Closed form of `int channels[4]` after the loop of lines 740-749. -/
def channelsOf (names : List (List Char)) (n : Nat) : List Int :=
  [channelIndex names n 0, channelIndex names n 1, channelIndex names n 2,
   channelIndex names n 3]

/-- The rule for slot `c` of pixel `i`: the value at `i` of the last channel
whose name starts with the slot's letter; without such a channel 0.0 for the
colours and 1.0 for alpha. -/
def slotRule (e : ExrAnswers) (i c : Nat) : Option float :=
  match lastChannel e.channelNames (slotLetter c) e.num_channels with
  | some ch => (e.images[ch]?).bind (fun img => img[i]?)
  | none => some (if c < 3 then float_zero else float_one)

/-- The floats of `npix` pixels under `slotRule`. -/
def rgbaOf (e : ExrAnswers) (npix : Nat) : List float :=
  ((List.range npix).map (fun i => (List.range 4).map (fun c => (slotRule e i c).getD 0))).flatten

/-- An EXR file that opens at once and passes the checks of lines 636-724. -/
def exrFile (e : ExrAnswers) : FileWorld :=
  { fopen := fun _ => true, fileSize := 256, is_exr_file := true,
    stbi_is_hdr_from_file := false, is_dds_file := false, exr := e,
    malloc := fun _ => true,
    stbi_loadf_from_file := { data := none, x := 0, y := 0 },
    stbi_info_from_file := { ret := 0, x := 0, y := 0 },
    stbi_load_from_file := { data := none, x := 0, y := 0 },
    load_dds_from_file := (ResultCode.FileIOFailed, read_dds_data.empty) }

/-- A scanline EXR version block. -/
def scanlineVersion : EXRVersion :=
  { version := 2, tiled := 0, long_name := 0, non_image := 0, multipart := 0 }

/-- A 2 by 1 EXR image with the channels A, B, G, R in the header's
alphabetical order. -/
def rgbaExr : ExrAnswers :=
  { ParseEXRVersionFromMemory := 0, exrVersion := scanlineVersion,
    ParseEXRHeaderFromMemory := 0,
    channelNames := [['A'], ['B'], ['G'], ['R']], LoadEXRImageFromMemory := 0,
    width := 2, height := 1, num_channels := 4,
    images := [[40, 41], [30, 31], [20, 21], [10, 11]], FreeEXRImage := 0 }

/-- A 2 by 1 luminance/chroma EXR image: its channels are named BY, RY and
Y. -/
def chromaExr : ExrAnswers :=
  { ParseEXRVersionFromMemory := 0, exrVersion := scanlineVersion,
    ParseEXRHeaderFromMemory := 0,
    channelNames := [['B', 'Y'], ['R', 'Y'], ['Y']], LoadEXRImageFromMemory := 0,
    width := 2, height := 1, num_channels := 3,
    images := [[5, 15], [6, 16], [7, 17]], FreeEXRImage := 0 }

/-- The channel rule on a buffer of floats: it has four floats per pixel, and
slot `c` of pixel `i` holds the value at `i` of the last header channel whose
name starts with the slot's letter, and without such a channel 0.0 for the
colours and 1.0 for alpha. -/
def FollowsChannelRule (e : ExrAnswers) (rgba : List float) : Prop :=
  rgba.length = 4 * (e.width * e.height) ∧
  ∀ i c, i < e.width * e.height → c < 4 →
    (∀ ch, lastChannel e.channelNames (slotLetter c) e.num_channels = some ch →
      ∃ img x, e.images[ch]? = some img ∧ img[i]? = some x ∧ rgba[i * 4 + c]? = some x) ∧
    (lastChannel e.channelNames (slotLetter c) e.num_channels = none →
      rgba[i * 4 + c]? = some (if c < 3 then float_zero else float_one))

/-! ## Subresource ranges -/

/-- Every subresource entry's range `[offset, offset + length)` lies within
the backing buffer. -/
def RangesInBuffer (rd : read_dds_data) : Prop :=
  ∀ e, e ∈ rd.subresources → e.1 + e.2 ≤ rd.buffer.length

/-- The ranges `a` and `b` have no byte in common. -/
def disjointRanges (a b : Nat × Nat) : Prop := a.1 + a.2 ≤ b.1 ∨ b.1 + b.2 ≤ a.1

/-- The ranges are contiguous from 0 and exactly cover a buffer of `len`
bytes: the first starts at 0, each next one starts where the one before ends,
an earlier one ends at or before the start of a later one, and the lengths add
up to `len`. -/
def Tiles (subs : List (Nat × Nat)) (len : Nat) : Prop :=
  (∀ a : Nat × Nat, subs[0]? = some a → a.1 = 0) ∧
  (∀ (i : Nat) (a b : Nat × Nat), subs[i]? = some a → subs[i + 1]? = some b →
    b.1 = a.1 + a.2) ∧
  (∀ (i j : Nat) (a b : Nat × Nat), i < j → subs[i]? = some a → subs[j]? = some b →
    a.1 + a.2 ≤ b.1) ∧
  (subs.map (fun e => e.2)).sum = len

/-- A DDS file of 2 by 1 texels in the RGBA8 format, which `sampleProxy`
supports. -/
def rgbaDds : FileWorld :=
  ddsFile { cubemap := false, slices := 1, width := 2, height := 1, depth := 1, mips := 1,
            format := rgba8_unorm, buffer := [1, 2, 3, 4, 5, 6, 7, 8],
            subresources := [(0, 8)] }

/-- The description decoded from `rgbaDds` while the handle `id` is held. -/
def rgbaDdsDetails (id : ResourceId) : TextureDescription :=
  { defaultTexDetails id with width := 2, type := TextureType.Texture1D, dimension := 1 }

/-- A raster of 32768 by 32768 pixels that `stbi_load_from_file` decodes to
`2^32` bytes. -/
def bigRaster : FileWorld := genericFile 32768 32768 (List.replicate 4294967296 0)

/-- A scanline EXR image of 32768 by 32768 pixels with the single channel R. -/
def bigExr : ExrAnswers :=
  { ParseEXRVersionFromMemory := 0, exrVersion := scanlineVersion,
    ParseEXRHeaderFromMemory := 0, channelNames := [['R']], LoadEXRImageFromMemory := 0,
    width := 32768, height := 32768, num_channels := 1,
    images := [List.replicate 1073741824 0], FreeEXRImage := 0 }

/-- A DDS file in the RGBA8 format with `2^31` slices of two mips and `2^32`
subresource entries: the 32-bit product `arraysize * mips` is 0. -/
def hugeRgbaFile : FileWorld :=
  ddsFile { cubemap := false, slices := 2147483648, width := 2, height := 2, depth := 1,
            mips := 2, format := rgba8_unorm, buffer := List.replicate 4294967296 0,
            subresources := List.replicate 4294967296 (0, 4) }

/-- Locals of `RefreshFile` at line 920 that hold the description and the data
of `arrayData3`. -/
def negotiatedArray3 : Negotiated :=
  { viewer := viewerLoadingArray3, texDetails := arrayDetails3, read_data := arrayData3,
    events := [] }

/-! ## Lemmas on the loops -/

theorem collect_length {α : Type} (f : Nat → Option α) :
    ∀ (n : Nat) (l : List α), collect f n = some l → l.length = n := by
  intro n
  induction n with
  | zero => intro l h; simp [collect] at h; simp [← h]
  | succ n ih =>
    intro l h
    simp only [collect] at h
    cases hc : collect f n with
    | none => simp [hc] at h
    | some xs =>
      cases hf : f n with
      | none => simp [hc, hf] at h
      | some x =>
        simp [hc, hf] at h
        subst h
        simp [ih xs hc]

theorem collect_get {α : Type} (f : Nat → Option α) :
    ∀ (n : Nat) (l : List α), collect f n = some l → ∀ i, i < n → f i = l[i]? := by
  intro n
  induction n with
  | zero => intro l _ i hi; omega
  | succ n ih =>
    intro l h i hi
    simp only [collect] at h
    cases hc : collect f n with
    | none => simp [hc] at h
    | some xs =>
      cases hf : f n with
      | none => simp [hc, hf] at h
      | some x =>
        simp [hc, hf] at h
        subst h
        have hlen := collect_length f n xs hc
        by_cases hin : i < n
        · rw [List.getElem?_append_left (by omega)]
          exact ih xs hc i hin
        · have : i = n := by omega
          subst this
          rw [List.getElem?_append_right (by omega)]
          simp [hlen, hf]

theorem collect_some_of_forall {α : Type} (f : Nat → Option α) (g : Nat → α) :
    ∀ (n : Nat), (∀ i, i < n → f i = some (g i)) →
      collect f n = some ((List.range n).map g) := by
  intro n
  induction n with
  | zero => intro _; rfl
  | succ n ih =>
    intro h
    simp only [collect]
    rw [ih (fun i hi => h i (by omega)), h n (by omega)]
    simp [List.range_succ]

theorem collect_defined {α : Type} (f : Nat → Option α) :
    ∀ (n : Nat), (∀ i, i < n → ∃ x, f i = some x) → ∃ l, collect f n = some l := by
  intro n
  induction n with
  | zero => intro _; exact ⟨[], rfl⟩
  | succ n ih =>
    intro h
    obtain ⟨xs, hxs⟩ := ih (fun i hi => h i (by omega))
    obtain ⟨x, hx⟩ := h n (by omega)
    exact ⟨xs ++ [x], by simp [collect, hxs, hx]⟩

theorem collect_congr {α : Type} (f g : Nat → Option α) :
    ∀ (n : Nat), (∀ i, i < n → f i = g i) → collect f n = collect g n := by
  intro n
  induction n with
  | zero => intro _; rfl
  | succ n ih =>
    intro h
    simp only [collect]
    rw [ih (fun i hi => h i (by omega)), h n (by omega)]

theorem collect_mem {α : Type} (f : Nat → Option α) (n : Nat) (l : List α)
    (h : collect f n = some l) (x : α) (hx : x ∈ l) : ∃ i, i < n ∧ f i = some x := by
  obtain ⟨i, hi, rfl⟩ := List.getElem_of_mem hx
  have hlen := collect_length f n l h
  refine ⟨i, by omega, ?_⟩
  rw [collect_get f n l h i (by omega)]
  exact List.getElem?_eq_getElem hi

theorem sizeLoop_bound (subs : List (Nat × Nat)) (t0 : Nat) :
    ∀ (n t : Nat), loopFrom (sizeStep subs) t0 n = some t → n ≤ subs.length := by
  intro n
  induction n with
  | zero => intro t _; omega
  | succ n ih =>
    intro t h
    simp only [loopFrom] at h
    cases hl : loopFrom (sizeStep subs) t0 n with
    | none => simp [hl] at h
    | some s =>
      have := ih s hl
      simp only [hl, sizeStep] at h
      cases hs : subs[n]? with
      | none => simp [hs] at h
      | some e =>
        have := (List.getElem?_eq_some_iff.mp hs).1
        omega

theorem u32_mul_pos_right (a m : Nat) (h : u32 (a * m) ≠ 0) : m ≠ 0 := by
  intro hm
  subst hm
  simp [u32] at h

theorem u32_mul_pos_left (a m : Nat) (h : u32 (a * m) ≠ 0) : a ≠ 0 := by
  intro hm
  subst hm
  simp [u32] at h

theorem uploadCall_defined (id : ResourceId) (tex : TextureDescription) (rd : read_dds_data)
    (n : Nat) (hn : n = u32 (tex.arraysize * tex.mips)) (hlen : n ≤ rd.subresources.length) :
    ∃ ups, collect (uploadCall id tex rd) n = some ups := by
  apply collect_defined
  intro i hi
  have hm : tex.mips ≠ 0 := u32_mul_pos_right tex.arraysize tex.mips (by omega)
  have hi2 : i < rd.subresources.length := by omega
  simp [uploadCall, hm, List.getElem?_eq_getElem hi2]

theorem uploadCall_isUpload (id : ResourceId) (tex : TextureDescription) (rd : read_dds_data)
    (n : Nat) (ups : List Event) (h : collect (uploadCall id tex rd) n = some ups) :
    ∀ e, e ∈ ups → e.isUpload = true := by
  intro e he
  obtain ⟨i, _, hi⟩ := collect_mem _ n ups h e he
  unfold uploadCall at hi
  split at hi
  · simp at hi
  · split at hi
    · simp at hi
    · simp at hi
      subst hi
      rfl

theorem openLoop_events (fopen : Nat → Bool) :
    ∀ (remaining attempt : Nat) (e : Event), e ∈ (openLoop fopen remaining attempt).2 →
      e.onProxy = false := by
  intro remaining
  induction remaining with
  | zero => intro attempt e he; simp [openLoop] at he
  | succ r ih =>
    intro attempt e he
    simp only [openLoop] at he
    split at he
    · simp at he; subst he; rfl
    · simp at he
      rcases he with he | he | he
      · subst he; rfl
      · subst he; rfl
      · exact ih _ e he

/-! ## Lemmas on `loadFile` -/

theorem recordSizes_ok (l : Loaded) (v1 : ImageViewer) (d : Decoded)
    (h : recordSizes l = Loaded.ok v1 d) :
    ∃ v0, l = Loaded.ok v0 d ∧ v1 = { v0 with frameInfo := v1.frameInfo } := by
  cases l with
  | failed v => simp [recordSizes] at h
  | ok v0 d0 =>
    simp only [recordSizes, Loaded.ok.injEq] at h
    obtain ⟨h1, h2⟩ := h
    subst h1 h2
    exact ⟨v0, rfl, rfl⟩

theorem loadEXR_ok (w : FileWorld) (v : ImageViewer) (t : TextureDescription)
    (v0 : ImageViewer) (d : Decoded) (h : loadEXR w v t = some (Loaded.ok v0 d)) :
    v0 = v ∧ d.dds = false := by
  unfold loadEXR at h
  split at h
  · simp [failWith] at h
  · unfold loadEXRImage at h
    split at h
    · simp [failWith] at h
    · split at h
      · simp at h
      · split at h
        · simp [failWith] at h
        · simp only [Option.some.injEq, Loaded.ok.injEq] at h
          obtain ⟨h1, h2⟩ := h
          subst h1 h2
          exact ⟨rfl, rfl⟩

theorem loadHDR_ok (w : FileWorld) (v : ImageViewer) (t : TextureDescription)
    (v0 : ImageViewer) (d : Decoded) (h : loadHDR w v t = some (Loaded.ok v0 d)) :
    v0 = v ∧ d.dds = false := by
  unfold loadHDR at h
  simp only [] at h
  split at h
  · simp [failWith] at h
  · simp only [Option.some.injEq, Loaded.ok.injEq] at h
    obtain ⟨h1, h2⟩ := h
    subst h1 h2
    exact ⟨rfl, rfl⟩

theorem loadGeneric_ok (w : FileWorld) (v : ImageViewer) (t : TextureDescription)
    (v0 : ImageViewer) (d : Decoded) (h : loadGeneric w v t = some (Loaded.ok v0 d)) :
    v0 = v ∧ d.dds = false := by
  unfold loadGeneric at h
  simp only [] at h
  split at h
  · simp [failWith] at h
  · split at h
    · simp [failWith] at h
    · split at h
      · simp [failWith] at h
      · simp only [Option.some.injEq, Loaded.ok.injEq] at h
        obtain ⟨h1, h2⟩ := h
        subst h1 h2
        exact ⟨rfl, rfl⟩

theorem loadDDS_ok (w : FileWorld) (v : ImageViewer) (t : TextureDescription)
    (v1 : ImageViewer) (d : Decoded) (h : loadDDS w v t = some (Loaded.ok v1 d)) :
    v1 = { v with frameInfo := v1.frameInfo } ∧ d.dds = true ∧
    u32 (d.texDetails.arraysize * d.texDetails.mips) ≤ d.read_data.subresources.length := by
  unfold loadDDS at h
  simp only [] at h
  split at h
  · simp at h
  · split at h
    · simp at h
    · rename_i total hl
      have hb := sizeLoop_bound _ _ _ _ hl
      simp only [Option.some.injEq, Loaded.ok.injEq] at h
      obtain ⟨h1, h2⟩ := h
      subst h1 h2
      exact ⟨rfl, rfl, hb⟩

/-- A load that reaches line 890 has changed nothing of the viewer but the
frame sizes; for a DDS file every index of the upload loop has an entry. -/
theorem loadFile_ok (w : FileWorld) (v v1 : ImageViewer) (d : Decoded)
    (h : loadFile w v = some (Loaded.ok v1 d)) :
    v1 = { v with frameInfo := v1.frameInfo } ∧
    (d.dds = true →
      u32 (d.texDetails.arraysize * d.texDetails.mips) ≤ d.read_data.subresources.length) := by
  unfold loadFile at h
  split_ifs at h
  · simp only [Option.map_eq_some'] at h
    obtain ⟨l, hl, hr⟩ := h
    obtain ⟨v0, rfl, hv⟩ := recordSizes_ok l v1 d hr
    obtain ⟨h1, h2⟩ := loadEXR_ok w v _ v0 d hl
    subst h1
    exact ⟨hv, fun hd => by simp [h2] at hd⟩
  · simp only [Option.map_eq_some'] at h
    obtain ⟨l, hl, hr⟩ := h
    obtain ⟨v0, rfl, hv⟩ := recordSizes_ok l v1 d hr
    obtain ⟨h1, h2⟩ := loadHDR_ok w v _ v0 d hl
    subst h1
    exact ⟨hv, fun hd => by simp [h2] at hd⟩
  · obtain ⟨h1, _, h3⟩ := loadDDS_ok w v _ v1 d h
    exact ⟨h1, fun _ => h3⟩
  · simp only [Option.map_eq_some'] at h
    obtain ⟨l, hl, hr⟩ := h
    obtain ⟨v0, rfl, hv⟩ := recordSizes_ok l v1 d hr
    obtain ⟨h1, h2⟩ := loadGeneric_ok w v _ v0 d hl
    subst h1
    exact ⟨hv, fun hd => by simp [h2] at hd⟩

/-! ## Lemmas on the negotiation -/

theorem structuralChange_iff (old new : TextureDescription) :
    structuralChange old new = true ↔ fieldsDiffer old new := by
  simp [structuralChange, fieldsDiffer, bne_iff_ne, or_assoc]

theorem convertPath_events (ops : FormatOps) (proxy : IReplayDriver) (v : ImageViewer)
    (t : TextureDescription) (rd : read_dds_data) (pre : List Event) (n : Negotiated)
    (h : convertPath ops proxy v t rd pre = some n) :
    ∃ rest, n.events = pre ++ rest := by
  unfold convertPath at h
  split at h
  · split at h
    · simp only [] at h
      split at h
      · simp at h
      · simp only [Option.some.injEq] at h
        subst h
        exact ⟨_, rfl⟩
    · simp only [Option.some.injEq] at h
      subst h
      exact ⟨[], by simp⟩
  · simp only [Option.some.injEq] at h
    subst h
    exact ⟨[], by simp⟩

/-- Every run of the negotiator starts with the query for the description
it was given. -/
theorem CreateProxyTexture_events (ops : FormatOps) (proxy : IReplayDriver) (v : ImageViewer)
    (t : TextureDescription) (rd : read_dds_data) (n : Negotiated)
    (h : CreateProxyTexture ops proxy v t rd = some n) :
    ∃ rest, n.events = Event.IsTextureSupported t :: rest := by
  unfold CreateProxyTexture at h
  split at h
  · simp only [Option.some.injEq] at h
    subst h
    exact ⟨_, rfl⟩
  · split at h
    · simp only [] at h
      split at h
      · split at h
        · simp at h
        · simp only [Option.some.injEq] at h
          subst h
          exact ⟨_, rfl⟩
      · obtain ⟨rest, hr⟩ := convertPath_events _ _ _ _ _ _ _ h
        exact ⟨_, by rw [hr]; rfl⟩
    · obtain ⟨rest, hr⟩ := convertPath_events _ _ _ _ _ _ _ h
      exact ⟨_, by rw [hr]; rfl⟩

/-- A refresh that finds nothing to recreate: lines 892-937 with a handle that
is kept. -/
theorem finishRefresh_kept (ops : FormatOps) (proxy : IReplayDriver) (fileSize : Nat)
    (v : ImageViewer) (d : Decoded) (hid : v.m_TextureID ≠ 0)
    (hsame : structuralChange v.m_TexDetails d.texDetails = false) :
    finishRefresh ops proxy fileSize v d =
      match uploads v.m_TextureID d
          { viewer := { v with m_TexDetails := d.texDetails }, texDetails := d.texDetails,
            read_data := d.read_data, events := [] } with
      | none => none
      | some ups =>
        some ({ v with m_TexDetails := storedDetails d.texDetails v.m_TextureID fileSize },
              ups) := by
  simp [finishRefresh, invalidateIfChanged, negotiate, hid, hsame]

/-- A refresh that finds a structural change, or holds no handle: lines 892-937
run the negotiator from a null handle. -/
theorem finishRefresh_recreate (ops : FormatOps) (proxy : IReplayDriver) (fileSize : Nat)
    (v : ImageViewer) (d : Decoded)
    (hchg : v.m_TextureID = 0 ∨ structuralChange v.m_TexDetails d.texDetails = true)
    (r : ImageViewer × List Event) (h : finishRefresh ops proxy fileSize v d = some r) :
    ∃ n ups, CreateProxyTexture ops proxy
        { v with m_TextureID := 0, m_TexDetails := d.texDetails } d.texDetails d.read_data
          = some n ∧
      uploads n.viewer.m_TextureID d n = some ups ∧
      r.1.m_TextureID = n.viewer.m_TextureID ∧ r.2 = n.events ++ ups := by
  have hv : { invalidateIfChanged v d.texDetails with m_TexDetails := d.texDetails }
      = { v with m_TextureID := 0, m_TexDetails := d.texDetails } := by
    unfold invalidateIfChanged
    rcases hchg with h0 | h1
    · simp [h0]
    · by_cases h0 : v.m_TextureID = 0
      · simp [h0]
      · simp [h0, h1]
  unfold finishRefresh at h
  simp only [] at h
  rw [hv] at h
  simp only [negotiate, if_true] at h
  cases hn : CreateProxyTexture ops proxy
      { v with m_TextureID := 0, m_TexDetails := d.texDetails } d.texDetails d.read_data with
  | none => simp [hn] at h
  | some n =>
    simp only [hn] at h
    split at h
    · simp at h
    · rename_i ups hu
      simp only [Option.some.injEq] at h
      subst h
      refine ⟨n, ups, rfl, ?_, ?_, rfl⟩
      · by_cases h0 : n.viewer.m_TextureID = 0 <;> simpa [h0] using hu
      · by_cases h0 : n.viewer.m_TextureID = 0 <;> simp [h0]

theorem uploads_defined (id : ResourceId) (d : Decoded) (r : Negotiated)
    (h : d.dds = true →
      u32 (r.texDetails.arraysize * r.texDetails.mips) ≤ r.read_data.subresources.length) :
    ∃ ups, uploads id d r = some ups := by
  unfold uploads
  by_cases hd : d.dds = false
  · simp [hd]
  · simp only [hd, if_false]
    exact uploadCall_defined id r.texDetails r.read_data _ rfl (h (by simpa using hd))

theorem uploads_isUpload (id : ResourceId) (d : Decoded) (r : Negotiated) (ups : List Event)
    (h : uploads id d r = some ups) : ∀ e, e ∈ ups → e.isUpload = true := by
  unfold uploads at h
  split at h
  · simp only [Option.some.injEq] at h
    subst h
    intro e he
    simp at he
    subst he
    rfl
  · exact uploadCall_isUpload _ _ _ _ _ h

/-! ## C1: structural-change detection -/

/-- C1: in a refresh that opens and decodes the file while a non-null primary
handle is held, the handle is invalidated (line 902) and the negotiator
`CreateProxyTexture` is run if and only if one of width, height, depth, cubemap,
mips, arraysize or format differs between the stored description and the newly
decoded one.  When a field differs the refresh hands the decoded description to
the negotiator with a null handle and takes the handle it leaves; when all seven
are equal the refresh completes, keeps the handle, and issues neither a support
query nor a create call. -/
theorem C1_recreate_iff_structural_change (ops : FormatOps) (proxy : IReplayDriver)
    (w : FileWorld) (v v1 : ImageViewer) (d : Decoded)
    (hopen : (openLoop w.fopen 10 0).1 = true)
    (hload : loadFile w v = some (Loaded.ok v1 d))
    (hid : v.m_TextureID ≠ 0) :
    ((invalidateIfChanged v1 d.texDetails).m_TextureID = 0 ↔
      fieldsDiffer v.m_TexDetails d.texDetails) ∧
    (∀ r, RefreshFile ops proxy w v = some r →
      ((∃ t, Event.IsTextureSupported t ∈ r.2) ↔ fieldsDiffer v.m_TexDetails d.texDetails)) ∧
    (fieldsDiffer v.m_TexDetails d.texDetails →
      ∀ r, RefreshFile ops proxy w v = some r →
        ∃ n, CreateProxyTexture ops proxy
            { v1 with m_TextureID := 0, m_TexDetails := d.texDetails }
            d.texDetails d.read_data = some n ∧
          r.1.m_TextureID = n.viewer.m_TextureID) ∧
    (¬ fieldsDiffer v.m_TexDetails d.texDetails →
      ∃ r, RefreshFile ops proxy w v = some r ∧ r.1.m_TextureID = v.m_TextureID ∧
        ∀ e, e ∈ r.2 → e.isCreate = false ∧ e.isQuery = false) := by
  obtain ⟨hv1, hdds⟩ := loadFile_ok w v v1 d hload
  have hid1 : v1.m_TextureID = v.m_TextureID := by rw [hv1]
  have htd1 : v1.m_TexDetails = v.m_TexDetails := by rw [hv1]
  have hid1' : v1.m_TextureID ≠ 0 := by rw [hid1]; exact hid
  have hopen' : ¬ (openLoop w.fopen 10 0).1 = false := by simp [hopen]
  have hR : RefreshFile ops proxy w v =
      match finishRefresh ops proxy w.fileSize v1 d with
      | none => none
      | some r => some (r.1, (openLoop w.fopen 10 0).2 ++ r.2) := by
    simp [RefreshFile, refreshOpened, hopen, hload]
  -- the run with all seven fields equal
  have hkeep : structuralChange v1.m_TexDetails d.texDetails = false →
      ∃ ups, RefreshFile ops proxy w v =
        some ({ v1 with m_TexDetails := storedDetails d.texDetails v1.m_TextureID w.fileSize },
              (openLoop w.fopen 10 0).2 ++ ups) ∧ ∀ e, e ∈ ups → e.isUpload = true := by
    intro hsame
    obtain ⟨ups, hu⟩ := uploads_defined v1.m_TextureID d
      { viewer := { v1 with m_TexDetails := d.texDetails }, texDetails := d.texDetails,
        read_data := d.read_data, events := [] } hdds
    refine ⟨ups, ?_, uploads_isUpload _ _ _ _ hu⟩
    rw [hR, finishRefresh_kept ops proxy w.fileSize v1 d hid1' hsame, hu]
  have hnoq : ∀ e, e ∈ (openLoop w.fopen 10 0).2 → e.isCreate = false ∧ e.isQuery = false := by
    intro e he
    have := openLoop_events w.fopen 10 0 e he
    cases e <;> simp [Event.onProxy, Event.isCreate, Event.isQuery] at this ⊢
  have hupq : ∀ e : Event, e.isUpload = true → e.isCreate = false ∧ e.isQuery = false := by
    intro e he
    cases e <;> simp [Event.isUpload, Event.isCreate, Event.isQuery] at he ⊢
  refine ⟨?_, ?_, ?_, ?_⟩
  · rw [← structuralChange_iff, ← htd1]
    unfold invalidateIfChanged
    by_cases hs : structuralChange v1.m_TexDetails d.texDetails = true
    · simp [hid1', hs]
    · simp [hid1', hs]
  · intro r hr
    rw [← structuralChange_iff, ← htd1]
    by_cases hs : structuralChange v1.m_TexDetails d.texDetails = true
    · simp only [hs, iff_true]
      rw [hR] at hr
      cases hf : finishRefresh ops proxy w.fileSize v1 d with
      | none => simp [hf] at hr
      | some r2 =>
        simp only [hf, Option.some.injEq] at hr
        obtain ⟨n, ups, hn, _, _, hev⟩ :=
          finishRefresh_recreate ops proxy w.fileSize v1 d (Or.inr hs) r2 hf
        obtain ⟨rest, hrest⟩ := CreateProxyTexture_events _ _ _ _ _ _ hn
        refine ⟨d.texDetails, ?_⟩
        rw [← hr]
        simp [hev, hrest]
    · have hs' : structuralChange v1.m_TexDetails d.texDetails = false := by simpa using hs
      obtain ⟨ups, hrun, hups⟩ := hkeep hs'
      rw [hrun] at hr
      simp only [Option.some.injEq] at hr
      simp only [hs', Bool.false_eq_true, iff_false, not_exists]
      intro t ht
      rw [← hr] at ht
      rcases List.mem_append.mp ht with h1 | h1
      · have := (hnoq _ h1).2
        simp [Event.isQuery] at this
      · have := (hupq _ (hups _ h1)).2
        simp [Event.isQuery] at this
  · intro hdiff r hr
    have hs : structuralChange v1.m_TexDetails d.texDetails = true := by
      rw [htd1]; exact (structuralChange_iff _ _).mpr hdiff
    rw [hR] at hr
    cases hf : finishRefresh ops proxy w.fileSize v1 d with
    | none => simp [hf] at hr
    | some r2 =>
      simp only [hf, Option.some.injEq] at hr
      obtain ⟨n, ups, hn, _, hid2, _⟩ :=
        finishRefresh_recreate ops proxy w.fileSize v1 d (Or.inr hs) r2 hf
      exact ⟨n, hn, by rw [← hr]; exact hid2⟩
  · intro hsame
    have hs : structuralChange v1.m_TexDetails d.texDetails = false := by
      rw [htd1]
      cases hc : structuralChange v.m_TexDetails d.texDetails with
      | false => rfl
      | true => exact absurd ((structuralChange_iff _ _).mp hc) hsame
    obtain ⟨ups, hrun, hups⟩ := hkeep hs
    refine ⟨_, hrun, hid1, ?_⟩
    intro e he
    rcases List.mem_append.mp he with h1 | h1
    · exact hnoq e h1
    · exact hupq e (hups e h1)

/-- The constructor on `raster2x1`: one query, one creation, one upload. -/
theorem construct_raster2x1 : construct sampleOps sampleProxy blankDetails raster2x1 =
    some (viewerAfterRaster, [Event.fopen 0,
      Event.IsTextureSupported { defaultTexDetails 0 with width := 2, height := 1 },
      Event.CreateProxyTexture { defaultTexDetails 0 with width := 2, height := 1 },
      Event.SetProxyTextureData 1 { mip := 0, slice := 0, sample := 0 }
        [10, 11, 12, 13, 20, 21, 22, 23] 8]) := by decide

/-- C1 at a concrete refresh: `raster2x1` is refreshed, unchanged, while the
handle `1` is held; the refresh keeps the handle and neither queries nor
creates. -/
theorem C1_recreate_iff_structural_change_witness :
    (openLoop raster2x1.fopen 10 0).1 = true ∧
    loadFile raster2x1 viewerAfterRaster = some (Loaded.ok viewerAfterRaster decodedRaster) ∧
    viewerAfterRaster.m_TextureID ≠ 0 ∧
    ∃ r, RefreshFile sampleOps sampleProxy raster2x1 viewerAfterRaster = some r ∧
      r.1.m_TextureID = viewerAfterRaster.m_TextureID ∧
      ∀ e, e ∈ r.2 → e.isCreate = false ∧ e.isQuery = false :=
  ⟨by decide, by decide, by decide,
   (C1_recreate_iff_structural_change sampleOps sampleProxy raster2x1 viewerAfterRaster
      viewerAfterRaster decodedRaster (by decide) (by decide) (by decide)).2.2.2
      (by unfold fieldsDiffer; decide)⟩

/-! ## C2: a second refresh of an unchanged file -/

/-- C2, evaluated where it fails.  `r4g4File` is loaded by the constructor
through the CPU conversion, `bc1Volume` through the remap to a 2D array; both
loads succeed with the handle `1`.  A second refresh of the unchanged file keeps
the handle and creates nothing, but its upload calls are not those of the first
refresh: the first uploads the converted 16-byte texel (resp. two slices of 8
bytes), the second uploads the one raw byte (resp. one subresource of 16
bytes). -/
theorem C2_second_refresh_uploads_differ :
    observed (construct sampleOps sampleProxy blankDetails r4g4File) =
      some (viewerAfterR4G4,
        [Event.CreateProxyTexture
           { defaultTexDetails 0 with format := rgba32_float, type := TextureType.Texture1D,
                                      dimension := 1 }],
        [Event.SetProxyTextureData 1 { mip := 0, slice := 0, sample := 0 } texel7 16]) ∧
    observed (RefreshFile sampleOps sampleProxy r4g4File viewerAfterR4G4) =
      some (viewerAfterR4G4, [],
        [Event.SetProxyTextureData 1 { mip := 0, slice := 0, sample := 0 } [7] 1]) ∧
    observed (construct sampleOps sampleProxy blankDetails bc1Volume) =
      some (viewerAfterVolume,
        [Event.CreateProxyTexture
           { defaultTexDetails 0 with format := bc1, type := TextureType.Texture2DArray,
                                      dimension := 2, width := 4, height := 4, depth := 1,
                                      arraysize := 2 }],
        [Event.SetProxyTextureData 1 { mip := 0, slice := 0, sample := 0 }
           [1, 2, 3, 4, 5, 6, 7, 8] 8,
         Event.SetProxyTextureData 1 { mip := 0, slice := 1, sample := 0 }
           [9, 10, 11, 12, 13, 14, 15, 16] 8]) ∧
    observed (RefreshFile sampleOps sampleProxy bc1Volume viewerAfterVolume) =
      some (viewerAfterVolume, [],
        [Event.SetProxyTextureData 1 { mip := 0, slice := 0, sample := 0 }
           [1, 2, 3, 4, 5, 6, 7, 8, 9, 10, 11, 12, 13, 14, 15, 16] 16]) := by
  refine ⟨by decide, by decide, by decide, by decide⟩

/-- For comparison, the raster `raster2x1`, which the proxy supports as it is:
the second refresh keeps the handle and repeats the upload of the first. -/
theorem second_refresh_raster2x1 :
    observed (construct sampleOps sampleProxy blankDetails raster2x1) =
      some (viewerAfterRaster,
        [Event.CreateProxyTexture { defaultTexDetails 0 with width := 2, height := 1 }],
        [Event.SetProxyTextureData 1 { mip := 0, slice := 0, sample := 0 }
           [10, 11, 12, 13, 20, 21, 22, 23] 8]) ∧
    observed (RefreshFile sampleOps sampleProxy raster2x1 viewerAfterRaster) =
      some (viewerAfterRaster, [],
        [Event.SetProxyTextureData 1 { mip := 0, slice := 0, sample := 0 }
           [10, 11, 12, 13, 20, 21, 22, 23] 8]) := by
  refine ⟨by decide, by decide⟩

/-! ## C3: the remap of a block-compressed 3D texture to a 2D array -/

/-- The remap branch of the negotiator, as a closed form: the entry pushed for
index `i` is taken from the old entry of mip `i % mips`. -/
theorem remap_collect (oldSubs : List (Nat × Nat)) (D M : Nat)
    (hsubs : M ≤ oldSubs.length) :
    collect (remapEntry oldSubs D M) (u32 (D * M)) = some (remapped oldSubs D M) := by
  unfold remapped
  apply collect_some_of_forall
  intro i hi
  have hM : M ≠ 0 := u32_mul_pos_right D M (by omega)
  have hD : D ≠ 0 := u32_mul_pos_left D M (by omega)
  have hlt : i % M < oldSubs.length :=
    Nat.lt_of_lt_of_le (Nat.mod_lt i (Nat.pos_of_ne_zero hM)) hsubs
  simp [remapEntry, hM, hD, List.getElem?_eq_getElem hlt, List.getD_eq_getElem?_getD]

theorem remapped_get (oldSubs : List (Nat × Nat)) (D M : Nat) (hsubs : M ≤ oldSubs.length)
    (i : Nat) (hi : i < u32 (D * M)) :
    ∃ old, oldSubs[i % M]? = some old ∧
      (remapped oldSubs D M)[i]? = some (old.1 + (i / M) * (old.2 / D), old.2 / D) := by
  have hM : M ≠ 0 := u32_mul_pos_right D M (by omega)
  have hlt : i % M < oldSubs.length :=
    Nat.lt_of_lt_of_le (Nat.mod_lt i (Nat.pos_of_ne_zero hM)) hsubs
  refine ⟨oldSubs[i % M], List.getElem?_eq_getElem hlt, ?_⟩
  unfold remapped
  rw [List.getElem?_map, List.getElem?_range hi]
  simp only [Option.map_some', List.getD_eq_getElem?_getD, List.getElem?_eq_getElem hlt,
    Option.getD_some, Nat.mul_comm]

/-- The remap branch of the negotiator in one equation. -/
theorem CreateProxyTexture_remap (ops : FormatOps) (proxy : IReplayDriver) (v : ImageViewer)
    (t : TextureDescription) (rd : read_dds_data)
    (hrej : proxy.IsTextureSupported t = false)
    (hblock : ops.BlockFormat t.format = true)
    (h3d : t.type = TextureType.Texture3D)
    (hacc : proxy.IsTextureSupported (arrayDetailsOf t) = true)
    (hsubs : t.mips ≤ rd.subresources.length) :
    CreateProxyTexture ops proxy v t rd =
      some { viewer := proxyCreate proxy v (arrayDetailsOf t), texDetails := arrayDetailsOf t,
             read_data := { rd with subresources := remapped rd.subresources t.depth t.mips },
             events := [Event.IsTextureSupported t,
                        Event.IsTextureSupported (arrayDetailsOf t),
                        Event.CreateProxyTexture (arrayDetailsOf t)] } := by
  have hcol := remap_collect rd.subresources t.depth t.mips hsubs
  have harr : (arrayDetailsOf t).arraysize = t.depth := rfl
  have hmip : (arrayDetailsOf t).mips = t.mips := rfl
  unfold CreateProxyTexture
  simp only [hrej, hblock, h3d, hacc, harr, hmip, hcol]
  simp

/-- C3 (as amended): when the backend rejects a block-compressed `Texture3D`
description with depth `D` and `M` mips and accepts the 2D-array candidate, the
negotiator completes, adopts the candidate (arraysize `D`, depth 1,
`Texture2DArray`, dimension 2, same format), creates the texture from it and
leaves the buffer bytes alone.  The new subresource list has
`(D * M) mod 2^32` entries (the loop bound is a 32-bit product); entry `i` has
length `oldSize(i mod M) / D` and offset
`oldOffset(i mod M) + (i / M) * (oldSize(i mod M) / D)`.  When `D * M < 2^32`
the list has exactly `D * M` entries and the entry of slice `s` and mip `m` is
at index `s * M + m`. -/
theorem C3_remap_layout (ops : FormatOps) (proxy : IReplayDriver) (v : ImageViewer)
    (t : TextureDescription) (rd : read_dds_data)
    (hrej : proxy.IsTextureSupported t = false)
    (hblock : ops.BlockFormat t.format = true)
    (h3d : t.type = TextureType.Texture3D)
    (hacc : proxy.IsTextureSupported (arrayDetailsOf t) = true)
    (hsubs : t.mips ≤ rd.subresources.length) :
    ∃ n, CreateProxyTexture ops proxy v t rd = some n ∧
      n.texDetails = arrayDetailsOf t ∧
      n.texDetails.arraysize = t.depth ∧ n.texDetails.depth = 1 ∧
      n.texDetails.type = TextureType.Texture2DArray ∧ n.texDetails.dimension = 2 ∧
      n.texDetails.format = t.format ∧ n.texDetails.mips = t.mips ∧
      n.viewer.m_TextureID = proxy.CreateProxyTexture v.created (arrayDetailsOf t) ∧
      n.read_data.buffer = rd.buffer ∧
      n.read_data.subresources.length = u32 (t.depth * t.mips) ∧
      (∀ i, i < u32 (t.depth * t.mips) →
        ∃ old, rd.subresources[i % t.mips]? = some old ∧
          n.read_data.subresources[i]? =
            some (old.1 + (i / t.mips) * (old.2 / t.depth), old.2 / t.depth)) ∧
      (t.depth * t.mips < 4294967296 →
        n.read_data.subresources.length = t.depth * t.mips ∧
        ∀ s m, s < t.depth → m < t.mips →
          ∃ old, rd.subresources[m]? = some old ∧
            n.read_data.subresources[s * t.mips + m]? =
              some (old.1 + s * (old.2 / t.depth), old.2 / t.depth)) := by
  have hrun := CreateProxyTexture_remap ops proxy v t rd hrej hblock h3d hacc hsubs
  have hentry := remapped_get rd.subresources t.depth t.mips hsubs
  refine ⟨_, hrun, rfl, rfl, rfl, rfl, rfl, rfl, rfl, rfl, rfl, by simp [remapped], hentry, ?_⟩
  intro hno
  have hu : u32 (t.depth * t.mips) = t.depth * t.mips := by
    unfold u32; exact Nat.mod_eq_of_lt hno
  refine ⟨by simp [remapped, hu], ?_⟩
  intro s m hs hm
  have hidx : s * t.mips + m < u32 (t.depth * t.mips) := by
    rw [hu]
    calc s * t.mips + m < s * t.mips + t.mips := by omega
      _ = (s + 1) * t.mips := by ring
      _ ≤ t.depth * t.mips := Nat.mul_le_mul_right _ hs
  have hmod : (s * t.mips + m) % t.mips = m := by
    rw [Nat.add_comm, Nat.add_mul_mod_self_right]
    exact Nat.mod_eq_of_lt hm
  have hdiv : (s * t.mips + m) / t.mips = s := by
    rw [Nat.add_comm, Nat.add_mul_div_right _ _ (by omega), Nat.div_eq_of_lt hm]
    simp
  obtain ⟨old, h1, h2⟩ := hentry (s * t.mips + m) hidx
  rw [hmod] at h1
  rw [hdiv] at h2
  exact ⟨old, h1, h2⟩

/-- C3 at a concrete input: a `bc1` volume of depth 4 with two mips becomes an
array of 4 slices with 8 subresource entries. -/
theorem C3_remap_layout_witness :
    sampleProxy.IsTextureSupported volumeDetails = false ∧
    sampleOps.BlockFormat volumeDetails.format = true ∧
    volumeDetails.type = TextureType.Texture3D ∧
    sampleProxy.IsTextureSupported (arrayDetailsOf volumeDetails) = true ∧
    volumeDetails.mips ≤ volumeData.subresources.length ∧
    ∃ n, CreateProxyTexture sampleOps sampleProxy (initialViewer blankDetails)
        volumeDetails volumeData = some n ∧
      n.texDetails.arraysize = 4 ∧ n.texDetails.depth = 1 ∧
      n.read_data.subresources =
        [(0, 32), (128, 4), (32, 32), (132, 4), (64, 32), (136, 4), (96, 32), (140, 4)] :=
  ⟨by decide, by decide, by decide, by decide, by decide,
   match C3_remap_layout sampleOps sampleProxy (initialViewer blankDetails) volumeDetails
       volumeData (by decide) (by decide) (by decide) (by decide) (by decide) with
   | ⟨n, hrun, _, harr, hdepth, _⟩ =>
     ⟨n, hrun, harr, hdepth, by
       have h2 : CreateProxyTexture sampleOps sampleProxy (initialViewer blankDetails)
           volumeDetails volumeData = some n := hrun
       rw [CreateProxyTexture_remap sampleOps sampleProxy (initialViewer blankDetails)
         volumeDetails volumeData (by decide) (by decide) (by decide) (by decide)
         (by decide)] at h2
       simp only [Option.some.injEq] at h2
       rw [← h2]
       decide⟩⟩

/-- C3 fails as stated: for depth `D = 2^31` and `M = 2` mips the backend
rejects the 3D description and accepts the 2D-array candidate, every mip has a
pre-remap entry, and the negotiator leaves an empty subresource list, not one of
`D * M` entries. -/
theorem C3_counterexample_product_wraps :
    sampleProxy.IsTextureSupported hugeDetails = false ∧
    sampleOps.BlockFormat hugeDetails.format = true ∧
    hugeDetails.type = TextureType.Texture3D ∧
    sampleProxy.IsTextureSupported (arrayDetailsOf hugeDetails) = true ∧
    hugeDetails.mips ≤ hugeData.subresources.length ∧
    ∃ n, CreateProxyTexture sampleOps sampleProxy (initialViewer blankDetails)
        hugeDetails hugeData = some n ∧
      n.read_data.subresources = [] ∧
      n.read_data.subresources.length ≠ hugeDetails.depth * hugeDetails.mips := by
  refine ⟨by decide, by decide, by decide, by decide, by decide, _,
    CreateProxyTexture_remap sampleOps sampleProxy (initialViewer blankDetails)
      hugeDetails hugeData (by decide) (by decide) (by decide) (by decide) (by decide),
    by decide, by decide⟩

/-! ## Lemmas on the conversion loop -/

theorem texelLoop_eq (decode : Nat → FloatVector) (stride : Nat) :
    ∀ (n src : Nat) (out : List FloatVector),
      texelLoop decode stride n (src, out) =
        (src + n * stride, out ++ (List.range n).map (fun k => decode (src + k * stride))) := by
  intro n
  induction n with
  | zero => intro src out; simp [texelLoop]
  | succ n ih =>
    intro src out
    simp only [texelLoop]
    rw [ih]
    refine Prod.ext ?_ ?_
    · simp only; ring
    · simp only [List.range_succ_eq_map, List.map_cons, List.map_map, List.append_assoc,
        List.singleton_append, Nat.zero_mul, Nat.add_zero]
      congr 2
      apply List.map_congr_left
      intro k _
      simp only [Function.comp_apply]
      congr 1
      rw [Nat.succ_eq_add_one]
      ring

/-- Iterating a loop that walks `c` texels walks `m * c` texels. -/
theorem walk_iterate (decode : Nat → FloatVector) (stride c : Nat)
    (F : Nat × List FloatVector → Nat × List FloatVector)
    (hF : ∀ src out, F (src, out) =
      (src + c * stride, out ++ (List.range c).map (fun k => decode (src + k * stride)))) :
    ∀ (m src : Nat) (out : List FloatVector),
      Nat.iterate F m (src, out) =
        (src + m * c * stride,
         out ++ (List.range (m * c)).map (fun k => decode (src + k * stride))) := by
  intro m
  induction m with
  | zero => intro src out; simp
  | succ m ih =>
    intro src out
    rw [Function.iterate_succ_apply', ih, hF]
    refine Prod.ext ?_ ?_
    · simp only; ring
    · simp only [List.append_assoc]
      congr 1
      have : (m + 1) * c = m * c + c := by ring
      rw [this, List.range_add, List.map_append, List.map_map]
      congr 1
      apply List.map_congr_left
      intro k _
      simp only [Function.comp_apply]
      congr 1
      ring

/-- The three nested loops decode `mipdepth * mipheight * mipwidth` texels, the
`k`-th one from `src + k * srcStride`. -/
theorem decodeLoops_eq (decode : Nat → FloatVector) (stride mw mh md src : Nat)
    (out : List FloatVector) :
    decodeLoops decode stride mw mh md (src, out) =
      (src + md * (mh * mw) * stride,
       out ++ (List.range (md * (mh * mw))).map (fun k => decode (src + k * stride))) := by
  unfold decodeLoops
  exact walk_iterate decode stride (mh * mw) _
    (walk_iterate decode stride mw _ (texelLoop_eq decode stride mw) mh) md src out

theorem toBytes_length (v : FloatVector) : v.toBytes.length = 16 := by
  simp [FloatVector.toBytes, le32]

theorem chunks_length (l : List FloatVector) :
    ((l.map FloatVector.toBytes).flatten).length = 16 * l.length := by
  induction l with
  | nil => simp
  | cons a l ih =>
    simp only [List.map_cons, List.flatten_cons, List.length_append, ih, toBytes_length,
      List.length_cons]
    ring

theorem chunks_get (l : List FloatVector) :
    ∀ (k : Nat) (h : k < l.length),
      (((l.map FloatVector.toBytes).flatten).drop (16 * k)).take 16 = (l[k]).toBytes := by
  induction l with
  | nil => intro k h; simp at h
  | cons a l ih =>
    intro k h
    cases k with
    | zero =>
      simp only [List.map_cons, List.flatten_cons, Nat.mul_zero, List.drop_zero,
        List.getElem_cons_zero]
      rw [List.take_append_of_le_length (by simp [toBytes_length])]
      exact List.take_of_length_le (by simp [toBytes_length])
    | succ k =>
      have h16 : 16 * (k + 1) = a.toBytes.length + 16 * k := by
        simp [toBytes_length]; ring
      simp only [List.map_cons, List.flatten_cons, List.getElem_cons_succ]
      rw [h16, List.drop_append]
      exact ih k (by simpa using h)

theorem set_prefix_drop {α : Type} (p l : List α) (k : Nat) (hp : p.length = k)
    (hk : k < l.length) (x : α) :
    (p ++ l.drop k).set k x = (p ++ [x]) ++ l.drop (k + 1) := by
  subst hp
  rw [List.set_append_right _ _ (Nat.le_refl _), List.drop_eq_getElem_cons hk]
  simp only [Nat.sub_self, List.set_cons_zero, List.append_assoc, List.singleton_append]

theorem get_prefix_drop {α : Type} (p l : List α) (k : Nat) (hp : p.length = k) :
    (p ++ l.drop k)[k]? = l[k]? := by
  subst hp
  rw [List.getElem?_append_right (Nat.le_refl _)]
  simp

theorem convertedBytes_length (ops : FormatOps) (t : TextureDescription) (rd : read_dds_data)
    (i : Nat) : (convertedBytes ops t rd i).length = convertedSize t i := by
  unfold convertedBytes
  rw [show (fun k => (sourceTexel ops t rd i k).toBytes) =
    FloatVector.toBytes ∘ (fun k => sourceTexel ops t rd i k) from rfl, ← List.map_map,
    chunks_length]
  simp only [List.length_map, List.length_range, texelCount, convertedSize]
  ring

theorem convertedData_length (ops : FormatOps) (t : TextureDescription) (rd : read_dds_data)
    (k : Nat) :
    (((List.range k).map (convertedBytes ops t rd)).flatten).length = convertedOffset t k := by
  unfold convertedOffset
  induction k with
  | zero => simp
  | succ k ih =>
    simp only [List.range_succ, List.map_append, List.flatten_append, List.length_append, ih,
      List.map_cons, List.map_nil, List.flatten_cons, List.flatten_nil, List.append_nil,
      List.sum_append, List.sum_cons, List.sum_nil, Nat.add_zero, convertedBytes_length]

/-- One iteration of the conversion loop takes the closed form of `k`
iterations to that of `k + 1`. -/
theorem convertStep_eq (ops : FormatOps) (t : TextureDescription) (rd : read_dds_data)
    (real0 : List bytebuf) (k : Nat) (hk : k < rd.subresources.length)
    (hreal : k < real0.length) (hmips : t.mips ≠ 0) (hshift : k % t.mips < 32) :
    convertStep ops t rd.buffer (convertedState ops t rd real0 k) k =
      some (convertedState ops t rd real0 (k + 1)) := by
  have hsub : (convertedState ops t rd real0 k).subresources[k]? = some rd.subresources[k] := by
    unfold convertedState
    simp only
    rw [get_prefix_drop _ _ _ (by simp)]
    exact List.getElem?_eq_getElem hk
  have hlen : ¬ (convertedState ops t rd real0 k).m_RealTexData.length ≤ k := by
    unfold convertedState
    simp only [List.length_append, List.length_map, List.length_range, List.length_drop]
    omega
  have hshift' : ¬ 32 ≤ k % t.mips := by omega
  unfold convertStep
  simp only [hmips, if_false, hshift', hsub, hlen]
  simp only [decodeLoops_eq, List.nil_append]
  unfold convertedState
  simp only [Option.some.injEq, ConvState.mk.injEq]
  refine ⟨?_, ?_, ?_⟩
  · rw [set_prefix_drop _ _ _ (by simp) hk, convertedData_length]
    simp only [List.range_succ, List.map_append, List.map_cons, List.map_nil]
    rfl
  · rw [set_prefix_drop _ _ _ (by simp) hreal]
    simp only [List.range_succ, List.map_append, List.map_cons, List.map_nil, originalBytes,
      List.getD_eq_getElem?_getD, List.getElem?_eq_getElem hk, Option.getD_some]
  · simp only [List.range_succ, List.map_append, List.map_cons, List.map_nil,
      List.flatten_append, List.flatten_cons, List.flatten_nil, List.append_nil]
    congr 1
    unfold convertedBytes texelCount mipExtent sourceTexel
    simp only [List.map_map, List.getD_eq_getElem?_getD, List.getElem?_eq_getElem hk,
      Option.getD_some]
    rw [Nat.mul_assoc]
    rfl

/-- The conversion loop in closed form. -/
theorem convertLoop_eq (ops : FormatOps) (t : TextureDescription) (rd : read_dds_data)
    (real0 : List bytebuf) (n : Nat) (hn : n ≤ rd.subresources.length)
    (hreal : n ≤ real0.length) (hmips : n ≠ 0 → t.mips ≠ 0)
    (hshift : ∀ i, i < n → i % t.mips < 32) :
    ∀ k, k ≤ n →
      loopFrom (convertStep ops t rd.buffer)
        { subresources := rd.subresources, m_RealTexData := real0, convertedData := [] } k =
      some (convertedState ops t rd real0 k) := by
  intro k
  induction k with
  | zero => intro _; simp [loopFrom, convertedState]
  | succ k ih =>
    intro hk
    simp only [loopFrom]
    rw [ih (by omega)]
    exact convertStep_eq ops t rd real0 k (by omega) (by omega) (hmips (by omega))
      (hshift k (by omega))

theorem resizeBufs_length (l : List bytebuf) (n : Nat) : (resizeBufs l n).length = n := by
  unfold resizeBufs
  simp only [List.length_append, List.length_take, List.length_replicate]
  omega

theorem flatten_range_split (f : Nat → bytebuf) (i : Nat) :
    ∀ n, i < n → ∃ post,
      ((List.range n).map f).flatten = ((List.range i).map f).flatten ++ f i ++ post := by
  intro n
  induction n with
  | zero => intro h; omega
  | succ n ih =>
    intro h
    by_cases hin : i < n
    · obtain ⟨post, hp⟩ := ih hin
      exact ⟨post ++ f n, by simp [List.range_succ, hp]⟩
    · have : i = n := by omega
      subst this
      exact ⟨[], by simp [List.range_succ]⟩

/-- The texel `k` of the converted subresource `i`, read from the converted
buffer. -/
theorem convertedData_texel (ops : FormatOps) (t : TextureDescription) (rd : read_dds_data)
    (n i k : Nat) (hi : i < n) (hk : k < texelCount t i) :
    ((((List.range n).map (convertedBytes ops t rd)).flatten).drop
        (convertedOffset t i + 16 * k)).take 16 = (sourceTexel ops t rd i k).toBytes := by
  obtain ⟨post, hp⟩ := flatten_range_split (convertedBytes ops t rd) i n hi
  have hlen : (convertedBytes ops t rd i).length = 16 * texelCount t i := by
    unfold convertedBytes
    rw [show (fun k => (sourceTexel ops t rd i k).toBytes) =
      FloatVector.toBytes ∘ (fun k => sourceTexel ops t rd i k) from rfl, ← List.map_map,
      chunks_length]
    simp
  rw [hp, List.append_assoc, ← convertedData_length ops t rd i, List.drop_append,
    List.drop_append_of_le_length (by rw [hlen]; omega),
    List.take_append_of_le_length (by rw [List.length_drop, hlen]; omega)]
  unfold convertedBytes
  rw [show (fun k => (sourceTexel ops t rd i k).toBytes) =
    FloatVector.toBytes ∘ (fun k => sourceTexel ops t rd i k) from rfl, ← List.map_map,
    chunks_get _ k (by simpa using hk)]
  simp

/-- The conversion branch of the negotiator in one equation. -/
theorem convertPath_eq (ops : FormatOps) (proxy : IReplayDriver) (v : ImageViewer)
    (t : TextureDescription) (rd : read_dds_data) (pre : List Event)
    (hdds : rd.width ≠ 0)
    (hconv : ops.convertSupported t.format = true)
    (hsubs : u32 (t.arraysize * t.mips) ≤ rd.subresources.length)
    (hmips : t.mips ≤ 32) :
    convertPath ops proxy v t rd pre =
      some { viewer := proxyCreate proxy
               { v with m_RealTexData :=
                   (List.range (u32 (t.arraysize * t.mips))).map (originalBytes rd) }
               { t with format := rgba32_float },
             texDetails := { t with format := rgba32_float },
             read_data :=
               { rd with
                   buffer := ((List.range (u32 (t.arraysize * t.mips))).map
                     (convertedBytes ops t rd)).flatten,
                   subresources := (convertedState ops t rd
                     (resizeBufs v.m_RealTexData (u32 (t.arraysize * t.mips)))
                     (u32 (t.arraysize * t.mips))).subresources },
             events := pre ++ [Event.CreateProxyTexture { t with format := rgba32_float }] } := by
  have hloop := convertLoop_eq ops t rd
    (resizeBufs v.m_RealTexData (u32 (t.arraysize * t.mips))) (u32 (t.arraysize * t.mips))
    hsubs (by rw [resizeBufs_length])
    (fun h => u32_mul_pos_right _ _ h)
    (fun i hi => by
      have hm : t.mips ≠ 0 := u32_mul_pos_right t.arraysize t.mips (by omega)
      exact Nat.lt_of_lt_of_le (Nat.mod_lt i (Nat.pos_of_ne_zero hm)) hmips)
    (u32 (t.arraysize * t.mips)) (Nat.le_refl _)
  unfold convertPath
  simp only [hdds, ne_eq, not_false_eq_true, if_true, hconv, hloop]
  have hdrop : (resizeBufs v.m_RealTexData (u32 (t.arraysize * t.mips))).drop
      (u32 (t.arraysize * t.mips)) = [] := by
    apply List.drop_of_length_le
    rw [resizeBufs_length]
  simp [convertedState, hdrop]

/-! ## C4: the CPU conversion -/

/-- When the description is rejected and the remap is not adopted, the
negotiator is the conversion branch, entered after one or two support queries. -/
theorem CreateProxyTexture_to_convertPath (ops : FormatOps) (proxy : IReplayDriver)
    (v : ImageViewer) (t : TextureDescription) (rd : read_dds_data)
    (hrej : proxy.IsTextureSupported t = false)
    (hnoremap : ¬ (ops.BlockFormat t.format = true ∧ t.type = TextureType.Texture3D ∧
      proxy.IsTextureSupported (arrayDetailsOf t) = true)) :
    ∃ pre, CreateProxyTexture ops proxy v t rd =
      convertPath ops proxy v t rd pre ∧
      ∀ e, e ∈ pre → e.isQuery = true := by
  unfold CreateProxyTexture
  simp only [hrej, Bool.false_eq_true, if_false]
  by_cases hb : ops.BlockFormat t.format = true ∧ t.type = TextureType.Texture3D
  · have hna : proxy.IsTextureSupported (arrayDetailsOf t) = false := by
      cases h : proxy.IsTextureSupported (arrayDetailsOf t) with
      | false => rfl
      | true => exact absurd ⟨hb.1, hb.2, h⟩ hnoremap
    simp only [hb, and_self, if_true, hna, Bool.false_eq_true, if_false]
    exact ⟨_, rfl, by intro e he; simp at he; rcases he with h | h <;> subst h <;> rfl⟩
  · simp only [hb, if_false]
    exact ⟨_, rfl, by intro e he; simp at he; subst he; rfl⟩

/-- C4 (as amended): on the CPU-conversion path (description not supported,
remap not adopted, DDS data present, the format has a decode function), with at
most 32 mips and an entry for every index of the loop, the negotiator completes;
the working description keeps every field but the format, which becomes the
4-component 32-bit float format, and the texture is created from it.  The loop
runs over the indices below `(arraysize * mips) mod 2^32`: each such subresource
`i` gets the byte length `16 * max(1, width >> mip) * max(1, height >> mip) *
max(1, depth >> mip)` with `mip = i mod mips`, starts at the sum of the converted
lengths of the subresources before it, and its `k`-th texel is
`DecodeFormattedComponents` of the source bytes at
`originalOffset(i) + k * srcStride`, where `srcStride` is 4 for `D16S8`, 8 for
`D32S8` and the element size otherwise.  When `arraysize * mips < 2^32` these
are all the indices below `arraysize * mips`. -/
theorem C4_conversion_layout (ops : FormatOps) (proxy : IReplayDriver) (v : ImageViewer)
    (t : TextureDescription) (rd : read_dds_data)
    (hrej : proxy.IsTextureSupported t = false)
    (hnoremap : ¬ (ops.BlockFormat t.format = true ∧ t.type = TextureType.Texture3D ∧
      proxy.IsTextureSupported (arrayDetailsOf t) = true))
    (hdds : rd.width ≠ 0)
    (hconv : ops.convertSupported t.format = true)
    (hsubs : u32 (t.arraysize * t.mips) ≤ rd.subresources.length)
    (hmips : t.mips ≤ 32) :
    ∃ n, CreateProxyTexture ops proxy v t rd = some n ∧
      n.texDetails = { t with format := rgba32_float } ∧
      n.texDetails.format.compCount = 4 ∧ n.texDetails.format.compByteWidth = 4 ∧
      n.texDetails.format.compType = CompType.Float ∧
      n.viewer.m_TextureID =
        proxy.CreateProxyTexture v.created { t with format := rgba32_float } ∧
      n.read_data.buffer.length = convertedOffset t (u32 (t.arraysize * t.mips)) ∧
      (∀ i, i < u32 (t.arraysize * t.mips) → ConvertedAt ops t rd n.read_data i) ∧
      (t.arraysize * t.mips < 4294967296 →
        ∀ i, i < t.arraysize * t.mips → ConvertedAt ops t rd n.read_data i) ∧
      (∀ i, convertedSize t i =
        16 * max 1 (t.width >>> (i % t.mips)) * max 1 (t.height >>> (i % t.mips)) *
          max 1 (t.depth >>> (i % t.mips))) ∧
      (∀ i, texelCount t i =
        max 1 (t.depth >>> (i % t.mips)) * max 1 (t.height >>> (i % t.mips)) *
          max 1 (t.width >>> (i % t.mips))) ∧
      srcStrideOf ops t.format =
        (if t.format.type = ResourceFormatType.D16S8 then 4
         else if t.format.type = ResourceFormatType.D32S8 then 8
         else ops.ElementSize t.format) := by
  obtain ⟨pre, hrun, _⟩ := CreateProxyTexture_to_convertPath ops proxy v t rd hrej hnoremap
  rw [convertPath_eq ops proxy v t rd pre hdds hconv hsubs hmips] at hrun
  have hmax : ∀ x, RDCMAX 1 x = max 1 x := by
    intro x
    unfold RDCMAX
    split <;> omega
  have hat : ∀ i, i < u32 (t.arraysize * t.mips) →
      ConvertedAt ops t rd
        { rd with
            buffer := ((List.range (u32 (t.arraysize * t.mips))).map
              (convertedBytes ops t rd)).flatten,
            subresources := (convertedState ops t rd
              (resizeBufs v.m_RealTexData (u32 (t.arraysize * t.mips)))
              (u32 (t.arraysize * t.mips))).subresources } i := by
    intro i hi
    have hlt : i < rd.subresources.length := by omega
    refine ⟨rd.subresources[i], List.getElem?_eq_getElem hlt, ?_, ?_⟩
    · simp only [convertedState]
      rw [List.getElem?_append_left (by simpa using hi), List.getElem?_map,
        List.getElem?_range hi]
      rfl
    · intro k hk
      have := convertedData_texel ops t rd (u32 (t.arraysize * t.mips)) i k hi hk
      simp only [sourceTexel, List.getD_eq_getElem?_getD, List.getElem?_eq_getElem hlt,
        Option.getD_some] at this
      exact this
  refine ⟨_, hrun, rfl, rfl, rfl, rfl, rfl, ?_, hat, ?_, ?_, ?_, rfl⟩
  · exact convertedData_length ops t rd _
  · intro hno i hi
    have hu : u32 (t.arraysize * t.mips) = t.arraysize * t.mips := by
      unfold u32; exact Nat.mod_eq_of_lt hno
    exact hat i (by rw [hu]; exact hi)
  · intro i
    simp only [convertedSize, mipExtent, hmax]
  · intro i
    simp only [texelCount, mipExtent, hmax]

set_option maxRecDepth 8000 in
/-- The conversion of `arrayData3`, evaluated: six converted entries, a buffer of
240 bytes, and the six original byte ranges retained. -/
theorem conversion_arrayData3 :
    (CreateProxyTexture sampleOps sampleProxy (initialViewer blankDetails) arrayDetails3
        arrayData3).map
      (fun n => (n.read_data.subresources, n.read_data.buffer.length,
                 n.viewer.m_RealTexData, n.texDetails.format)) =
    some ([(0, 64), (64, 16), (80, 64), (144, 16), (160, 64), (224, 16)], 240,
          [[10, 11, 12, 13], [14], [20, 21, 22, 23], [24], [30, 31, 32, 33], [34]],
          rgba32_float) := by
  decide

/-- C4 at a concrete input: an `r4g4` array of three slices and two mips; the
subresource 3 (slice 1, mip 1) is converted as stated. -/
theorem C4_conversion_layout_witness :
    sampleProxy.IsTextureSupported arrayDetails3 = false ∧
    ¬ (sampleOps.BlockFormat arrayDetails3.format = true ∧
        arrayDetails3.type = TextureType.Texture3D ∧
        sampleProxy.IsTextureSupported (arrayDetailsOf arrayDetails3) = true) ∧
    arrayData3.width ≠ 0 ∧
    sampleOps.convertSupported arrayDetails3.format = true ∧
    u32 (arrayDetails3.arraysize * arrayDetails3.mips) ≤ arrayData3.subresources.length ∧
    arrayDetails3.mips ≤ 32 ∧
    ∃ n, CreateProxyTexture sampleOps sampleProxy (initialViewer blankDetails) arrayDetails3
        arrayData3 = some n ∧
      n.texDetails.format.compType = CompType.Float ∧
      ConvertedAt sampleOps arrayDetails3 arrayData3 n.read_data 3 :=
  ⟨by decide, by decide, by decide, by decide, by decide, by decide,
   match C4_conversion_layout sampleOps sampleProxy (initialViewer blankDetails)
       arrayDetails3 arrayData3 (by decide) (by decide) (by decide) (by decide) (by decide)
       (by decide) with
   | ⟨n, hrun, _, _, _, hfloat, _, _, hat, _⟩ => ⟨n, hrun, hfloat, hat 3 (by decide)⟩⟩

/-- C4 fails as stated: with `arraysize = 2^31` and `mips = 2` the conversion
path is taken, the index 0 is below `arraysize * mips`, and the subresource 0 is
not converted: its entry keeps the original length 4 where the claim has 64. -/
theorem C4_counterexample_product_wraps :
    sampleProxy.IsTextureSupported hugeArrayDetails = false ∧
    ¬ (sampleOps.BlockFormat hugeArrayDetails.format = true ∧
        hugeArrayDetails.type = TextureType.Texture3D ∧
        sampleProxy.IsTextureSupported (arrayDetailsOf hugeArrayDetails) = true) ∧
    hugeArrayData.width ≠ 0 ∧
    sampleOps.convertSupported hugeArrayDetails.format = true ∧
    hugeArrayData.subresources.length = hugeArrayDetails.arraysize * hugeArrayDetails.mips ∧
    0 < hugeArrayDetails.arraysize * hugeArrayDetails.mips ∧
    convertedSize hugeArrayDetails 0 = 64 ∧
    ∃ n, CreateProxyTexture sampleOps sampleProxy (initialViewer blankDetails)
        hugeArrayDetails hugeArrayData = some n ∧
      n.read_data.subresources[0]? = some (0, 4) ∧
      ¬ ConvertedAt sampleOps hugeArrayDetails hugeArrayData n.read_data 0 := by
  have hrej : sampleProxy.IsTextureSupported hugeArrayDetails = false := by decide
  have hnoremap : ¬ (sampleOps.BlockFormat hugeArrayDetails.format = true ∧
      hugeArrayDetails.type = TextureType.Texture3D ∧
      sampleProxy.IsTextureSupported (arrayDetailsOf hugeArrayDetails) = true) := by decide
  have hsize : convertedSize hugeArrayDetails 0 = 64 := by decide
  obtain ⟨pre, hrun, _⟩ := CreateProxyTexture_to_convertPath sampleOps sampleProxy
    (initialViewer blankDetails) hugeArrayDetails hugeArrayData hrej hnoremap
  have hzero : u32 (hugeArrayDetails.arraysize * hugeArrayDetails.mips) = 0 := by decide
  rw [convertPath_eq sampleOps sampleProxy (initialViewer blankDetails) hugeArrayDetails
    hugeArrayData pre (by decide) (by decide) (by rw [hzero]; exact Nat.zero_le _)
    (by decide)] at hrun
  have hsub0 : (convertedState sampleOps hugeArrayDetails hugeArrayData
      (resizeBufs (initialViewer blankDetails).m_RealTexData
        (u32 (hugeArrayDetails.arraysize * hugeArrayDetails.mips)))
      (u32 (hugeArrayDetails.arraysize * hugeArrayDetails.mips))).subresources[0]? =
        some (0, 4) := by
    rw [hzero]
    simp only [convertedState, List.range_zero, List.map_nil, List.nil_append, List.drop_zero]
    exact List.getElem?_replicate_of_lt (by decide)
  have hlen : hugeArrayData.subresources.length =
      hugeArrayDetails.arraysize * hugeArrayDetails.mips :=
    List.length_replicate 4294967296 (0, 4)
  refine ⟨hrej, hnoremap, by decide, by decide, hlen, by decide, hsize, _, hrun, hsub0, ?_⟩
  rintro ⟨old, _, h2, _⟩
  simp only [] at h2
  rw [hsub0, hsize] at h2
  exact absurd h2 (by decide)

/-! ## C5: read-back after a CPU conversion -/

/-- A file that is not DDS reaches line 890 with `read_data` still `{}`. -/
theorem loadFile_ok_not_dds (w : FileWorld) (v v1 : ImageViewer) (d : Decoded)
    (h : loadFile w v = some (Loaded.ok v1 d)) (hd : d.dds = false) :
    d.read_data = read_dds_data.empty := by
  unfold loadFile at h
  split_ifs at h
  · simp only [Option.map_eq_some'] at h
    obtain ⟨l, hl, hr⟩ := h
    obtain ⟨v0, rfl, _⟩ := recordSizes_ok l v1 d hr
    unfold loadEXR at hl
    split at hl
    · simp [failWith] at hl
    · unfold loadEXRImage at hl
      split at hl
      · simp [failWith] at hl
      · split at hl
        · simp at hl
        · split at hl
          · simp [failWith] at hl
          · simp only [Option.some.injEq, Loaded.ok.injEq] at hl
            rw [← hl.2]
  · simp only [Option.map_eq_some'] at h
    obtain ⟨l, hl, hr⟩ := h
    obtain ⟨v0, rfl, _⟩ := recordSizes_ok l v1 d hr
    unfold loadHDR at hl
    simp only [] at hl
    split at hl
    · simp [failWith] at hl
    · simp only [Option.some.injEq, Loaded.ok.injEq] at hl
      rw [← hl.2]
  · have := (loadDDS_ok w v _ v1 d h).2.1
    rw [hd] at this
    exact absurd this (by decide)
  · simp only [Option.map_eq_some'] at h
    obtain ⟨l, hl, hr⟩ := h
    obtain ⟨v0, rfl, _⟩ := recordSizes_ok l v1 d hr
    unfold loadGeneric at hl
    simp only [] at hl
    split at hl
    · simp [failWith] at hl
    · split at hl
      · simp [failWith] at hl
      · split at hl
        · simp [failWith] at hl
        · simp only [Option.some.injEq, Loaded.ok.injEq] at hl
          rw [← hl.2]

/-- Lines 892-937 when the negotiator runs (no handle is held, or a compared
field differs) and ends with the result `n`. -/
theorem finishRefresh_negotiated (ops : FormatOps) (proxy : IReplayDriver) (fileSize : Nat)
    (v : ImageViewer) (d : Decoded)
    (hchg : v.m_TextureID = 0 ∨ structuralChange v.m_TexDetails d.texDetails = true)
    (n : Negotiated)
    (hn : CreateProxyTexture ops proxy
        { v with m_TextureID := 0, m_TexDetails := d.texDetails } d.texDetails d.read_data
          = some n)
    (ups : List Event) (hu : uploads n.viewer.m_TextureID d n = some ups) :
    finishRefresh ops proxy fileSize v d =
      some ({ (if n.viewer.m_TextureID = 0 then
                 { n.viewer with m_Error := ResultCode.APIInitFailed }
               else n.viewer) with
              m_TexDetails := storedDetails
                (if n.viewer.m_TextureID = 0 then
                   { n.viewer with m_Error := ResultCode.APIInitFailed }
                 else n.viewer).m_TexDetails n.viewer.m_TextureID fileSize },
            n.events ++ ups) := by
  have hv : { invalidateIfChanged v d.texDetails with m_TexDetails := d.texDetails }
      = { v with m_TextureID := 0, m_TexDetails := d.texDetails } := by
    unfold invalidateIfChanged
    rcases hchg with h0 | h1
    · simp [h0]
    · by_cases h0 : v.m_TextureID = 0
      · simp [h0]
      · simp [h0, h1]
  unfold finishRefresh
  simp only []
  rw [hv]
  simp only [negotiate, if_true, hn]
  by_cases h0 : n.viewer.m_TextureID = 0
  · simp only [h0, if_true] at hu ⊢
    simp [hu, h0]
  · simp only [h0, if_false] at hu ⊢
    simp [hu]

/-- What the negotiator leaves on the CPU-conversion path. -/
theorem CreateProxyTexture_convert_summary (ops : FormatOps) (proxy : IReplayDriver)
    (v : ImageViewer) (t : TextureDescription) (rd : read_dds_data)
    (hrej : proxy.IsTextureSupported t = false)
    (hnoremap : ¬ (ops.BlockFormat t.format = true ∧ t.type = TextureType.Texture3D ∧
      proxy.IsTextureSupported (arrayDetailsOf t) = true))
    (hdds : rd.width ≠ 0)
    (hconv : ops.convertSupported t.format = true)
    (hsubs : u32 (t.arraysize * t.mips) ≤ rd.subresources.length)
    (hmips : t.mips ≤ 32) :
    ∃ n, CreateProxyTexture ops proxy v t rd = some n ∧
      n.viewer = proxyCreate proxy
        { v with m_RealTexData :=
            (List.range (u32 (t.arraysize * t.mips))).map (originalBytes rd) }
        { t with format := rgba32_float } ∧
      n.texDetails = { t with format := rgba32_float } ∧
      n.read_data.subresources.length = rd.subresources.length ∧
      n.read_data.buffer =
        ((List.range (u32 (t.arraysize * t.mips))).map (convertedBytes ops t rd)).flatten ∧
      (∀ i, i < u32 (t.arraysize * t.mips) →
        n.read_data.subresources[i]? = some (convertedOffset t i, convertedSize t i)) ∧
      (∃ pre, n.events = pre ++ [Event.CreateProxyTexture { t with format := rgba32_float }] ∧
        ∀ e, e ∈ pre → e.isQuery = true) := by
  obtain ⟨pre, hrun, hpre⟩ := CreateProxyTexture_to_convertPath ops proxy v t rd hrej hnoremap
  rw [convertPath_eq ops proxy v t rd pre hdds hconv hsubs hmips] at hrun
  refine ⟨_, hrun, rfl, rfl, ?_, rfl, ?_, ⟨pre, rfl, hpre⟩⟩
  · simp only [convertedState, List.length_append, List.length_map, List.length_range,
      List.length_drop]
    omega
  · intro i hi
    simp only [convertedState]
    rw [List.getElem?_append_left (by simpa using hi), List.getElem?_map,
      List.getElem?_range hi]
    rfl

/-- A refresh whose negotiation takes the CPU-conversion path completes; the
viewer then retains the original bytes of every subresource the loop visited
and stores the decoded description. -/
theorem RefreshFile_convert (ops : FormatOps) (proxy : IReplayDriver) (w : FileWorld)
    (v v1 : ImageViewer) (d : Decoded)
    (hopen : (openLoop w.fopen 10 0).1 = true)
    (hload : loadFile w v = some (Loaded.ok v1 d))
    (hneg : v.m_TextureID = 0 ∨ fieldsDiffer v.m_TexDetails d.texDetails)
    (hrej : proxy.IsTextureSupported d.texDetails = false)
    (hnoremap : ¬ (ops.BlockFormat d.texDetails.format = true ∧
      d.texDetails.type = TextureType.Texture3D ∧
      proxy.IsTextureSupported (arrayDetailsOf d.texDetails) = true))
    (hdds : d.read_data.width ≠ 0)
    (hconv : ops.convertSupported d.texDetails.format = true)
    (hmips : d.texDetails.mips ≤ 32) :
    ∃ r, RefreshFile ops proxy w v = some r ∧
      r.1.m_RealTexData =
        (List.range (u32 (d.texDetails.arraysize * d.texDetails.mips))).map
          (originalBytes d.read_data) ∧
      r.1.m_TexDetails = storedDetails d.texDetails r.1.m_TextureID w.fileSize ∧
      r.1.m_CustomTexID = v.m_CustomTexID ∧
      r.1.m_TextureID =
        proxy.CreateProxyTexture v.created { d.texDetails with format := rgba32_float } ∧
      u32 (d.texDetails.arraysize * d.texDetails.mips) ≤ d.read_data.subresources.length := by
  obtain ⟨hv1, hddsLen⟩ := loadFile_ok w v v1 d hload
  have hisdds : d.dds = true := by
    cases hd : d.dds with
    | true => rfl
    | false =>
      have := loadFile_ok_not_dds w v v1 d hload hd
      rw [this] at hdds
      exact absurd rfl hdds
  have hsubs := hddsLen hisdds
  have hchg : v1.m_TextureID = 0 ∨ structuralChange v1.m_TexDetails d.texDetails = true := by
    rw [hv1]
    rcases hneg with h | h
    · exact Or.inl h
    · exact Or.inr ((structuralChange_iff _ _).mpr h)
  obtain ⟨n, hrun, hnv, hnt, hnlen, _, _, _⟩ := CreateProxyTexture_convert_summary ops proxy
    { v1 with m_TextureID := 0, m_TexDetails := d.texDetails } d.texDetails d.read_data
    hrej hnoremap hdds hconv hsubs hmips
  obtain ⟨ups, hups⟩ := uploads_defined n.viewer.m_TextureID d n (fun _ => by
    rw [hnt, hnlen]; exact hsubs)
  have hfin := finishRefresh_negotiated ops proxy w.fileSize v1 d hchg n hrun ups hups
  have hcr : v1.created = v.created := by rw [hv1]
  have hcu : v1.m_CustomTexID = v.m_CustomTexID := by rw [hv1]
  refine ⟨_, by simp only [RefreshFile, refreshOpened, hopen, hload, hfin]; rfl, ?_, ?_, ?_, ?_, hsubs⟩
  · simp only []
    split <;> simp [hnv, proxyCreate]
  · simp only []
    split <;> simp [hnv, proxyCreate]
  · simp only []
    split <;> simp [hnv, proxyCreate, hcu]
  · simp only []
    split <;> simp [hnv, proxyCreate, hcr]

/-- C5 (as amended): after a refresh whose negotiation took the CPU-conversion
path, with at most 32 mips and `arraysize * mips < 2^32`, the viewer reports the
decoded mip count and array size, and for every `mip < mips` and
`slice < arraysize`: `GetTextureData` with the primary identity, or with an
identity that is neither the primary nor the derived one, and `NoRemap` returns
exactly the bytes `[offset, offset + length)` of the pre-conversion buffer for
the subresource entry `slice * mips + mip` and issues no call to the backend;
with the derived identity (distinct from the primary) the call is forwarded to
the backend under that identity, and so is every call that requests a remap. -/
theorem C5_readback_after_conversion (ops : FormatOps) (proxy : IReplayDriver)
    (w : FileWorld) (v v1 : ImageViewer) (d : Decoded)
    (hopen : (openLoop w.fopen 10 0).1 = true)
    (hload : loadFile w v = some (Loaded.ok v1 d))
    (hneg : v.m_TextureID = 0 ∨ fieldsDiffer v.m_TexDetails d.texDetails)
    (hrej : proxy.IsTextureSupported d.texDetails = false)
    (hnoremap : ¬ (ops.BlockFormat d.texDetails.format = true ∧
      d.texDetails.type = TextureType.Texture3D ∧
      proxy.IsTextureSupported (arrayDetailsOf d.texDetails) = true))
    (hdds : d.read_data.width ≠ 0)
    (hconv : ops.convertSupported d.texDetails.format = true)
    (hmips : d.texDetails.mips ≤ 32)
    (hno : d.texDetails.arraysize * d.texDetails.mips < 4294967296) :
    ∃ r, RefreshFile ops proxy w v = some r ∧
      r.1.m_TexDetails.mips = d.texDetails.mips ∧
      r.1.m_TexDetails.arraysize = d.texDetails.arraysize ∧
      ∀ mip slice sample, mip < r.1.m_TexDetails.mips → slice < r.1.m_TexDetails.arraysize →
        (∃ old, d.read_data.subresources[slice * r.1.m_TexDetails.mips + mip]? = some old ∧
          ∀ tex, (tex = r.1.m_TextureID ∨
              (tex ≠ r.1.m_TextureID ∧ tex ≠ r.1.m_CustomTexID)) →
            GetTextureData proxy r.1 tex { mip := mip, slice := slice, sample := sample }
                { remap := RemapTexture.NoRemap } =
              some ((d.read_data.buffer.drop old.1).take old.2, [])) ∧
        (∀ params, r.1.m_CustomTexID ≠ r.1.m_TextureID →
          GetTextureData proxy r.1 r.1.m_CustomTexID
              { mip := mip, slice := slice, sample := sample } params =
            some (proxy.GetTextureData r.1.m_CustomTexID
                    { mip := mip, slice := slice, sample := sample } params,
                  [Event.GetTextureData r.1.m_CustomTexID
                    { mip := mip, slice := slice, sample := sample } params])) ∧
        (∀ tex params, params.remap ≠ RemapTexture.NoRemap →
          ∃ id, GetTextureData proxy r.1 tex
              { mip := mip, slice := slice, sample := sample } params =
            some (proxy.GetTextureData id { mip := mip, slice := slice, sample := sample }
                    params,
                  [Event.GetTextureData id { mip := mip, slice := slice, sample := sample }
                    params])) := by
  obtain ⟨r, hrun, hreal, hdet, _, _, hsubs⟩ := RefreshFile_convert ops proxy w v v1 d hopen
    hload hneg hrej hnoremap hdds hconv hmips
  have hu : u32 (d.texDetails.arraysize * d.texDetails.mips) =
      d.texDetails.arraysize * d.texDetails.mips := by
    unfold u32; exact Nat.mod_eq_of_lt hno
  have hm : r.1.m_TexDetails.mips = d.texDetails.mips := by rw [hdet]; rfl
  have ha : r.1.m_TexDetails.arraysize = d.texDetails.arraysize := by rw [hdet]; rfl
  refine ⟨r, hrun, hm, ha, ?_⟩
  intro mip slice sample hmip hslice
  rw [hm] at hmip
  rw [ha] at hslice
  have hidx : slice * d.texDetails.mips + mip < d.texDetails.arraysize * d.texDetails.mips := by
    calc slice * d.texDetails.mips + mip < slice * d.texDetails.mips + d.texDetails.mips := by
          omega
      _ = (slice + 1) * d.texDetails.mips := by ring
      _ ≤ d.texDetails.arraysize * d.texDetails.mips := Nat.mul_le_mul_right _ hslice
  have hlt : slice * d.texDetails.mips + mip < d.read_data.subresources.length := by omega
  have hle : slice * d.texDetails.mips ≤ slice * d.texDetails.mips + mip := Nat.le_add_right _ _
  have hidx32 : u32 (u32 (slice * d.texDetails.mips) + mip) =
      slice * d.texDetails.mips + mip := by
    unfold u32
    rw [Nat.mod_eq_of_lt (by omega), Nat.mod_eq_of_lt (by omega)]
  have hne : r.1.m_RealTexData ≠ [] := by
    rw [hreal, hu]
    intro h
    have := congrArg List.length h
    simp at this
    omega
  have hget : r.1.m_RealTexData[slice * d.texDetails.mips + mip]? =
      some ((d.read_data.buffer.drop
              (d.read_data.subresources[slice * d.texDetails.mips + mip]).1).take
            (d.read_data.subresources[slice * d.texDetails.mips + mip]).2) := by
    rw [hreal, List.getElem?_map, List.getElem?_range (by rw [hu]; exact hidx)]
    simp only [Option.map_some', originalBytes, List.getD_eq_getElem?_getD,
      List.getElem?_eq_getElem hlt, Option.getD_some]
  refine ⟨⟨d.read_data.subresources[slice * d.texDetails.mips + mip],
    by rw [hm]; exact List.getElem?_eq_getElem hlt, ?_⟩, ?_, ?_⟩
  · intro tex htex
    have htex' : (if tex ≠ r.1.m_TextureID ∧ tex ≠ r.1.m_CustomTexID then r.1.m_TextureID
        else tex) = r.1.m_TextureID := by
      rcases htex with h | h
      · simp [h]
      · simp [h.1, h.2]
    unfold GetTextureData
    simp only [htex', hne, ne_eq, not_false_eq_true, and_self, if_true, hm, hidx32, hget]
  · intro params hcust
    unfold GetTextureData
    simp [hcust]
  · intro tex params hremap
    unfold GetTextureData
    simp only [hremap, and_false, if_false]
    exact ⟨_, rfl⟩

/-- C5 at a concrete load: the constructor loads `arrayFile3` through the CPU
conversion; the read-back of mip 1 of slice 2 returns the original byte 34 and
issues no call. -/
theorem C5_readback_after_conversion_witness :
    (openLoop arrayFile3.fopen 10 0).1 = true ∧
    loadFile arrayFile3 (initialViewer blankDetails) =
      some (Loaded.ok viewerLoadingArray3 decodedArray3) ∧
    sampleProxy.IsTextureSupported decodedArray3.texDetails = false ∧
    sampleOps.convertSupported decodedArray3.texDetails.format = true ∧
    decodedArray3.texDetails.arraysize * decodedArray3.texDetails.mips < 4294967296 ∧
    ∃ r, RefreshFile sampleOps sampleProxy arrayFile3 (initialViewer blankDetails) = some r ∧
      GetTextureData sampleProxy r.1 r.1.m_TextureID { mip := 1, slice := 2, sample := 0 }
        { remap := RemapTexture.NoRemap } = some ([34], []) :=
  ⟨by decide, by decide, by decide, by decide, by decide,
   match C5_readback_after_conversion sampleOps sampleProxy arrayFile3
       (initialViewer blankDetails) viewerLoadingArray3 decodedArray3 (by decide) (by decide)
       (Or.inl rfl) (by decide) (by decide) (by decide) (by decide) (by decide)
       (by decide) with
   | ⟨r, hrun, hm, ha, hall⟩ =>
     ⟨r, hrun, by
       obtain ⟨⟨old, hold, hget⟩, _, _⟩ := hall 1 2 0 (by rw [hm]; decide) (by rw [ha]; decide)
       rw [hm] at hold
       have hval : old = (14, 1) := by
         have h2 : decodedArray3.read_data.subresources[2 * decodedArray3.texDetails.mips + 1]?
             = some (14, 1) := by decide
         rw [hold] at h2
         exact Option.some.inj h2
       rw [hget r.1.m_TextureID (Or.inl rfl), hval]
       rfl⟩⟩

/-- C5 fails as stated: `hugeArrayFile` (`arraysize = 2^31`, `mips = 2`) is
loaded by the constructor through the CPU conversion, the load succeeds and the
viewer reports 2 mips and `2^31` slices; the read-back of mip 0 of slice 0 with
the primary identity and `NoRemap` is forwarded to the backend, because the
retained store is empty. -/
theorem C5_counterexample_product_wraps :
    sampleProxy.IsTextureSupported
      (ddsTypeOf { hugeArrayDetails with type := TextureType.Texture2D }) = false ∧
    sampleOps.convertSupported hugeArrayDetails.format = true ∧
    (RefreshFile sampleOps sampleProxy hugeArrayFile (initialViewer blankDetails)).map
      (fun r => (r.1.m_TextureID, r.1.m_Error, r.1.m_RealTexData)) =
      some (1, ResultCode.Succeeded, []) ∧
    (RefreshFile sampleOps sampleProxy hugeArrayFile (initialViewer blankDetails)).map
      (fun r => (r.1.m_TexDetails.mips, r.1.m_TexDetails.arraysize)) =
      some (2, 2147483648) ∧
    (RefreshFile sampleOps sampleProxy hugeArrayFile (initialViewer blankDetails)).map
      (fun r => createsOf r.2) =
      some [Event.CreateProxyTexture { hugeArrayDetails with format := rgba32_float }] ∧
    (RefreshFile sampleOps sampleProxy hugeArrayFile (initialViewer blankDetails)).bind
      (fun r => GetTextureData sampleProxy r.1 r.1.m_TextureID
        { mip := 0, slice := 0, sample := 0 } { remap := RemapTexture.NoRemap }) =
      some ([], [Event.GetTextureData 1 { mip := 0, slice := 0, sample := 0 }
                   { remap := RemapTexture.NoRemap }]) := by
  refine ⟨by decide, by decide, by decide, by decide, by decide, by decide⟩

/-! ## C6: generic raster files -/

theorem convertPath_frame (ops : FormatOps) (proxy : IReplayDriver) (v : ImageViewer)
    (t : TextureDescription) (rd : read_dds_data) (pre : List Event) (n : Negotiated)
    (h : convertPath ops proxy v t rd pre = some n) :
    n.viewer.m_TexDetails = v.m_TexDetails ∧ n.viewer.m_CustomTexID = v.m_CustomTexID ∧
    n.viewer.m_Error = v.m_Error ∧ n.viewer.frameInfo = v.frameInfo := by
  unfold convertPath at h
  split at h
  · split at h
    · simp only [] at h
      split at h
      · simp at h
      · simp only [Option.some.injEq] at h
        subst h
        exact ⟨rfl, rfl, rfl, rfl⟩
    · simp only [Option.some.injEq] at h
      subst h
      exact ⟨rfl, rfl, rfl, rfl⟩
  · simp only [Option.some.injEq] at h
    subst h
    exact ⟨rfl, rfl, rfl, rfl⟩

/-- The negotiator touches the handle, the creation count and the retained
store, and nothing else of the viewer. -/
theorem CreateProxyTexture_frame (ops : FormatOps) (proxy : IReplayDriver) (v : ImageViewer)
    (t : TextureDescription) (rd : read_dds_data) (n : Negotiated)
    (h : CreateProxyTexture ops proxy v t rd = some n) :
    n.viewer.m_TexDetails = v.m_TexDetails ∧ n.viewer.m_CustomTexID = v.m_CustomTexID ∧
    n.viewer.m_Error = v.m_Error ∧ n.viewer.frameInfo = v.frameInfo := by
  unfold CreateProxyTexture at h
  split at h
  · simp only [Option.some.injEq] at h
    subst h
    exact ⟨rfl, rfl, rfl, rfl⟩
  · split at h
    · simp only [] at h
      split at h
      · split at h
        · simp at h
        · simp only [Option.some.injEq] at h
          subst h
          exact ⟨rfl, rfl, rfl, rfl⟩
      · exact convertPath_frame _ _ _ _ _ _ _ h
    · exact convertPath_frame _ _ _ _ _ _ _ h

/-- Without DDS data, and for a description that is not a 3D texture, the
negotiator completes. -/
theorem CreateProxyTexture_defined_no_dds (ops : FormatOps) (proxy : IReplayDriver)
    (v : ImageViewer) (t : TextureDescription) (rd : read_dds_data)
    (h3d : t.type ≠ TextureType.Texture3D) (hw : rd.width = 0) :
    ∃ n, CreateProxyTexture ops proxy v t rd = some n := by
  unfold CreateProxyTexture
  split
  · exact ⟨_, rfl⟩
  · simp only [h3d, and_false, if_false]
    unfold convertPath
    simp [hw]

/-- Whatever the negotiation does, lines 906 and 917-918 store the decoded
description, with the current handle and the file size. -/
theorem finishRefresh_stores (ops : FormatOps) (proxy : IReplayDriver) (fileSize : Nat)
    (v : ImageViewer) (d : Decoded) (r : ImageViewer × List Event)
    (h : finishRefresh ops proxy fileSize v d = some r) :
    r.1.m_TexDetails = storedDetails d.texDetails r.1.m_TextureID fileSize := by
  unfold finishRefresh at h
  simp only [] at h
  split at h
  · simp at h
  · rename_i n hn
    split at h
    · simp at h
    · simp only [Option.some.injEq] at h
      subst h
      have hdet : n.viewer.m_TexDetails = d.texDetails := by
        unfold negotiate at hn
        split at hn
        · exact (CreateProxyTexture_frame _ _ _ _ _ _ hn).1
        · simp only [Option.some.injEq] at hn
          subst hn
          rfl
      by_cases h0 : n.viewer.m_TextureID = 0
      · simp [h0, hdet]
      · simp [h0, hdet]

/-- For a file that is not DDS and a description that is not a 3D texture,
lines 892-937 complete. -/
theorem finishRefresh_defined_not_dds (ops : FormatOps) (proxy : IReplayDriver)
    (fileSize : Nat) (v : ImageViewer) (d : Decoded) (hd : d.dds = false)
    (hrd : d.read_data.width = 0) (h3d : d.texDetails.type ≠ TextureType.Texture3D) :
    ∃ r, finishRefresh ops proxy fileSize v d = some r := by
  unfold finishRefresh
  simp only []
  have hneg : ∃ n, negotiate ops proxy
      { invalidateIfChanged v d.texDetails with m_TexDetails := d.texDetails } d = some n := by
    unfold negotiate
    split
    · exact CreateProxyTexture_defined_no_dds _ _ _ _ _ h3d hrd
    · exact ⟨_, rfl⟩
  obtain ⟨n, hn⟩ := hneg
  rw [hn]
  simp only [uploads, hd, if_true]
  exact ⟨_, rfl⟩

/-- C6: a generic raster file that opens, that the raster library identifies
with the probed dimensions `(W, H)` and decodes with the same dimensions.  If
`1 ≤ W ≤ 65535` and `1 ≤ H ≤ 65535` the refresh completes and stores a
description with width `W`, height `H`, depth 1, one mip, one slice, no cubemap
and the format of four 8-bit UNorm-sRGB components.  If `W` or `H` is 0 or at
least 65536 the refresh records `ImageUnsupported`, keeps the stored description
and the handle, and issues no call to the backend. -/
theorem C6_generic_raster (ops : FormatOps) (proxy : IReplayDriver) (w : FileWorld)
    (v : ImageViewer) (W H : Nat) (pixels : bytebuf)
    (hopen : (openLoop w.fopen 10 0).1 = true)
    (hexr : w.is_exr_file = false) (hhdr : w.stbi_is_hdr_from_file = false)
    (hdds : w.is_dds_file = false)
    (hret : w.stbi_info_from_file.ret ≠ 0)
    (hx : w.stbi_info_from_file.x = W) (hy : w.stbi_info_from_file.y = H)
    (hload : w.stbi_load_from_file = { data := some pixels, x := W, y := H }) :
    ((1 ≤ W ∧ W ≤ 65535 ∧ 1 ≤ H ∧ H ≤ 65535) →
      ∃ r, RefreshFile ops proxy w v = some r ∧
        r.1.m_TexDetails.width = W ∧ r.1.m_TexDetails.height = H ∧
        r.1.m_TexDetails.depth = 1 ∧ r.1.m_TexDetails.mips = 1 ∧
        r.1.m_TexDetails.arraysize = 1 ∧ r.1.m_TexDetails.cubemap = false ∧
        r.1.m_TexDetails.format.compCount = 4 ∧ r.1.m_TexDetails.format.compByteWidth = 1 ∧
        r.1.m_TexDetails.format.compType = CompType.UNormSRGB ∧
        r.1.m_TexDetails.format.type = ResourceFormatType.Regular) ∧
    ((W = 0 ∨ 65536 ≤ W ∨ H = 0 ∨ 65536 ≤ H) →
      ∃ r, RefreshFile ops proxy w v = some r ∧
        r.1.m_Error = ResultCode.ImageUnsupported ∧
        r.1.m_TexDetails = v.m_TexDetails ∧ r.1.m_TextureID = v.m_TextureID ∧
        ∀ e, e ∈ r.2 → e.onProxy = false) := by
  constructor
  · rintro ⟨hW1, hW2, hH1, hH2⟩
    have hdims : ¬ (W = 0 ∨ W ≥ 65536 ∨ H = 0 ∨ H ≥ 65536) := by omega
    have hlf : loadFile w v = some (Loaded.ok
        { v with frameInfo := { initDataSize := 0, persistentSize := 0,
                                uncompressedFileSize := datasizeOf W H 1,
                                compressedFileSize := datasizeOf W H 1 } }
        { texDetails := { defaultTexDetails v.m_TextureID with width := W, height := H },
          data := pixels, datasize := datasizeOf W H 1, dds := false,
          read_data := read_dds_data.empty }) := by
      simp [loadFile, hexr, hhdr, hdds, loadGeneric, hret, hx, hy, hload, hdims, recordSizes,
        defaultTexDetails]
    obtain ⟨r, hr⟩ := finishRefresh_defined_not_dds ops proxy w.fileSize
      { v with frameInfo := { initDataSize := 0, persistentSize := 0,
                              uncompressedFileSize := datasizeOf W H 1,
                              compressedFileSize := datasizeOf W H 1 } }
      { texDetails := { defaultTexDetails v.m_TextureID with width := W, height := H },
        data := pixels, datasize := datasizeOf W H 1, dds := false,
        read_data := read_dds_data.empty } rfl rfl (by simp [defaultTexDetails])
    have hst := finishRefresh_stores ops proxy w.fileSize _ _ r hr
    refine ⟨(r.1, (openLoop w.fopen 10 0).2 ++ r.2), ?_, ?_⟩
    · simp only [RefreshFile, refreshOpened, hopen, hlf, hr]
      rfl
    · simp only [hst]
      exact ⟨rfl, rfl, rfl, rfl, rfl, rfl, rfl, rfl, rfl, rfl⟩
  · intro hbad
    have hdims : w.stbi_info_from_file.x = 0 ∨ w.stbi_info_from_file.x ≥ 65536 ∨
        w.stbi_info_from_file.y = 0 ∨ w.stbi_info_from_file.y ≥ 65536 := by
      rw [hx, hy]; exact hbad
    have hlf : loadFile w v = some (Loaded.failed
        { v with m_Error := ResultCode.ImageUnsupported }) := by
      simp [loadFile, hexr, hhdr, hdds, loadGeneric, hret, hdims, failWith, recordSizes]
    refine ⟨({ v with m_Error := ResultCode.ImageUnsupported }, (openLoop w.fopen 10 0).2),
      ?_, rfl, rfl, rfl, ?_⟩
    · simp [RefreshFile, refreshOpened, hopen, hlf]
    · exact openLoop_events w.fopen 10 0

/-- C6 at two concrete files: a raster of 2 by 1 pixels, and one whose probed
width is 65536. -/
theorem C6_generic_raster_witness :
    (openLoop raster2x1.fopen 10 0).1 = true ∧
    raster2x1.stbi_info_from_file.ret ≠ 0 ∧
    (∃ r, RefreshFile sampleOps sampleProxy raster2x1 (initialViewer blankDetails) = some r ∧
      r.1.m_TexDetails.width = 2 ∧ r.1.m_TexDetails.height = 1) ∧
    (∃ r, RefreshFile sampleOps sampleProxy (genericFile 65536 1 []) viewerAfterRaster
        = some r ∧
      r.1.m_Error = ResultCode.ImageUnsupported ∧
      r.1.m_TexDetails = viewerAfterRaster.m_TexDetails) :=
  ⟨by decide, by decide,
   match (C6_generic_raster sampleOps sampleProxy raster2x1 (initialViewer blankDetails) 2 1
       [10, 11, 12, 13, 20, 21, 22, 23] (by decide) rfl rfl rfl (by decide) rfl rfl rfl).1
       (by decide) with
   | ⟨r, hrun, hw, hh, _⟩ => ⟨r, hrun, hw, hh⟩,
   match (C6_generic_raster sampleOps sampleProxy (genericFile 65536 1 []) viewerAfterRaster
       65536 1 [] (by decide) rfl rfl rfl (by decide) rfl rfl rfl).2 (by decide) with
   | ⟨r, hrun, herr, hdet, _⟩ => ⟨r, hrun, herr, hdet⟩⟩

/-! ## C7: EXR variants that are not supported -/

/-- C7: for an EXR file whose version block has the multipart, the non_image
(deep) or the tiled flag set, `IMG_CreateReplayDevice` (given a valid handle)
returns `ImageUnsupported` without creating a proxy driver or issuing any call,
and `RefreshFile` (once the file opens) records `ImageUnsupported`, leaves the
stored description and the primary handle unchanged and issues no call to the
backend. -/
theorem C7_exr_variants_rejected (ops : FormatOps) (proxy : IReplayDriver)
    (dw : DeviceWorld) (blank : TextureDescription) (w w2 : FileWorld) (v : ImageViewer)
    (hexr : w.is_exr_file = true)
    (hflag : w.exr.exrVersion.multipart ≠ 0 ∨ w.exr.exrVersion.non_image ≠ 0 ∨
      w.exr.exrVersion.tiled ≠ 0)
    (hrdc : dw.rdc = true) (hf : dw.f = true)
    (hopen : (openLoop w.fopen 10 0).1 = true) :
    IMG_CreateReplayDevice ops dw blank w w2 = some (ResultCode.ImageUnsupported, none, []) ∧
    ∃ r, RefreshFile ops proxy w v = some r ∧
      r.1.m_Error = ResultCode.ImageUnsupported ∧
      r.1.m_TexDetails = v.m_TexDetails ∧ r.1.m_TextureID = v.m_TextureID ∧
      ∀ e, e ∈ r.2 → e.onProxy = false := by
  constructor
  · have hpre : precheck w = some ResultCode.ImageUnsupported := by
      unfold precheck
      simp only [hexr, if_true]
      split_ifs <;> first | rfl | (exfalso; rcases hflag with h | h | h <;> contradiction)
    simp [IMG_CreateReplayDevice, hrdc, hf, hpre]
  · have hrej : exrRejected w = true := by
      unfold exrRejected
      rcases hflag with h | h | h <;> simp [h]
    have hlf : loadFile w v = some (Loaded.failed
        { v with m_Error := ResultCode.ImageUnsupported }) := by
      simp [loadFile, hexr, loadEXR, hrej, failWith, recordSizes]
    refine ⟨({ v with m_Error := ResultCode.ImageUnsupported }, (openLoop w.fopen 10 0).2),
      ?_, rfl, rfl, rfl, openLoop_events w.fopen 10 0⟩
    simp [RefreshFile, refreshOpened, hopen, hlf]

/-- C7 at a concrete file: a tiled EXR. -/
theorem C7_exr_variants_rejected_witness :
    tiledExr.is_exr_file = true ∧ tiledExr.exr.exrVersion.tiled ≠ 0 ∧
    IMG_CreateReplayDevice sampleOps sampleDevice blankDetails tiledExr tiledExr =
      some (ResultCode.ImageUnsupported, none, []) ∧
    ∃ r, RefreshFile sampleOps sampleProxy tiledExr viewerAfterRaster = some r ∧
      r.1.m_Error = ResultCode.ImageUnsupported ∧
      r.1.m_TexDetails = viewerAfterRaster.m_TexDetails ∧
      r.1.m_TextureID = viewerAfterRaster.m_TextureID :=
  ⟨by decide, by decide,
   (C7_exr_variants_rejected sampleOps sampleProxy sampleDevice blankDetails tiledExr tiledExr
      viewerAfterRaster (by decide) (Or.inr (Or.inr (by decide))) rfl rfl (by decide)).1,
   match (C7_exr_variants_rejected sampleOps sampleProxy sampleDevice blankDetails tiledExr
      tiledExr viewerAfterRaster (by decide) (Or.inr (Or.inr (by decide))) rfl rfl
      (by decide)).2 with
   | ⟨r, hrun, herr, hdet, hid, _⟩ => ⟨r, hrun, herr, hdet, hid⟩⟩

/-! ## C8: the open-retry loop -/

theorem failedAttempts_succ (attempt n : Nat) :
    failedAttempts attempt (n + 1) =
      Event.fopen attempt :: Event.Sleep 40 :: failedAttempts (attempt + 1) n := by
  unfold failedAttempts
  rw [List.range_succ_eq_map]
  simp only [List.map_cons, List.map_map, List.flatten_cons, Nat.add_zero, List.cons_append,
    List.nil_append]
  congr 3
  apply List.map_congr_left
  intro j _
  simp only [Function.comp_apply, Nat.succ_eq_add_one]
  rw [Nat.add_assoc, Nat.add_comm 1 j]

/-- The loop when every attempt it may make fails. -/
theorem openLoop_all_fail (fopen : Nat → Bool) :
    ∀ (remaining attempt : Nat), (∀ j, j < remaining → fopen (attempt + j) = false) →
      openLoop fopen remaining attempt = (false, failedAttempts attempt remaining) := by
  intro remaining
  induction remaining with
  | zero => intro attempt _; simp [openLoop, failedAttempts]
  | succ r ih =>
    intro attempt h
    have h0 : fopen attempt = false := by simpa using h 0 (by omega)
    have hrest := ih (attempt + 1) (fun j hj => by
      have := h (j + 1) (by omega)
      rw [← this]; congr 1; omega)
    simp only [openLoop, h0, Bool.false_eq_true, if_false, hrest, failedAttempts_succ]

/-- The loop when the attempt `attempt + k` is the first one that succeeds. -/
theorem openLoop_first_success (fopen : Nat → Bool) :
    ∀ (k remaining attempt : Nat), k < remaining → fopen (attempt + k) = true →
      (∀ j, j < k → fopen (attempt + j) = false) →
      openLoop fopen remaining attempt =
        (true, failedAttempts attempt k ++ [Event.fopen (attempt + k)]) := by
  intro k
  induction k with
  | zero =>
    intro remaining attempt hk hs _
    cases remaining with
    | zero => omega
    | succ r =>
      have hs' : fopen attempt = true := by simpa using hs
      simp [openLoop, hs', failedAttempts]
  | succ k ih =>
    intro remaining attempt hk hs hf
    cases remaining with
    | zero => omega
    | succ r =>
      have h0 : fopen attempt = false := by simpa using hf 0 (by omega)
      have hs' : fopen (attempt + 1 + k) = true := by
        rw [← hs]; congr 1; omega
      have hrest := ih r (attempt + 1) (by omega) hs' (fun j hj => by
        have := hf (j + 1) (by omega)
        rw [← this]; congr 1; omega)
      have hidx : attempt + 1 + k = attempt + (k + 1) := by omega
      simp only [openLoop, h0, Bool.false_eq_true, if_false, hrest, failedAttempts_succ,
        List.cons_append, hidx]

/-- C8: `RefreshFile` makes at most 10 open attempts.  If the attempt `k < 10`
is the first one that succeeds, the attempts made are `0 .. k`, each failed one
is followed by one sleep, the successful one by none, and the refresh goes on
with classification (`refreshOpened`).  If all 10 attempts fail, each is followed
by one sleep and the refresh records `FileIOFailed` and returns: the stored
description and the handle are unchanged and no call reaches the backend.  The
refresh goes on to classification if and only if one of the first 10 attempts
succeeds. -/
theorem C8_open_retry (ops : FormatOps) (proxy : IReplayDriver) (w : FileWorld)
    (v : ImageViewer) :
    (∀ k, k < 10 → w.fopen k = true → (∀ j, j < k → w.fopen j = false) →
      openLoop w.fopen 10 0 = (true, failedAttempts 0 k ++ [Event.fopen k]) ∧
      RefreshFile ops proxy w v =
        (refreshOpened ops proxy w v).map
          (fun r => (r.1, (failedAttempts 0 k ++ [Event.fopen k]) ++ r.2))) ∧
    ((∀ k, k < 10 → w.fopen k = false) →
      openLoop w.fopen 10 0 = (false, failedAttempts 0 10) ∧
      RefreshFile ops proxy w v =
        some ({ v with m_Error := ResultCode.FileIOFailed }, failedAttempts 0 10)) ∧
    ((openLoop w.fopen 10 0).1 = true ↔ ∃ k, k < 10 ∧ w.fopen k = true) ∧
    (∀ n, ((failedAttempts 0 n).filter (fun e => decide (e = Event.Sleep 40))).length = n ∧
      ((failedAttempts 0 n).filter Event.onProxy) = []) := by
  have hfirst : ∀ k, k < 10 → w.fopen k = true → (∀ j, j < k → w.fopen j = false) →
      openLoop w.fopen 10 0 = (true, failedAttempts 0 k ++ [Event.fopen k]) := by
    intro k hk hs hf
    have := openLoop_first_success w.fopen k 10 0 hk (by simpa using hs)
      (fun j hj => by simpa using hf j hj)
    simpa using this
  have hall : (∀ k, k < 10 → w.fopen k = false) →
      openLoop w.fopen 10 0 = (false, failedAttempts 0 10) := by
    intro h
    exact openLoop_all_fail w.fopen 10 0 (fun j hj => by simpa using h j hj)
  refine ⟨?_, ?_, ?_, ?_⟩
  · intro k hk hs hf
    have ho := hfirst k hk hs hf
    refine ⟨ho, ?_⟩
    unfold RefreshFile
    simp only [ho, Bool.true_eq_false, if_false]
    cases refreshOpened ops proxy w v <;> rfl
  · intro h
    have ho := hall h
    refine ⟨ho, ?_⟩
    unfold RefreshFile
    simp only [ho, if_true]
  · constructor
    · intro h
      by_contra hnone
      have hall' : ∀ k, k < 10 → w.fopen k = false := by
        intro k hk
        cases hf : w.fopen k with
        | false => rfl
        | true => exact absurd ⟨k, hk, hf⟩ hnone
      rw [hall hall'] at h
      exact absurd h (by decide)
    · rintro ⟨k, hk, hs⟩
      -- the first success at or before `k`
      have hex : ∃ m, m < 10 ∧ w.fopen m = true ∧ ∀ j, j < m → w.fopen j = false := by
        have hP : ∃ m, m < 10 ∧ w.fopen m = true := ⟨k, hk, hs⟩
        refine ⟨Nat.find hP, (Nat.find_spec hP).1, (Nat.find_spec hP).2, ?_⟩
        intro j hj
        have hmin := Nat.find_min hP hj
        cases hf : w.fopen j with
        | false => rfl
        | true =>
          exact absurd ⟨Nat.lt_trans hj (Nat.find_spec hP).1, hf⟩ hmin
      obtain ⟨m, hm, hms, hmf⟩ := hex
      rw [hfirst m hm hms hmf]
  · intro n
    induction n with
    | zero => simp [failedAttempts]
    | succ n ih =>
      unfold failedAttempts at ih ⊢
      simp only [List.range_succ, List.map_append, List.flatten_append, List.filter_append,
        List.length_append, ih.1, ih.2, List.map_cons, List.map_nil, List.flatten_cons,
        List.flatten_nil, List.append_nil, List.nil_append]
      constructor
      · simp [List.filter]
      · simp [List.filter, Event.onProxy]

/-- C8 at two concrete files: one that is locked for three attempts and opens
at the fourth, one that stays locked. -/
theorem C8_open_retry_witness :
    openLoop lockedThrice.fopen 10 0 =
      (true, [Event.fopen 0, Event.Sleep 40, Event.fopen 1, Event.Sleep 40, Event.fopen 2,
              Event.Sleep 40, Event.fopen 3]) ∧
    RefreshFile sampleOps sampleProxy lockedForever viewerAfterRaster =
      some ({ viewerAfterRaster with m_Error := ResultCode.FileIOFailed },
            failedAttempts 0 10) :=
  ⟨((C8_open_retry sampleOps sampleProxy lockedThrice viewerAfterRaster).1 3 (by decide)
      (by decide) (by decide)).1,
   ((C8_open_retry sampleOps sampleProxy lockedForever viewerAfterRaster).2.1
      (by decide)).2⟩

/-! ## C9: `type` and `dimension` of the stored description -/

theorem ddsTypeOf_followsRule (t : TextureDescription) : followsRule (ddsTypeOf t) := by
  unfold followsRule ddsTypeOf typeRule
  split
  · rename_i h; simp [h]
  · rename_i h
    split
    · rename_i hc; simp [h, hc]
    · rename_i hc
      split
      · rename_i hh; simp [h, hc, hh]
      · rename_i hh; simp [h, hc, hh]

/-- The description a load hands over at line 890: built by `ddsTypeOf` for a
DDS file, and the 2D defaults with the decoded width and height otherwise. -/
theorem loadFile_ok_details (w : FileWorld) (v v1 : ImageViewer) (d : Decoded)
    (h : loadFile w v = some (Loaded.ok v1 d)) :
    (d.dds = true → followsRule d.texDetails) ∧
    (d.dds = false →
      d.texDetails.type = TextureType.Texture2D ∧ d.texDetails.dimension = 2 ∧
      d.texDetails.depth = 1 ∧ d.texDetails.arraysize = 1 ∧ d.texDetails.cubemap = false ∧
      d.texDetails.mips = 1) := by
  unfold loadFile at h
  split_ifs at h
  · simp only [Option.map_eq_some'] at h
    obtain ⟨l, hl, hr⟩ := h
    obtain ⟨v0, rfl, _⟩ := recordSizes_ok l v1 d hr
    unfold loadEXR at hl
    split at hl
    · simp [failWith] at hl
    · unfold loadEXRImage at hl
      split at hl
      · simp [failWith] at hl
      · split at hl
        · simp at hl
        · split at hl
          · simp [failWith] at hl
          · simp only [Option.some.injEq, Loaded.ok.injEq] at hl
            rw [← hl.2]
            exact ⟨fun hd => by simp at hd, fun _ => ⟨rfl, rfl, rfl, rfl, rfl, rfl⟩⟩
  · simp only [Option.map_eq_some'] at h
    obtain ⟨l, hl, hr⟩ := h
    obtain ⟨v0, rfl, _⟩ := recordSizes_ok l v1 d hr
    unfold loadHDR at hl
    simp only [] at hl
    split at hl
    · simp [failWith] at hl
    · simp only [Option.some.injEq, Loaded.ok.injEq] at hl
      rw [← hl.2]
      exact ⟨fun hd => by simp at hd, fun _ => ⟨rfl, rfl, rfl, rfl, rfl, rfl⟩⟩
  · unfold loadDDS at h
    simp only [] at h
    split at h
    · simp at h
    · split at h
      · simp at h
      · simp only [Option.some.injEq, Loaded.ok.injEq] at h
        rw [← h.2]
        exact ⟨fun _ => ddsTypeOf_followsRule _, fun hd => by simp at hd⟩
  · simp only [Option.map_eq_some'] at h
    obtain ⟨l, hl, hr⟩ := h
    obtain ⟨v0, rfl, _⟩ := recordSizes_ok l v1 d hr
    unfold loadGeneric at hl
    simp only [] at hl
    split at hl
    · simp [failWith] at hl
    · split at hl
      · simp [failWith] at hl
      · split at hl
        · simp [failWith] at hl
        · simp only [Option.some.injEq, Loaded.ok.injEq] at hl
          rw [← hl.2]
          exact ⟨fun hd => by simp at hd, fun _ => ⟨rfl, rfl, rfl, rfl, rfl, rfl⟩⟩

/-- C9 (as amended): the description that a refresh stores and reports after
the file is decoded has its `type` and `dimension` determined as follows.  For a
DDS file they follow the rule from depth, cubemap, arraysize and height.  For an
EXR, HDR or generic raster file the description is always `Texture2D` with
dimension 2 (depth 1, one slice, no cubemap), whatever the height; this agrees
with the rule exactly when the height exceeds 1. -/
theorem C9_type_and_dimension (ops : FormatOps) (proxy : IReplayDriver) (w : FileWorld)
    (v v1 : ImageViewer) (d : Decoded) (r : ImageViewer × List Event)
    (hopen : (openLoop w.fopen 10 0).1 = true)
    (hload : loadFile w v = some (Loaded.ok v1 d))
    (hrun : RefreshFile ops proxy w v = some r) :
    GetTexture r.1 r.1.m_TextureID = r.1.m_TexDetails ∧
    GetTextures r.1 = [r.1.m_TexDetails] ∧
    (d.dds = true → followsRule r.1.m_TexDetails) ∧
    (d.dds = false →
      r.1.m_TexDetails.type = TextureType.Texture2D ∧ r.1.m_TexDetails.dimension = 2 ∧
      r.1.m_TexDetails.depth = 1 ∧ r.1.m_TexDetails.arraysize = 1 ∧
      r.1.m_TexDetails.cubemap = false ∧
      (followsRule r.1.m_TexDetails ↔ r.1.m_TexDetails.height > 1)) := by
  have hfin : ∃ r2, finishRefresh ops proxy w.fileSize v1 d = some r2 ∧ r.1 = r2.1 := by
    simp only [RefreshFile, refreshOpened, hopen, hload, Bool.true_eq_false, if_false] at hrun
    cases hf : finishRefresh ops proxy w.fileSize v1 d with
    | none => simp [hf] at hrun
    | some r2 =>
      simp only [hf, Option.some.injEq] at hrun
      exact ⟨r2, rfl, by rw [← hrun]⟩
  obtain ⟨r2, hr2, heq⟩ := hfin
  have hst := finishRefresh_stores ops proxy w.fileSize v1 d r2 hr2
  obtain ⟨hd1, hd2⟩ := loadFile_ok_details w v v1 d hload
  refine ⟨rfl, rfl, ?_, ?_⟩ <;> rw [heq, hst]
  · intro hd
    exact hd1 hd
  · intro hd
    obtain ⟨h1, h2, h3, h4, h5, _⟩ := hd2 hd
    refine ⟨h1, h2, h3, h4, h5, ?_⟩
    unfold followsRule typeRule storedDetails
    simp only [h1, h2, h3, h4, h5]
    by_cases hh : d.texDetails.height > 1
    · simp [hh]
    · simp [hh]

/-- C9 at a concrete load: the DDS file `arrayFile3` (height 2, three slices)
is stored as the rule says, a `Texture2DArray` of dimension 2. -/
theorem C9_type_and_dimension_witness :
    (openLoop arrayFile3.fopen 10 0).1 = true ∧
    loadFile arrayFile3 (initialViewer blankDetails) =
      some (Loaded.ok viewerLoadingArray3 decodedArray3) ∧
    ∃ r, RefreshFile sampleOps sampleProxy arrayFile3 (initialViewer blankDetails) = some r ∧
      followsRule r.1.m_TexDetails ∧
      r.1.m_TexDetails.type = TextureType.Texture2DArray ∧ r.1.m_TexDetails.dimension = 2 := by
  refine ⟨by decide, by decide, ?_⟩
  cases h : RefreshFile sampleOps sampleProxy arrayFile3 (initialViewer blankDetails) with
  | none => exact absurd h (by decide)
  | some r =>
    have hrule := (C9_type_and_dimension sampleOps sampleProxy arrayFile3
      (initialViewer blankDetails) viewerLoadingArray3 decodedArray3 r (by decide) (by decide)
      h).2.2.1 rfl
    have hval : (RefreshFile sampleOps sampleProxy arrayFile3 (initialViewer blankDetails)).map
        (fun r => (r.1.m_TexDetails.type, r.1.m_TexDetails.dimension)) =
        some (TextureType.Texture2DArray, 2) := by decide
    rw [h] at hval
    simp only [Option.map_some', Option.some.injEq, Prod.mk.injEq] at hval
    exact ⟨r, rfl, hrule, hval.1, hval.2⟩

/-- C9 fails as stated: the constructor loads the raster `raster2x1` (2 by 1
pixels) successfully, and the stored description has depth 1, no cubemap, height
1 and one slice, for which the rule gives `Texture1D` with dimension 1, but its
type is `Texture2D` and its dimension 2. -/
theorem C9_counterexample_flat_raster :
    ∃ r, construct sampleOps sampleProxy blankDetails raster2x1 = some r ∧
      r.1.m_Error = ResultCode.Succeeded ∧
      r.1.m_TexDetails.depth = 1 ∧ r.1.m_TexDetails.cubemap = false ∧
      r.1.m_TexDetails.height = 1 ∧ r.1.m_TexDetails.arraysize = 1 ∧
      typeRule r.1.m_TexDetails.depth r.1.m_TexDetails.cubemap r.1.m_TexDetails.arraysize
        r.1.m_TexDetails.height = (TextureType.Texture1D, 1) ∧
      r.1.m_TexDetails.type = TextureType.Texture2D ∧ r.1.m_TexDetails.dimension = 2 ∧
      ¬ followsRule r.1.m_TexDetails :=
  ⟨_, construct_raster2x1, by decide, by decide, by decide, by decide, by decide, by decide,
    by decide, by decide, by unfold followsRule; decide⟩

/-! ## C10: the identity handed to the backend -/

/-- C10 (as amended): `RenderTexture`, and `GetTextureData` whenever it forwards
the read-back, pass the caller's identity when it equals the current primary or
derived identity and the current primary identity otherwise.  `GetMinMax` and
`GetHistogram` always pass the current primary identity, whatever identity the
caller supplied.  `PickPixel` passes the caller's identity when it is the
primary or the derived one. -/
theorem C10_identity_forwarding (proxy : IReplayDriver) (v : ImageViewer) (id : ResourceId)
    (sub : Subresource) (typeCast : CompType) :
    (∀ cfg : TextureDisplay, cfg.resourceId = id →
      ∃ cfg2, (RenderTexture proxy v cfg).2 = [Event.RenderTexture cfg2] ∧
        cfg2.resourceId = rewrittenId v id ∧ cfg2.rest = cfg.rest) ∧
    (∀ params r, GetTextureData proxy v id sub params = some r →
      r.2 = [] ∨ r.2 = [Event.GetTextureData (rewrittenId v id) sub params]) ∧
    (∀ params, (v.m_RealTexData = [] ∨ params.remap ≠ RemapTexture.NoRemap ∨
        rewrittenId v id ≠ v.m_TextureID) →
      GetTextureData proxy v id sub params =
        some (proxy.GetTextureData (rewrittenId v id) sub params,
              [Event.GetTextureData (rewrittenId v id) sub params])) ∧
    (GetMinMax proxy v id sub typeCast).2 = [Event.GetMinMax v.m_TextureID sub typeCast] ∧
    (GetHistogram proxy v id sub typeCast).2 =
      [Event.GetHistogram v.m_TextureID sub typeCast] ∧
    (∀ x y, (id = v.m_TextureID ∨ id = v.m_CustomTexID) →
      (proxy.localRenderer ≠ GraphicsAPI.OpenGL ∨ sub.mip < 32) →
      ∃ evs y2, PickPixel proxy v id x y sub typeCast = some evs ∧
        evs.getLast? = some (Event.PickPixel (rewrittenId v id) x y2 sub typeCast) ∧
        ∀ e, e ∈ evs → e = Event.GetTexture (rewrittenId v id) ∨
          e = Event.PickPixel (rewrittenId v id) x y2 sub typeCast) := by
  have hrw : (if id ≠ v.m_TextureID ∧ id ≠ v.m_CustomTexID then v.m_TextureID else id) =
      rewrittenId v id := by
    unfold rewrittenId
    by_cases h1 : id = v.m_TextureID
    · simp [h1]
    · by_cases h2 : id = v.m_CustomTexID
      · simp [h2]
      · simp [h1, h2]
  refine ⟨?_, ?_, ?_, rfl, rfl, ?_⟩
  · intro cfg hcfg
    subst hcfg
    unfold RenderTexture
    simp only []
    by_cases hgl : proxy.localRenderer = GraphicsAPI.OpenGL
    · refine ⟨_, rfl, ?_, ?_⟩
      · simp only [hgl, if_true]
        rw [← hrw]
        split <;> rfl
      · simp only [hgl, if_true]
        split <;> rfl
    · refine ⟨_, rfl, ?_, ?_⟩
      · simp only [hgl, if_false]
        rw [← hrw]
        split <;> rfl
      · simp only [hgl, if_false]
        split <;> rfl
  · intro params r hr
    unfold GetTextureData at hr
    simp only [hrw] at hr
    split at hr
    · split at hr
      · simp at hr
      · simp only [Option.some.injEq] at hr
        subst hr
        exact Or.inl rfl
    · simp only [Option.some.injEq] at hr
      subst hr
      exact Or.inr rfl
  · intro params hcond
    unfold GetTextureData
    simp only [hrw]
    have hnot : ¬ (rewrittenId v id = v.m_TextureID ∧ v.m_RealTexData ≠ [] ∧
        params.remap = RemapTexture.NoRemap) := by
      rintro ⟨h1, h2, h3⟩
      rcases hcond with h | h | h
      · exact h2 h
      · exact h h3
      · exact h h1
    simp only [hnot, if_false]
  · intro x y hid hdef
    have hsame : rewrittenId v id = id := by
      unfold rewrittenId
      simp [hid]
    rw [hsame]
    unfold PickPixel
    by_cases hgl : proxy.localRenderer = GraphicsAPI.OpenGL
    · have hmip : ¬ 32 ≤ sub.mip := by
        rcases hdef with h | h
        · exact absurd hgl h
        · omega
      simp only [hgl, if_true, hmip, if_false]
      refine ⟨_, _, rfl, rfl, ?_⟩
      intro e he
      simp at he
      rcases he with h | h
      · exact Or.inl h
      · exact Or.inr h
    · simp only [hgl, if_false]
      refine ⟨_, y, rfl, rfl, ?_⟩
      intro e he
      simp at he
      exact Or.inr he

/-- C10 fails as stated: with the primary identity 1 and the derived identity
100, `GetMinMax` and `GetHistogram` called with the derived identity hand the
primary identity 1 to the backend, where the claim has the derived identity
itself. -/
theorem C10_counterexample_minmax_on_derived :
    viewerWithCustom.m_TextureID = 1 ∧ viewerWithCustom.m_CustomTexID = 100 ∧
    rewrittenId viewerWithCustom 100 = 100 ∧
    (GetMinMax sampleProxy viewerWithCustom 100 { mip := 0, slice := 0, sample := 0 }
        CompType.Float).2 =
      [Event.GetMinMax 1 { mip := 0, slice := 0, sample := 0 } CompType.Float] ∧
    (GetHistogram sampleProxy viewerWithCustom 100 { mip := 0, slice := 0, sample := 0 }
        CompType.Float).2 =
      [Event.GetHistogram 1 { mip := 0, slice := 0, sample := 0 } CompType.Float] := by
  refine ⟨by decide, by decide, by decide, by decide, by decide⟩

/-- `PickPixel` evaluated at an identity that is neither the primary (1) nor
the derived one (100): the identity 7 is handed to the backend as it is. -/
theorem PickPixel_unknown_identity :
    rewrittenId viewerWithCustom 7 = 1 ∧
    PickPixel sampleProxy viewerWithCustom 7 3 4 { mip := 0, slice := 0, sample := 0 }
        CompType.Float =
      some [Event.PickPixel 7 3 4 { mip := 0, slice := 0, sample := 0 } CompType.Float] := by
  refine ⟨by decide, by decide⟩

/-- C10 at a concrete call: with the primary identity 1 and the derived identity
100, `RenderTexture` called with the identity 7 hands the primary identity to
the backend, and called with 100 hands 100. -/
theorem C10_identity_forwarding_witness :
    (∃ cfg2, (RenderTexture sampleProxy viewerWithCustom
        { resourceId := 7, flipY := false, rest := 5 }).2 = [Event.RenderTexture cfg2] ∧
      cfg2.resourceId = 1) ∧
    (∃ cfg2, (RenderTexture sampleProxy viewerWithCustom
        { resourceId := 100, flipY := false, rest := 5 }).2 = [Event.RenderTexture cfg2] ∧
      cfg2.resourceId = 100) :=
  ⟨match (C10_identity_forwarding sampleProxy viewerWithCustom 7
      { mip := 0, slice := 0, sample := 0 } CompType.Float).1
      { resourceId := 7, flipY := false, rest := 5 } rfl with
   | ⟨cfg2, h1, h2, _⟩ => ⟨cfg2, h1, by rw [h2]; decide⟩,
   match (C10_identity_forwarding sampleProxy viewerWithCustom 100
      { mip := 0, slice := 0, sample := 0 } CompType.Float).1
      { resourceId := 100, flipY := false, rest := 5 } rfl with
   | ⟨cfg2, h1, h2, _⟩ => ⟨cfg2, h1, by rw [h2]; decide⟩⟩

/-! ## The stored error -/

theorem recordSizes_failed (l : Loaded) (v1 : ImageViewer)
    (h : recordSizes l = Loaded.failed v1) : l = Loaded.failed v1 := by
  cases l with
  | failed v0 => simpa [recordSizes] using h
  | ok v0 d => simp [recordSizes] at h

theorem loadEXR_failed (w : FileWorld) (v : ImageViewer) (t : TextureDescription)
    (v1 : ImageViewer) (h : loadEXR w v t = some (Loaded.failed v1)) :
    ∃ code, code ≠ ResultCode.Succeeded ∧ v1 = { v with m_Error := code } := by
  unfold loadEXR at h
  split at h
  · simp only [failWith, Option.some.injEq, Loaded.failed.injEq] at h
    exact ⟨ResultCode.ImageUnsupported, by decide, h.symm⟩
  · unfold loadEXRImage at h
    split at h
    · simp only [failWith, Option.some.injEq, Loaded.failed.injEq] at h
      exact ⟨ResultCode.ReplayOutOfMemory, by decide, h.symm⟩
    · split at h
      · simp at h
      · split at h
        · simp only [failWith, Option.some.injEq, Loaded.failed.injEq] at h
          exact ⟨ResultCode.ImageUnsupported, by decide, h.symm⟩
        · simp at h

theorem loadHDR_failed (w : FileWorld) (v : ImageViewer) (t : TextureDescription)
    (v1 : ImageViewer) (h : loadHDR w v t = some (Loaded.failed v1)) :
    ∃ code, code ≠ ResultCode.Succeeded ∧ v1 = { v with m_Error := code } := by
  unfold loadHDR at h
  simp only [] at h
  split at h
  · simp only [failWith, Option.some.injEq, Loaded.failed.injEq] at h
    exact ⟨ResultCode.ImageUnsupported, by decide, h.symm⟩
  · simp at h

theorem loadGeneric_failed (w : FileWorld) (v : ImageViewer) (t : TextureDescription)
    (v1 : ImageViewer) (h : loadGeneric w v t = some (Loaded.failed v1)) :
    ∃ code, code ≠ ResultCode.Succeeded ∧ v1 = { v with m_Error := code } := by
  unfold loadGeneric at h
  simp only [] at h
  split at h
  · simp only [failWith, Option.some.injEq, Loaded.failed.injEq] at h
    exact ⟨ResultCode.ImageUnsupported, by decide, h.symm⟩
  · split at h
    · simp only [failWith, Option.some.injEq, Loaded.failed.injEq] at h
      exact ⟨ResultCode.ImageUnsupported, by decide, h.symm⟩
    · split at h
      · simp only [failWith, Option.some.injEq, Loaded.failed.injEq] at h
        exact ⟨ResultCode.ImageUnsupported, by decide, h.symm⟩
      · simp at h

theorem loadDDS_failed (w : FileWorld) (v : ImageViewer) (t : TextureDescription)
    (v1 : ImageViewer) (h : loadDDS w v t = some (Loaded.failed v1)) :
    ∃ code fi, code ≠ ResultCode.Succeeded ∧
      v1 = { v with m_Error := code, frameInfo := fi } := by
  unfold loadDDS at h
  simp only [] at h
  split at h
  · rename_i hres
    simp only [Option.some.injEq, Loaded.failed.injEq] at h
    exact ⟨w.load_dds_from_file.1, _, hres, h.symm⟩
  · split at h
    · simp at h
    · simp at h

/-- A load that fails has recorded a code other than `Succeeded` and has
changed nothing else of the viewer but the frame sizes. -/
theorem loadFile_failed (w : FileWorld) (v v1 : ImageViewer)
    (h : loadFile w v = some (Loaded.failed v1)) :
    ∃ code fi, code ≠ ResultCode.Succeeded ∧
      v1 = { v with m_Error := code, frameInfo := fi } := by
  unfold loadFile at h
  split_ifs at h
  · simp only [Option.map_eq_some'] at h
    obtain ⟨l, hl, hr⟩ := h
    rw [recordSizes_failed l v1 hr] at hl
    obtain ⟨code, hc, hv⟩ := loadEXR_failed w v _ v1 hl
    exact ⟨code, v.frameInfo, hc, hv⟩
  · simp only [Option.map_eq_some'] at h
    obtain ⟨l, hl, hr⟩ := h
    rw [recordSizes_failed l v1 hr] at hl
    obtain ⟨code, hc, hv⟩ := loadHDR_failed w v _ v1 hl
    exact ⟨code, v.frameInfo, hc, hv⟩
  · exact loadDDS_failed w v _ v1 h
  · simp only [Option.map_eq_some'] at h
    obtain ⟨l, hl, hr⟩ := h
    rw [recordSizes_failed l v1 hr] at hl
    obtain ⟨code, hc, hv⟩ := loadGeneric_failed w v _ v1 hl
    exact ⟨code, v.frameInfo, hc, hv⟩

theorem negotiate_frame (ops : FormatOps) (proxy : IReplayDriver) (v : ImageViewer)
    (d : Decoded) (n : Negotiated) (h : negotiate ops proxy v d = some n) :
    n.viewer.m_TexDetails = v.m_TexDetails ∧ n.viewer.m_CustomTexID = v.m_CustomTexID ∧
    n.viewer.m_Error = v.m_Error ∧ n.viewer.frameInfo = v.frameInfo := by
  unfold negotiate at h
  split at h
  · exact CreateProxyTexture_frame ops proxy v _ _ n h
  · simp only [Option.some.injEq] at h
    subst h
    exact ⟨rfl, rfl, rfl, rfl⟩

/-- Lines 911-915: after the negotiation the error is `APIInitFailed` when no
handle is held, and is the error held before otherwise. -/
theorem finishRefresh_error (ops : FormatOps) (proxy : IReplayDriver) (fileSize : Nat)
    (v : ImageViewer) (d : Decoded) (r : ImageViewer × List Event)
    (h : finishRefresh ops proxy fileSize v d = some r) :
    (r.1.m_TextureID = 0 ∧ r.1.m_Error = ResultCode.APIInitFailed) ∨
    (r.1.m_TextureID ≠ 0 ∧ r.1.m_Error = v.m_Error) := by
  unfold finishRefresh at h
  simp only [] at h
  split at h
  · simp at h
  · rename_i n hn
    have hf := (negotiate_frame ops proxy _ d n hn).2.2.1
    split at h
    · simp at h
    · simp only [Option.some.injEq] at h
      subst h
      by_cases hz : n.viewer.m_TextureID = 0
      · left
        simp [hz]
      · right
        simp only [hz, if_false]
        refine ⟨hz, ?_⟩
        rw [hf]
        unfold invalidateIfChanged
        split_ifs <;> rfl

/-- Every store to `m_Error` in `RefreshFile` stores a code other than
`Succeeded`. -/
theorem RefreshFile_error (ops : FormatOps) (proxy : IReplayDriver) (w : FileWorld)
    (v : ImageViewer) (r : ImageViewer × List Event)
    (h : RefreshFile ops proxy w v = some r) :
    r.1.m_Error = v.m_Error ∨ r.1.m_Error ≠ ResultCode.Succeeded := by
  unfold RefreshFile at h
  simp only [] at h
  split at h
  · simp only [Option.some.injEq] at h
    subst h
    right
    simp
  · unfold refreshOpened at h
    split at h
    · simp at h
    · rename_i r1 hr1
      simp only [Option.some.injEq] at h
      subst h
      split at hr1
      · simp at hr1
      · rename_i v1 hl
        simp only [Option.some.injEq] at hr1
        subst hr1
        obtain ⟨code, fi, hc, hv⟩ := loadFile_failed w v v1 hl
        right
        rw [hv]
        exact hc
      · rename_i v1 d hl
        have hv1 := (loadFile_ok w v v1 d hl).1
        have hv1e : v1.m_Error = v.m_Error := by rw [hv1]
        rcases finishRefresh_error ops proxy w.fileSize v1 d r1 hr1 with ⟨_, he⟩ | ⟨_, he⟩
        · right
          simp [he]
        · left
          simp [he, hv1e]

theorem perform_error (ops : FormatOps) (proxy : IReplayDriver) (v : ImageViewer) (c : Call)
    (r : ImageViewer × List Event) (h : perform ops proxy v c = some r) :
    r.1.m_Error = v.m_Error ∨ r.1.m_Error ≠ ResultCode.Succeeded := by
  cases c with
  | FileChanged w => exact RefreshFile_error ops proxy w v r h
  | PickPixel texture x y sub typeCast =>
    simp only [perform, Option.map_eq_some'] at h
    obtain ⟨_, _, rfl⟩ := h
    exact Or.inl rfl
  | GetMinMax texid sub typeCast =>
    simp only [perform, Option.some.injEq] at h
    subst h
    exact Or.inl rfl
  | GetHistogram texid sub typeCast =>
    simp only [perform, Option.some.injEq] at h
    subst h
    exact Or.inl rfl
  | RenderTexture cfg =>
    simp only [perform, Option.some.injEq] at h
    subst h
    exact Or.inl rfl
  | ApplyCustomShader display =>
    simp only [perform, Option.some.injEq] at h
    subst h
    exact Or.inl rfl
  | GetTextureData tex sub params =>
    simp only [perform, Option.map_eq_some'] at h
    obtain ⟨_, _, rfl⟩ := h
    exact Or.inl rfl

theorem performAll_error (ops : FormatOps) (proxy : IReplayDriver) :
    ∀ (calls : List Call) (v : ImageViewer) (r : ImageViewer × List Event),
      v.m_Error ≠ ResultCode.Succeeded → performAll ops proxy v calls = some r →
      r.1.m_Error ≠ ResultCode.Succeeded := by
  intro calls
  induction calls with
  | nil =>
    intro v r hv h
    simp only [performAll, Option.some.injEq] at h
    subst h
    exact hv
  | cons c cs ih =>
    intro v r hv h
    simp only [performAll] at h
    split at h
    · simp at h
    · rename_i r1 hr1
      split at h
      · simp at h
      · rename_i r2 hr2
        simp only [Option.some.injEq] at h
        subst h
        refine ih r1.1 r2 ?_ hr2
        rcases perform_error ops proxy v c r1 hr1 with he | he
        · rw [he]
          exact hv
        · exact he

/-- C11: `FatalErrorCheck` returns the stored error when it is not `Succeeded`
and the proxy's own answer otherwise; a refresh either leaves the stored error
as it was or stores a code other than `Succeeded`; hence from a viewer whose
stored error is not `Succeeded`, after any sequence of refreshes (each on an
arbitrary file) and other calls on the viewer, the stored error is still not
`Succeeded` and `FatalErrorCheck` returns a code other than `Succeeded`. -/
theorem C11_failed_state_absorbing (ops : FormatOps) (proxy : IReplayDriver) :
    (∀ v : ImageViewer, v.m_Error ≠ ResultCode.Succeeded →
      FatalErrorCheck proxy v = v.m_Error) ∧
    (∀ v : ImageViewer, v.m_Error = ResultCode.Succeeded →
      FatalErrorCheck proxy v = proxy.FatalErrorCheck) ∧
    (∀ (w : FileWorld) (v : ImageViewer) (r : ImageViewer × List Event),
      RefreshFile ops proxy w v = some r →
      r.1.m_Error = v.m_Error ∨ r.1.m_Error ≠ ResultCode.Succeeded) ∧
    (∀ (v : ImageViewer) (calls : List Call) (r : ImageViewer × List Event),
      v.m_Error ≠ ResultCode.Succeeded → performAll ops proxy v calls = some r →
      r.1.m_Error ≠ ResultCode.Succeeded ∧
      FatalErrorCheck proxy r.1 ≠ ResultCode.Succeeded) := by
  refine ⟨?_, ?_, ?_, ?_⟩
  · intro v hv
    simp [FatalErrorCheck, hv]
  · intro v hv
    simp [FatalErrorCheck, hv]
  · intro w v r h
    exact RefreshFile_error ops proxy w v r h
  · intro v calls r hv h
    have he := performAll_error ops proxy calls v r hv h
    refine ⟨he, ?_⟩
    simp only [FatalErrorCheck, he, ne_eq, not_false_eq_true, if_true]

/-- C11 at a concrete run: a refresh of an unreadable file records
`ImageUnsupported`; after a successful refresh, a custom shader, a converted
DDS load and a query the viewer holds a handle and the error is still
reported. -/
theorem C11_failed_state_absorbing_witness :
    (RefreshFile sampleOps sampleProxy unreadableFile (initialViewer blankDetails)).map
        (fun p => p.1) = some viewerAfterUnreadable ∧
    ∃ r, performAll sampleOps sampleProxy viewerAfterUnreadable callsAfterFailure = some r ∧
      r.1.m_TextureID ≠ 0 ∧
      r.1.m_Error ≠ ResultCode.Succeeded ∧
      FatalErrorCheck sampleProxy r.1 ≠ ResultCode.Succeeded := by
  refine ⟨by decide, ?_⟩
  have h : (performAll sampleOps sampleProxy viewerAfterUnreadable callsAfterFailure).isSome
      = true := by decide
  obtain ⟨r, hr⟩ := Option.isSome_iff_exists.mp h
  have hid : (performAll sampleOps sampleProxy viewerAfterUnreadable callsAfterFailure).map
      (fun p => decide (p.1.m_TextureID ≠ 0)) = some true := by decide
  rw [hr] at hid
  exact ⟨r, hr, by simpa using hid,
    (C11_failed_state_absorbing sampleOps sampleProxy).2.2.2 viewerAfterUnreadable
      callsAfterFailure r (by decide) hr⟩

/-! ## A description that can be neither created nor converted -/

theorem CreateProxyTexture_unconvertible (ops : FormatOps) (proxy : IReplayDriver)
    (v : ImageViewer) (t : TextureDescription) (rd : read_dds_data)
    (hrej : proxy.IsTextureSupported t = false)
    (hnoremap : ¬ (ops.BlockFormat t.format = true ∧ t.type = TextureType.Texture3D ∧
      proxy.IsTextureSupported (arrayDetailsOf t) = true))
    (hnoconv : ops.convertSupported t.format = false) :
    ∃ pre, CreateProxyTexture ops proxy v t rd =
        some { viewer := v, texDetails := t, read_data := rd, events := pre } ∧
      ∀ e, e ∈ pre → e.isQuery = true := by
  obtain ⟨pre, hcp, hq⟩ := CreateProxyTexture_to_convertPath ops proxy v t rd hrej hnoremap
  refine ⟨pre, ?_, hq⟩
  rw [hcp]
  unfold convertPath
  simp [hnoconv]

/-- The refresh of a file whose description can be neither created nor
converted: lines 902-933 run to the end with a null handle. -/
theorem RefreshFile_unconvertible (ops : FormatOps) (proxy : IReplayDriver) (w : FileWorld)
    (v v1 : ImageViewer) (d : Decoded)
    (hopen : (openLoop w.fopen 10 0).1 = true)
    (hload : loadFile w v = some (Loaded.ok v1 d))
    (hneg : v.m_TextureID = 0 ∨ fieldsDiffer v.m_TexDetails d.texDetails)
    (hrej : proxy.IsTextureSupported d.texDetails = false)
    (hnoremap : ¬ (ops.BlockFormat d.texDetails.format = true ∧
      d.texDetails.type = TextureType.Texture3D ∧
      proxy.IsTextureSupported (arrayDetailsOf d.texDetails) = true))
    (hnoconv : ops.convertSupported d.texDetails.format = false) :
    ∃ pre ups, RefreshFile ops proxy w v =
        some ({ v1 with m_TextureID := 0, m_Error := ResultCode.APIInitFailed,
                        m_TexDetails := storedDetails d.texDetails 0 w.fileSize },
              (openLoop w.fopen 10 0).2 ++ (pre ++ ups)) ∧
      (∀ e, e ∈ pre → e.isQuery = true) ∧
      uploads 0 d { viewer := { v1 with m_TextureID := 0, m_TexDetails := d.texDetails },
                    texDetails := d.texDetails, read_data := d.read_data, events := pre }
        = some ups := by
  obtain ⟨hv1, hddsLen⟩ := loadFile_ok w v v1 d hload
  have hchg : v1.m_TextureID = 0 ∨ structuralChange v1.m_TexDetails d.texDetails = true := by
    rw [hv1]
    rcases hneg with h | h
    · exact Or.inl h
    · exact Or.inr ((structuralChange_iff _ _).mpr h)
  obtain ⟨pre, hrun, hq⟩ := CreateProxyTexture_unconvertible ops proxy
    { v1 with m_TextureID := 0, m_TexDetails := d.texDetails } d.texDetails d.read_data
    hrej hnoremap hnoconv
  obtain ⟨ups, hups⟩ := uploads_defined 0 d
    { viewer := { v1 with m_TextureID := 0, m_TexDetails := d.texDetails },
      texDetails := d.texDetails, read_data := d.read_data, events := pre } hddsLen
  have hfin := finishRefresh_negotiated ops proxy w.fileSize v1 d hchg _ hrun ups hups
  refine ⟨pre, ups, ?_, hq, hups⟩
  simp only [RefreshFile, refreshOpened, hopen, hload, hfin]
  simp

/-- C12 (as amended): when a DDS file is decoded, the negotiator runs (no handle
is held or one of the seven compared fields differs), the proxy rejects the
description, the 3D-to-array remap does not apply or is rejected, and the
format has no CPU conversion, then the refresh completes, holds no handle, and
the error it records and `FatalErrorCheck` reports is `APIInitFailed`. -/
theorem C12_unconvertible_dds_error (ops : FormatOps) (proxy : IReplayDriver)
    (w : FileWorld) (v v1 : ImageViewer) (d : Decoded)
    (hopen : (openLoop w.fopen 10 0).1 = true)
    (hload : loadFile w v = some (Loaded.ok v1 d))
    (hdds : d.dds = true)
    (hneg : v.m_TextureID = 0 ∨ fieldsDiffer v.m_TexDetails d.texDetails)
    (hrej : proxy.IsTextureSupported d.texDetails = false)
    (hnoremap : ¬ (ops.BlockFormat d.texDetails.format = true ∧
      d.texDetails.type = TextureType.Texture3D ∧
      proxy.IsTextureSupported (arrayDetailsOf d.texDetails) = true))
    (hnoconv : ops.convertSupported d.texDetails.format = false) :
    ∃ r, RefreshFile ops proxy w v = some r ∧
      r.1.m_TextureID = 0 ∧
      r.1.m_Error = ResultCode.APIInitFailed ∧
      FatalErrorCheck proxy r.1 = ResultCode.APIInitFailed ∧
      createsOf r.2 = [] := by
  obtain ⟨pre, ups, hrun, hq, hups⟩ := RefreshFile_unconvertible ops proxy w v v1 d hopen hload
    hneg hrej hnoremap hnoconv
  refine ⟨_, hrun, rfl, rfl, by simp [FatalErrorCheck], ?_⟩
  rw [List.eq_nil_iff_forall_not_mem]
  intro c hc
  simp only [createsOf, List.mem_filter, List.mem_append] at hc
  obtain ⟨hmem, hcr⟩ := hc
  rcases hmem with h | h | h
  · have := openLoop_events w.fopen 10 0 c h
    cases c <;> simp [Event.isCreate, Event.onProxy] at hcr this
  · have := hq c h
    cases c <;> simp [Event.isCreate, Event.isQuery] at hcr this
  · have := uploads_isUpload 0 d _ ups hups c h
    cases c <;> simp [Event.isCreate, Event.isUpload] at hcr this

/-- C12 on `oddFile`, loaded by the constructor. -/
theorem C12_unconvertible_dds_error_witness :
    ∃ r, RefreshFile sampleOps sampleProxy oddFile (initialViewer blankDetails) = some r ∧
      r.1.m_TextureID = 0 ∧
      r.1.m_Error = ResultCode.APIInitFailed ∧
      FatalErrorCheck sampleProxy r.1 = ResultCode.APIInitFailed ∧
      createsOf r.2 = [] :=
  C12_unconvertible_dds_error sampleOps sampleProxy oddFile (initialViewer blankDetails)
    { initialViewer blankDetails with
        frameInfo := { initDataSize := 0, persistentSize := 0, uncompressedFileSize := 1,
                       compressedFileSize := 1 } }
    ⟨oddDetails 0, [], 0, true, oddFile.load_dds_from_file.2⟩
    (by decide) (by decide) rfl (Or.inl rfl) (by decide) (by decide) (by decide)

/-- C12, counterexample: `oddFile` is a DDS file whose description the proxy
rejects, whose format is not a block format and has no CPU conversion; the
refresh records `APIInitFailed`, not `ImageUnsupported`. -/
theorem C12_counterexample_code_is_APIInitFailed :
    oddFile.is_dds_file = true ∧
    sampleProxy.IsTextureSupported (oddDetails 0) = false ∧
    sampleOps.BlockFormat oddFormat = false ∧
    sampleOps.convertSupported oddFormat = false ∧
    (RefreshFile sampleOps sampleProxy oddFile (initialViewer blankDetails)).map
      (fun p => (p.1.m_Error, p.1.m_TexDetails.format,
                 decide (p.1.m_TexDetails = storedDetails (oddDetails 0) 0 128)))
      = some (ResultCode.APIInitFailed, oddFormat, true) ∧
    ResultCode.APIInitFailed ≠ ResultCode.ImageUnsupported := by decide

/-! ## What a failed refresh leaves behind -/

theorem RefreshFile_load_failed (ops : FormatOps) (proxy : IReplayDriver) (w : FileWorld)
    (v v1 : ImageViewer) (hopen : (openLoop w.fopen 10 0).1 = true)
    (hload : loadFile w v = some (Loaded.failed v1)) :
    RefreshFile ops proxy w v = some (v1, (openLoop w.fopen 10 0).2) := by
  simp [RefreshFile, refreshOpened, hopen, hload]

theorem RefreshFile_load_ok (ops : FormatOps) (proxy : IReplayDriver) (w : FileWorld)
    (v v1 : ImageViewer) (d : Decoded) (hopen : (openLoop w.fopen 10 0).1 = true)
    (hload : loadFile w v = some (Loaded.ok v1 d)) (r : ImageViewer × List Event)
    (h : RefreshFile ops proxy w v = some r) :
    ∃ r1, finishRefresh ops proxy w.fileSize v1 d = some r1 ∧ r.1 = r1.1 ∧
      r.2 = (openLoop w.fopen 10 0).2 ++ r1.2 := by
  simp only [RefreshFile, refreshOpened, hopen, hload, Bool.true_eq_false, if_false] at h
  split at h
  · simp at h
  · rename_i r1 hr1
    simp only [Option.some.injEq] at h
    subst h
    exact ⟨r1, hr1, rfl, rfl⟩

/-- C13 (as amended): a refresh whose open loop is exhausted records
`FileIOFailed`, a refresh whose decoding fails records a code other than
`Succeeded`; both leave the description reported by `GetTexture` and
`GetTextures` and the primary handle as they were and issue no call to the
proxy.  A refresh that ends with no handle after decoding records
`APIInitFailed` and reports the newly decoded description with a null
`resourceId`. -/
theorem C13_failed_refresh_state (ops : FormatOps) (proxy : IReplayDriver) (w : FileWorld)
    (v : ImageViewer) :
    ((openLoop w.fopen 10 0).1 = false →
      ∃ r, RefreshFile ops proxy w v = some r ∧
        r.1.m_Error = ResultCode.FileIOFailed ∧
        (∀ id, GetTexture r.1 id = GetTexture v id) ∧ GetTextures r.1 = GetTextures v ∧
        r.1.m_TextureID = v.m_TextureID ∧ ∀ e, e ∈ r.2 → e.onProxy = false) ∧
    (∀ v1, (openLoop w.fopen 10 0).1 = true → loadFile w v = some (Loaded.failed v1) →
      ∃ r, RefreshFile ops proxy w v = some r ∧
        r.1.m_Error ≠ ResultCode.Succeeded ∧
        (∀ id, GetTexture r.1 id = GetTexture v id) ∧ GetTextures r.1 = GetTextures v ∧
        r.1.m_TextureID = v.m_TextureID ∧ ∀ e, e ∈ r.2 → e.onProxy = false) ∧
    (∀ v1 d r, (openLoop w.fopen 10 0).1 = true → loadFile w v = some (Loaded.ok v1 d) →
      RefreshFile ops proxy w v = some r → r.1.m_TextureID = 0 →
        r.1.m_Error = ResultCode.APIInitFailed ∧
        (∀ id, GetTexture r.1 id = storedDetails d.texDetails 0 w.fileSize) ∧
        GetTextures r.1 = [storedDetails d.texDetails 0 w.fileSize]) := by
  refine ⟨?_, ?_, ?_⟩
  · intro hopen
    refine ⟨({ v with m_Error := ResultCode.FileIOFailed }, (openLoop w.fopen 10 0).2),
      by simp [RefreshFile, hopen], rfl, fun _ => rfl, rfl, rfl, ?_⟩
    exact openLoop_events w.fopen 10 0
  · intro v1 hopen hload
    obtain ⟨code, fi, hc, hv⟩ := loadFile_failed w v v1 hload
    refine ⟨_, RefreshFile_load_failed ops proxy w v v1 hopen hload, ?_, ?_, ?_, ?_, ?_⟩
    · rw [hv]
      exact hc
    · intro id
      rw [hv]
      rfl
    · rw [hv]
      rfl
    · rw [hv]
    · exact openLoop_events w.fopen 10 0
  · intro v1 d r hopen hload hrun hz
    obtain ⟨r1, hfin, h1, _⟩ := RefreshFile_load_ok ops proxy w v v1 d hopen hload r hrun
    have hst := finishRefresh_stores ops proxy w.fileSize v1 d r1 hfin
    rw [h1] at hz
    rw [hz] at hst
    refine ⟨?_, ?_, ?_⟩
    · rcases finishRefresh_error ops proxy w.fileSize v1 d r1 hfin with ⟨_, he⟩ | ⟨hne, _⟩
      · rw [h1]
        exact he
      · exact absurd hz hne
    · intro id
      simp only [GetTexture, h1, hst]
    · simp only [GetTextures, h1, hst]

/-- C13 on three refreshes of a viewer that holds the handle 1: a file that
never opens, a file that cannot be decoded, and a DDS file that can be neither
created nor converted. -/
theorem C13_failed_refresh_state_witness :
    (∃ r, RefreshFile sampleOps sampleProxy lockedForever viewerAfterRaster = some r ∧
        r.1.m_Error = ResultCode.FileIOFailed ∧
        (∀ id, GetTexture r.1 id = GetTexture viewerAfterRaster id) ∧
        GetTextures r.1 = GetTextures viewerAfterRaster ∧
        r.1.m_TextureID = viewerAfterRaster.m_TextureID ∧
        ∀ e, e ∈ r.2 → e.onProxy = false) ∧
    (∃ r, RefreshFile sampleOps sampleProxy unreadableFile viewerAfterRaster = some r ∧
        r.1.m_Error ≠ ResultCode.Succeeded ∧
        (∀ id, GetTexture r.1 id = GetTexture viewerAfterRaster id) ∧
        GetTextures r.1 = GetTextures viewerAfterRaster ∧
        r.1.m_TextureID = viewerAfterRaster.m_TextureID ∧
        ∀ e, e ∈ r.2 → e.onProxy = false) ∧
    (∃ r, RefreshFile sampleOps sampleProxy oddFile viewerAfterRaster = some r ∧
        r.1.m_Error = ResultCode.APIInitFailed ∧
        (∀ id, GetTexture r.1 id = storedDetails (oddDetails 1) 0 oddFile.fileSize) ∧
        GetTextures r.1 = [storedDetails (oddDetails 1) 0 oddFile.fileSize]) := by
  refine ⟨?_, ?_, ?_⟩
  · exact (C13_failed_refresh_state sampleOps sampleProxy lockedForever viewerAfterRaster).1
      (by decide)
  · exact (C13_failed_refresh_state sampleOps sampleProxy unreadableFile viewerAfterRaster).2.1
      { viewerAfterRaster with m_Error := ResultCode.ImageUnsupported } (by decide) (by decide)
  · have h : (RefreshFile sampleOps sampleProxy oddFile viewerAfterRaster).isSome = true := by
      decide
    obtain ⟨r, hr⟩ := Option.isSome_iff_exists.mp h
    have hz : (RefreshFile sampleOps sampleProxy oddFile viewerAfterRaster).map
        (fun p => p.1.m_TextureID) = some 0 := by decide
    rw [hr] at hz
    exact ⟨r, hr,
      (C13_failed_refresh_state sampleOps sampleProxy oddFile viewerAfterRaster).2.2
        { viewerAfterRaster with
            frameInfo := { initDataSize := 0, persistentSize := 0, uncompressedFileSize := 1,
                           compressedFileSize := 1 } }
        ⟨oddDetails 1, [], 0, true, oddFile.load_dds_from_file.2⟩ r
        (by decide) (by decide) hr (by simpa using hz)⟩

/-- C13, counterexample: the viewer holds the handle 1 for a 2 by 1 raster and
the file is replaced by `oddFile`, whose description can be neither created nor
converted.  The refresh ends with `APIInitFailed` recorded; afterwards the
primary handle is null instead of 1, `GetTexture` reports the description of
`oddFile` instead of the raster's, and one upload was issued with the null
handle. -/
theorem C13_counterexample_negotiator_failure :
    viewerAfterRaster.m_TextureID = 1 ∧
    (RefreshFile sampleOps sampleProxy oddFile viewerAfterRaster).map
      (fun p => (p.1.m_Error, p.1.m_TextureID, GetTexture p.1 1, uploadsOf p.2))
      = some (ResultCode.APIInitFailed, 0, storedDetails (oddDetails 1) 0 128,
              [Event.SetProxyTextureData 0 { mip := 0, slice := 0, sample := 0 } [9] 1]) ∧
    GetTexture viewerAfterRaster 1 ≠ storedDetails (oddDetails 1) 0 128 := by decide

/-! ## The vertical flip for OpenGL -/

theorem mipHeight_bounds (height mip : Nat) (hh : height < 4294967296) :
    1 ≤ RDCMAX 1 (height >>> mip) ∧ RDCMAX 1 (height >>> mip) < 4294967296 := by
  have hle : height >>> mip ≤ height := by
    rw [Nat.shiftRight_eq_div_pow]
    exact Nat.div_le_self _ _
  unfold RDCMAX
  split_ifs <;> omega

theorem sub32_flip (m y : Nat) (hm1 : 1 ≤ m) (hm : m < 4294967296) (hy : y < 4294967296) :
    sub32 (sub32 m 1) y = (m - 1 + 4294967296 - y) % 4294967296 := by
  unfold sub32 u32
  omega

/-- C14: with sub.mip below 32 (a wider shift is undefined) and the 32-bit
bounds of `height` and `y`: when the local renderer is OpenGL, `PickPixel`
asks the proxy for the picked texture and forwards
`((max(1, height >> mip) - 1) - y) mod 2^32`, and `RenderTexture` forwards the
display with `flipY` negated; for `y < max(1, height >> mip)` the forwarded
value is `max(1, height >> mip) - 1 - y`, is again below `max(1, height >> mip)`,
and picking at the forwarded value forwards `y`.  On every other renderer `y`
and `flipY` are forwarded unchanged. -/
theorem C14_gl_flip (proxy : IReplayDriver) (v : ImageViewer) (texture : ResourceId)
    (x y : Nat) (sub : Subresource) (typeCast : CompType) (cfg : TextureDisplay)
    (hmip : sub.mip < 32) (hh : (proxy.GetTexture texture).height < 4294967296)
    (hy : y < 4294967296) :
    (proxy.localRenderer = GraphicsAPI.OpenGL →
      PickPixel proxy v texture x y sub typeCast =
        some [Event.GetTexture texture,
              Event.PickPixel texture x
                ((RDCMAX 1 ((proxy.GetTexture texture).height >>> sub.mip) - 1
                    + 4294967296 - y) % 4294967296) sub typeCast] ∧
      (RenderTexture proxy v cfg).2 =
        [Event.RenderTexture { cfg with resourceId := rewrittenId v cfg.resourceId,
                                        flipY := !cfg.flipY }] ∧
      (y < RDCMAX 1 ((proxy.GetTexture texture).height >>> sub.mip) →
        (RDCMAX 1 ((proxy.GetTexture texture).height >>> sub.mip) - 1 + 4294967296 - y)
            % 4294967296 =
          RDCMAX 1 ((proxy.GetTexture texture).height >>> sub.mip) - 1 - y ∧
        RDCMAX 1 ((proxy.GetTexture texture).height >>> sub.mip) - 1 - y <
          RDCMAX 1 ((proxy.GetTexture texture).height >>> sub.mip) ∧
        PickPixel proxy v texture x
            (RDCMAX 1 ((proxy.GetTexture texture).height >>> sub.mip) - 1 - y) sub typeCast =
          some [Event.GetTexture texture, Event.PickPixel texture x y sub typeCast])) ∧
    (proxy.localRenderer ≠ GraphicsAPI.OpenGL →
      PickPixel proxy v texture x y sub typeCast =
        some [Event.PickPixel texture x y sub typeCast] ∧
      (RenderTexture proxy v cfg).2 =
        [Event.RenderTexture { cfg with resourceId := rewrittenId v cfg.resourceId }]) := by
  obtain ⟨hm1, hm⟩ := mipHeight_bounds (proxy.GetTexture texture).height sub.mip hh
  have hnot : ¬ 32 ≤ sub.mip := by omega
  refine ⟨?_, ?_⟩
  · intro hgl
    refine ⟨?_, ?_, ?_⟩
    · simp only [PickPixel, hgl, if_true, hnot, if_false]
      rw [sub32_flip _ y hm1 hm hy]
    · by_cases h : cfg.resourceId = v.m_TextureID ∨ cfg.resourceId = v.m_CustomTexID
      · have h2 : ¬ (cfg.resourceId ≠ v.m_TextureID ∧ cfg.resourceId ≠ v.m_CustomTexID) := by
          tauto
        simp only [RenderTexture, hgl, if_true, rewrittenId, if_false]
        rw [if_neg h2, if_pos h]
      · have h2 : cfg.resourceId ≠ v.m_TextureID ∧ cfg.resourceId ≠ v.m_CustomTexID := by
          tauto
        simp only [RenderTexture, hgl, if_true, rewrittenId, if_false]
        rw [if_pos h2, if_neg h]
    · intro hlt
      refine ⟨?_, ?_, ?_⟩
      · omega
      · omega
      · simp only [PickPixel, hgl, if_true, hnot, if_false]
        rw [sub32_flip _ _ hm1 hm (by omega)]
        have : (RDCMAX 1 ((proxy.GetTexture texture).height >>> sub.mip) - 1 + 4294967296 -
            (RDCMAX 1 ((proxy.GetTexture texture).height >>> sub.mip) - 1 - y)) % 4294967296
              = y := by omega
        rw [this]
  · intro hgl
    refine ⟨?_, ?_⟩
    · simp only [PickPixel, hgl, if_false]
    · by_cases h : cfg.resourceId = v.m_TextureID ∨ cfg.resourceId = v.m_CustomTexID
      · have h2 : ¬ (cfg.resourceId ≠ v.m_TextureID ∧ cfg.resourceId ≠ v.m_CustomTexID) := by
          tauto
        simp only [RenderTexture, hgl, if_true, rewrittenId, if_false]
        rw [if_neg h2, if_pos h]
      · have h2 : cfg.resourceId ≠ v.m_TextureID ∧ cfg.resourceId ≠ v.m_CustomTexID := by
          tauto
        simp only [RenderTexture, hgl, if_true, rewrittenId, if_false]
        rw [if_pos h2, if_neg h]

/-- C14 on a proxy that renders with OpenGL and reports a height of 8: at mip 1
the mip height is 4 and row 1 is forwarded as row 2; on `sampleProxy`, which
renders with D3D11, row 1 is forwarded as row 1. -/
theorem C14_gl_flip_witness :
    (PickPixel glProxy viewerAfterRaster 1 5 1 { mip := 1, slice := 0, sample := 0 }
        CompType.Float =
      some [Event.GetTexture 1,
            Event.PickPixel 1 5 2 { mip := 1, slice := 0, sample := 0 } CompType.Float] ∧
     (RenderTexture glProxy viewerAfterRaster { resourceId := 1, flipY := false, rest := 0 }).2
       = [Event.RenderTexture { resourceId := 1, flipY := true, rest := 0 }] ∧
     PickPixel glProxy viewerAfterRaster 1 5 2 { mip := 1, slice := 0, sample := 0 }
        CompType.Float =
      some [Event.GetTexture 1,
            Event.PickPixel 1 5 1 { mip := 1, slice := 0, sample := 0 } CompType.Float]) ∧
    (PickPixel sampleProxy viewerAfterRaster 1 5 1 { mip := 1, slice := 0, sample := 0 }
        CompType.Float =
      some [Event.PickPixel 1 5 1 { mip := 1, slice := 0, sample := 0 } CompType.Float] ∧
     (RenderTexture sampleProxy viewerAfterRaster
        { resourceId := 1, flipY := false, rest := 0 }).2
       = [Event.RenderTexture { resourceId := 1, flipY := false, rest := 0 }]) := by
  have hgl := (C14_gl_flip glProxy viewerAfterRaster 1 5 1
    { mip := 1, slice := 0, sample := 0 } CompType.Float
    { resourceId := 1, flipY := false, rest := 0 } (by decide) (by decide) (by decide)).1 rfl
  have hd3d := (C14_gl_flip sampleProxy viewerAfterRaster 1 5 1
    { mip := 1, slice := 0, sample := 0 } CompType.Float
    { resourceId := 1, flipY := false, rest := 0 } (by decide) (by decide) (by decide)).2
    (by decide)
  exact ⟨⟨hgl.1, hgl.2.1, (hgl.2.2 (by decide)).2.2⟩, hd3d⟩

/-! ## The EXR pixel loop -/

theorem lastChannel_lt (names : List (List Char)) (letter : Char) :
    ∀ (n ch : Nat), lastChannel names letter n = some ch → ch < n := by
  intro n
  induction n with
  | zero => intro ch h; simp [lastChannel] at h
  | succ n ih =>
    intro ch h
    simp only [lastChannel] at h
    split at h
    · simp only [Option.some.injEq] at h
      omega
    · have := ih ch h
      omega

theorem channelStep_eq (names : List (List Char)) (n : Nat) (hn : n < names.length) :
    channelStep names (channelsOf names n) n = some (channelsOf names (n + 1)) := by
  unfold channelStep
  rw [List.getElem?_eq_getElem hn]
  simp only []
  by_cases hR : name0 names[n] = 'R'
  · simp [hR, channelsOf, channelIndex, lastChannel, slotLetter, List.getElem?_eq_getElem hn]
  · by_cases hG : name0 names[n] = 'G'
    · simp [hG, channelsOf, channelIndex, lastChannel, slotLetter,
        List.getElem?_eq_getElem hn]
    · by_cases hB : name0 names[n] = 'B'
      · simp [hB, channelsOf, channelIndex, lastChannel, slotLetter,
          List.getElem?_eq_getElem hn]
      · by_cases hA : name0 names[n] = 'A'
        · simp [hA, channelsOf, channelIndex, lastChannel, slotLetter,
            List.getElem?_eq_getElem hn]
        · simp [hR, hG, hB, hA, channelsOf, channelIndex, lastChannel, slotLetter,
            List.getElem?_eq_getElem hn]

/-- The loop of lines 740-749 computes `channelsOf`. -/
theorem channelLoop_eq (names : List (List Char)) :
    ∀ n, n ≤ names.length →
      loopFrom (channelStep names) [-1, -1, -1, -1] n = some (channelsOf names n) := by
  intro n
  induction n with
  | zero => intro _; rfl
  | succ n ih =>
    intro hn
    simp only [loopFrom, ih (by omega)]
    exact channelStep_eq names n (by omega)

theorem exrSlot_eq (e : ExrAnswers) (i c : Nat) (hc : c < 4) :
    exrSlot e.images (channelsOf e.channelNames e.num_channels) i c = slotRule e i c := by
  have hch : (channelsOf e.channelNames e.num_channels)[c]? =
      some (channelIndex e.channelNames e.num_channels c) := by
    unfold channelsOf
    interval_cases c <;> rfl
  unfold exrSlot slotRule
  rw [hch]
  simp only [channelIndex]
  cases hl : lastChannel e.channelNames (slotLetter c) e.num_channels with
  | none =>
    simp only [Int.reduceNeg, Left.nonneg_neg_iff, Int.reduceLE, if_false]
    split_ifs <;> rfl
  | some ch =>
    simp only [Int.natCast_nonneg, if_true, Int.toNat_ofNat]
    cases e.images[ch]? <;> rfl

theorem slotRule_defined (e : ExrAnswers) (npix : Nat)
    (himgs : ∀ ch, ch < e.num_channels →
      ∃ img, e.images[ch]? = some img ∧ npix ≤ img.length)
    (i c : Nat) (hi : i < npix) :
    slotRule e i c = some ((slotRule e i c).getD 0) := by
  unfold slotRule
  cases hl : lastChannel e.channelNames (slotLetter c) e.num_channels with
  | none => simp
  | some ch =>
    obtain ⟨img, himg, hlen⟩ := himgs ch (lastChannel_lt _ _ _ ch hl)
    simp only [himg, Option.some_bind]
    rw [List.getElem?_eq_getElem (by omega)]
    rfl

theorem exrPixel_eq (e : ExrAnswers) (npix : Nat)
    (himgs : ∀ ch, ch < e.num_channels →
      ∃ img, e.images[ch]? = some img ∧ npix ≤ img.length)
    (i : Nat) (hi : i < npix) :
    exrPixel e.images (channelsOf e.channelNames e.num_channels) i =
      some ((List.range 4).map (fun c => (slotRule e i c).getD 0)) := by
  unfold exrPixel
  apply collect_some_of_forall
  intro c hc
  rw [exrSlot_eq e i c hc]
  exact slotRule_defined e npix himgs i c hi

theorem flatten_rows_length {α : Type} (g : Nat → Nat → α) (m : Nat) :
    ∀ n, (((List.range n).map (fun i => (List.range m).map (g i))).flatten).length = n * m := by
  intro n
  induction n with
  | zero => simp
  | succ n ih =>
    rw [List.range_succ, List.map_append, List.flatten_append, List.length_append, ih]
    simp [Nat.succ_mul]

theorem flatten_rows_get {α : Type} (g : Nat → Nat → α) (m : Nat) (i c : Nat) (hc : c < m) :
    ∀ n, i < n →
      (((List.range n).map (fun i => (List.range m).map (g i))).flatten)[i * m + c]?
        = some (g i c) := by
  intro n
  induction n with
  | zero => intro h; omega
  | succ n ih =>
    intro h
    rw [List.range_succ, List.map_append, List.flatten_append]
    by_cases hin : i < n
    · have hlt : i * m + c < n * m := by
        calc i * m + c < i * m + m := by omega
          _ = (i + 1) * m := by ring
          _ ≤ n * m := Nat.mul_le_mul_right _ hin
      rw [List.getElem?_append_left (by rw [flatten_rows_length]; exact hlt)]
      exact ih hin
    · have : i = n := by omega
      subst this
      rw [List.getElem?_append_right (by rw [flatten_rows_length]; omega), flatten_rows_length]
      simp [hc]

/-- Lines 739-765 below 2^30 pixels: the buffer holds `rgbaOf`. -/
theorem exrData_eq (w : FileWorld) (W H : Nat)
    (hnames : w.exr.num_channels ≤ w.exr.channelNames.length)
    (himgs : ∀ ch, ch < w.exr.num_channels →
      ∃ img, w.exr.images[ch]? = some img ∧ W * H ≤ img.length)
    (hsmall : W * H < 1073741824) :
    datasizeOf W H 4 = 16 * (W * H) ∧
    exrData w W H (datasizeOf W H 4) = some (((rgbaOf w.exr (W * H)).map le32).flatten) := by
  have hu : u32 (W * H) = W * H := by unfold u32; omega
  have hds : datasizeOf W H 4 = 16 * (W * H) := by
    unfold datasizeOf
    rw [hu]
    unfold u32
    omega
  refine ⟨hds, ?_⟩
  unfold exrData
  rw [channelLoop_eq _ _ hnames]
  simp only [hu, hds, Nat.lt_irrefl, if_false]
  rw [collect_some_of_forall _ (fun i => (List.range 4).map (fun c => (slotRule w.exr i c).getD 0))
    (W * H) (fun i hi => exrPixel_eq w.exr (W * H) himgs i hi)]
  rfl

theorem rgbaOf_follows (e : ExrAnswers)
    (himgs : ∀ ch, ch < e.num_channels →
      ∃ img, e.images[ch]? = some img ∧ e.width * e.height ≤ img.length) :
    FollowsChannelRule e (rgbaOf e (e.width * e.height)) := by
  refine ⟨?_, ?_⟩
  · unfold rgbaOf
    rw [flatten_rows_length]
    ring
  · intro i c hi hc
    have hget : (rgbaOf e (e.width * e.height))[i * 4 + c]? = some ((slotRule e i c).getD 0) :=
      flatten_rows_get (fun i c => (slotRule e i c).getD 0) 4 i c hc _ hi
    refine ⟨?_, ?_⟩
    · intro ch hl
      obtain ⟨img, himg, hlen⟩ := himgs ch (lastChannel_lt _ _ _ ch hl)
      have hilt : i < img.length := by omega
      have hx : img[i]? = some img[i] := List.getElem?_eq_getElem hilt
      refine ⟨img, _, himg, hx, ?_⟩
      rw [hget]
      simp [slotRule, hl, himg, hx]
    · intro hl
      rw [hget]
      simp [slotRule, hl]

/-- C15 (as amended): for an EXR file that passes the checks, whose header
names every channel of the image, whose channels hold `W * H` values each, with
`W * H < 2^30`: the refresh decodes it to an RGBA32F description of `W` by `H`
with a buffer of `16 * W * H` bytes, the little-endian bytes of `4 * W * H`
floats of which slot `i * 4 + c` is the value at index `i` of the last header
channel whose name starts with the letter R, G, B or A (for `c` = 0, 1, 2, 3),
and, when no channel name starts with that letter, 0.0 for `c < 3` and 1.0 for
`c = 3`. -/
theorem C15_exr_channels (w : FileWorld) (v : ImageViewer)
    (hexr : w.is_exr_file = true) (hacc : exrRejected w = false)
    (hmalloc : w.malloc (datasizeOf w.exr.width w.exr.height 4) = true)
    (hfree : w.exr.FreeEXRImage = 0)
    (hnames : w.exr.num_channels ≤ w.exr.channelNames.length)
    (himgs : ∀ ch, ch < w.exr.num_channels →
      ∃ img, w.exr.images[ch]? = some img ∧ w.exr.width * w.exr.height ≤ img.length)
    (hsmall : w.exr.width * w.exr.height < 1073741824) :
    ∃ v1 d rgba, loadFile w v = some (Loaded.ok v1 d) ∧
      d.texDetails.format = rgba32_float ∧ d.texDetails.width = w.exr.width ∧
      d.texDetails.height = w.exr.height ∧ d.dds = false ∧
      d.datasize = 16 * (w.exr.width * w.exr.height) ∧
      d.data = (rgba.map le32).flatten ∧ FollowsChannelRule w.exr rgba := by
  obtain ⟨hds, hdata⟩ := exrData_eq w w.exr.width w.exr.height hnames himgs hsmall
  have hmal : ¬ (w.malloc (datasizeOf w.exr.width w.exr.height 4) = false) := by
    rw [hmalloc]; decide
  have hfr : ¬ (w.exr.FreeEXRImage ≠ 0) := by rw [hfree]; decide
  have hload : ∃ d, loadEXR w v (defaultTexDetails v.m_TextureID) = some (Loaded.ok v d) ∧
      d.texDetails.format = rgba32_float ∧ d.texDetails.width = w.exr.width ∧
      d.texDetails.height = w.exr.height ∧ d.dds = false ∧
      d.datasize = datasizeOf w.exr.width w.exr.height 4 ∧
      d.data = ((rgbaOf w.exr (w.exr.width * w.exr.height)).map le32).flatten := by
    refine ⟨{ texDetails :=
                { { defaultTexDetails v.m_TextureID with format := rgba32_float } with
                  width := w.exr.width, height := w.exr.height },
              data := ((rgbaOf w.exr (w.exr.width * w.exr.height)).map le32).flatten,
              datasize := datasizeOf w.exr.width w.exr.height 4, dds := false,
              read_data := read_dds_data.empty }, ?_, rfl, rfl, rfl, rfl, rfl, rfl⟩
    unfold loadEXR
    rw [if_neg (by rw [hacc]; decide)]
    unfold loadEXRImage
    rw [if_neg hmal, hdata]
    simp only []
    rw [if_neg hfr]
  obtain ⟨d, hl, h1, h2, h3, h4, h5, h6⟩ := hload
  refine ⟨{ v with frameInfo := { initDataSize := 0, persistentSize := 0,
                                  uncompressedFileSize := d.datasize,
                                  compressedFileSize := d.datasize } },
    d, rgbaOf w.exr (w.exr.width * w.exr.height), ?_, h1, h2, h3, h4, ?_, h6,
    rgbaOf_follows w.exr himgs⟩
  · unfold loadFile
    simp only [hexr, if_true, hl, Option.map_some', recordSizes]
  · rw [h5, hds]

/-- C15 on `rgbaExr`, a 2 by 1 image with the channels A, B, G, R. -/
theorem C15_exr_channels_witness :
    ∃ v1 d rgba, loadFile (exrFile rgbaExr) (initialViewer blankDetails)
        = some (Loaded.ok v1 d) ∧
      d.texDetails.format = rgba32_float ∧ d.texDetails.width = 2 ∧
      d.texDetails.height = 1 ∧ d.dds = false ∧
      d.datasize = 16 * (2 * 1) ∧
      d.data = (rgba.map le32).flatten ∧ FollowsChannelRule rgbaExr rgba :=
  C15_exr_channels (exrFile rgbaExr) (initialViewer blankDetails) rfl (by decide) rfl rfl
    (by decide)
    (by
      intro ch hch
      have h4 : ch < 4 := hch
      interval_cases ch
      · exact ⟨[40, 41], rfl, by decide⟩
      · exact ⟨[30, 31], rfl, by decide⟩
      · exact ⟨[20, 21], rfl, by decide⟩
      · exact ⟨[10, 11], rfl, by decide⟩)
    (by decide)

/-- C15, counterexample: `chromaExr` passes the checks and has the channels BY,
RY and Y, so no channel is named R or B; the uploaded buffer nevertheless holds
the values of RY in slot 0 and of BY in slot 2 of both pixels (6, 16 and 5, 15),
not 0.0. -/
theorem C15_counterexample_first_letter :
    ['R'] ∉ chromaExr.channelNames ∧ ['B'] ∉ chromaExr.channelNames ∧
    exrRejected (exrFile chromaExr) = false ∧
    (RefreshFile sampleOps sampleProxy (exrFile chromaExr) (initialViewer blankDetails)).map
      (fun p => (p.1.m_Error, uploadsOf p.2))
      = some (ResultCode.Succeeded,
              [Event.SetProxyTextureData 1 { mip := 0, slice := 0, sample := 0 }
                (([6, float_zero, 5, float_one, 16, float_zero, 15, float_one].map le32).flatten)
                32]) ∧
    (6 : float) ≠ float_zero ∧ (5 : float) ≠ float_zero := by decide

/-! ## Subresource ranges across the negotiation -/

theorem convertedOffset_succ (t : TextureDescription) (i : Nat) :
    convertedOffset t (i + 1) = convertedOffset t i + convertedSize t i := by
  simp [convertedOffset, List.range_succ]

theorem convertedOffset_mono (t : TextureDescription) (i : Nat) :
    ∀ j, i ≤ j → convertedOffset t i ≤ convertedOffset t j := by
  intro j
  induction j with
  | zero =>
    intro h
    have : i = 0 := by omega
    rw [this]
  | succ j ih =>
    intro h
    by_cases hij : i ≤ j
    · rw [convertedOffset_succ]
      have := ih hij
      omega
    · have : i = j + 1 := by omega
      rw [this]

/-- A list of `n` entries whose entry `i` is `(convertedOffset t i,
convertedSize t i)` tiles a buffer of `convertedOffset t n` bytes. -/
theorem converted_tiles (t : TextureDescription) (subs : List (Nat × Nat)) (n : Nat)
    (hlen : subs.length = n)
    (hget : ∀ i, i < n → subs[i]? = some (convertedOffset t i, convertedSize t i)) :
    Tiles subs (convertedOffset t n) ∧
    ∀ e, e ∈ subs → e.1 + e.2 ≤ convertedOffset t n := by
  have hentry : ∀ i a, subs[i]? = some a →
      i < n ∧ a = (convertedOffset t i, convertedSize t i) := by
    intro i a ha
    have hi : i < n := by
      rw [← hlen]
      exact (List.getElem?_eq_some_iff.mp ha).1
    rw [hget i hi] at ha
    exact ⟨hi, (Option.some.inj ha).symm⟩
  have heq : subs = (List.range n).map (fun i => (convertedOffset t i, convertedSize t i)) := by
    apply List.ext_getElem?
    intro i
    by_cases hi : i < n
    · rw [hget i hi]
      simp [hi]
    · rw [List.getElem?_eq_none (by omega), List.getElem?_eq_none (by simp; omega)]
  unfold Tiles
  refine ⟨⟨?_, ?_, ?_, ?_⟩, ?_⟩
  · intro a ha
    obtain ⟨_, rfl⟩ := hentry 0 a ha
    rfl
  · intro i a b ha hb
    obtain ⟨_, rfl⟩ := hentry i a ha
    obtain ⟨_, rfl⟩ := hentry (i + 1) b hb
    exact convertedOffset_succ t i
  · intro i j a b hij ha hb
    obtain ⟨_, rfl⟩ := hentry i a ha
    obtain ⟨_, rfl⟩ := hentry j b hb
    have := convertedOffset_mono t (i + 1) j hij
    rw [convertedOffset_succ] at this
    exact this
  · rw [heq, List.map_map]
    rfl
  · intro e he
    obtain ⟨i, hi, hie⟩ := List.getElem_of_mem he
    have ha : subs[i]? = some e := by rw [List.getElem?_eq_getElem hi, hie]
    obtain ⟨hin, rfl⟩ := hentry i e ha
    have := convertedOffset_mono t (i + 1) n hin
    rw [convertedOffset_succ] at this
    exact this

theorem remapped_length (oldSubs : List (Nat × Nat)) (D M : Nat) :
    (remapped oldSubs D M).length = u32 (D * M) := by
  simp [remapped]

/-- Every entry of the remapped list is slice `i / M` of the original entry of
its mip `i % M`, and the slice index is below `D`. -/
theorem remapped_entry (oldSubs : List (Nat × Nat)) (D M : Nat) (hsubs : M ≤ oldSubs.length)
    (i : Nat) (a : Nat × Nat) (ha : (remapped oldSubs D M)[i]? = some a) :
    ∃ old, oldSubs[i % M]? = some old ∧ i / M < D ∧
      a = (old.1 + (i / M) * (old.2 / D), old.2 / D) := by
  have hi : i < u32 (D * M) := by
    rw [← remapped_length oldSubs D M]
    exact (List.getElem?_eq_some_iff.mp ha).1
  obtain ⟨old, hold, hnew⟩ := remapped_get oldSubs D M hsubs i hi
  rw [hnew] at ha
  have hlt : i < M * D := by
    have : u32 (D * M) ≤ D * M := Nat.mod_le _ _
    rw [Nat.mul_comm M D]
    omega
  exact ⟨old, hold, Nat.div_lt_of_lt_mul hlt, (Option.some.inj ha).symm⟩

theorem slice_within (off len D s : Nat) (hs : s < D) :
    off + s * (len / D) + len / D ≤ off + len := by
  have h1 : (s + 1) * (len / D) ≤ D * (len / D) := Nat.mul_le_mul_right _ hs
  have h2 : D * (len / D) ≤ len := Nat.mul_div_le len D
  have h3 : (s + 1) * (len / D) = s * (len / D) + len / D := by ring
  omega

theorem slices_apart (off q s1 s2 : Nat) (h : s1 < s2) :
    off + s1 * q + q ≤ off + s2 * q := by
  have h1 : (s1 + 1) * q ≤ s2 * q := Nat.mul_le_mul_right _ h
  have h3 : (s1 + 1) * q = s1 * q + q := by ring
  omega

/-- On the conversion path the entries at indices from the 32-bit loop bound
on are not visited: they keep their offset and length. -/
theorem CreateProxyTexture_convert_tail (ops : FormatOps) (proxy : IReplayDriver)
    (v : ImageViewer) (t : TextureDescription) (rd : read_dds_data)
    (hrej : proxy.IsTextureSupported t = false)
    (hnoremap : ¬ (ops.BlockFormat t.format = true ∧ t.type = TextureType.Texture3D ∧
      proxy.IsTextureSupported (arrayDetailsOf t) = true))
    (hdds : rd.width ≠ 0)
    (hconv : ops.convertSupported t.format = true)
    (hsubs : u32 (t.arraysize * t.mips) ≤ rd.subresources.length)
    (hmips : t.mips ≤ 32) (n : Negotiated)
    (hrun : CreateProxyTexture ops proxy v t rd = some n) :
    ∀ i, u32 (t.arraysize * t.mips) ≤ i →
      n.read_data.subresources[i]? = rd.subresources[i]? := by
  obtain ⟨pre, hcp, _⟩ := CreateProxyTexture_to_convertPath ops proxy v t rd hrej hnoremap
  rw [hcp, convertPath_eq ops proxy v t rd pre hdds hconv hsubs hmips] at hrun
  have hn := Option.some.inj hrun
  intro i hi
  rw [← hn]
  simp only [convertedState]
  rw [List.getElem?_append_right (by rw [List.length_map, List.length_range]; exact hi),
    List.length_map, List.length_range, List.getElem?_drop]
  congr 1
  omega

/-- C16 (as amended): let every subresource range lie within the buffer before
`CreateProxyTexture`.  On the direct path and on the path that finds no
conversion, the data are unchanged.  On the remap path (the list has an entry
for every mip) the buffer is unchanged, every new range lies within it and
inside the original range of its mip, and two different new entries of the
same mip are disjoint.  On the conversion path (at most 32 mips, an entry for
every index below `(arraysize * mips) mod 2^32`) the entries at indices from
`(arraysize * mips) mod 2^32` on keep their old offset and length; when the
list has exactly `(arraysize * mips) mod 2^32` entries, and in particular when
it has exactly `arraysize * mips` entries and `arraysize * mips < 2^32`, every
range lies within the new buffer and the ranges are contiguous from 0, pairwise
disjoint in order, and their lengths add up to the new buffer's length. -/
theorem C16_ranges_after_negotiation (ops : FormatOps) (proxy : IReplayDriver)
    (v : ImageViewer) (t : TextureDescription) (rd : read_dds_data)
    (hin : RangesInBuffer rd) :
    (proxy.IsTextureSupported t = true →
      ∃ n, CreateProxyTexture ops proxy v t rd = some n ∧ n.read_data = rd ∧
        RangesInBuffer n.read_data) ∧
    (proxy.IsTextureSupported t = false →
      ¬ (ops.BlockFormat t.format = true ∧ t.type = TextureType.Texture3D ∧
        proxy.IsTextureSupported (arrayDetailsOf t) = true) →
      ops.convertSupported t.format = false →
      ∃ n, CreateProxyTexture ops proxy v t rd = some n ∧ n.read_data = rd ∧
        RangesInBuffer n.read_data) ∧
    (proxy.IsTextureSupported t = false → ops.BlockFormat t.format = true →
      t.type = TextureType.Texture3D → proxy.IsTextureSupported (arrayDetailsOf t) = true →
      t.mips ≤ rd.subresources.length →
      ∃ n, CreateProxyTexture ops proxy v t rd = some n ∧ n.read_data.buffer = rd.buffer ∧
        RangesInBuffer n.read_data ∧
        (∀ (i : Nat) (a : Nat × Nat), n.read_data.subresources[i]? = some a →
          ∃ old, rd.subresources[i % t.mips]? = some old ∧
            old.1 ≤ a.1 ∧ a.1 + a.2 ≤ old.1 + old.2) ∧
        (∀ (i j : Nat) (a b : Nat × Nat), i ≠ j → i % t.mips = j % t.mips →
          n.read_data.subresources[i]? = some a → n.read_data.subresources[j]? = some b →
          disjointRanges a b)) ∧
    (proxy.IsTextureSupported t = false →
      ¬ (ops.BlockFormat t.format = true ∧ t.type = TextureType.Texture3D ∧
        proxy.IsTextureSupported (arrayDetailsOf t) = true) →
      rd.width ≠ 0 → ops.convertSupported t.format = true → t.mips ≤ 32 →
      u32 (t.arraysize * t.mips) ≤ rd.subresources.length →
      ∃ n, CreateProxyTexture ops proxy v t rd = some n ∧
        (∀ i, u32 (t.arraysize * t.mips) ≤ i →
          n.read_data.subresources[i]? = rd.subresources[i]?) ∧
        (rd.subresources.length = u32 (t.arraysize * t.mips) →
          RangesInBuffer n.read_data ∧
          Tiles n.read_data.subresources n.read_data.buffer.length) ∧
        (t.arraysize * t.mips < 4294967296 →
          rd.subresources.length = t.arraysize * t.mips →
          RangesInBuffer n.read_data ∧
          Tiles n.read_data.subresources n.read_data.buffer.length)) := by
  refine ⟨?_, ?_, ?_, ?_⟩
  · intro hsup
    exact ⟨{ viewer := proxyCreate proxy v t, texDetails := t, read_data := rd,
             events := [Event.IsTextureSupported t, Event.CreateProxyTexture t] },
      by simp only [CreateProxyTexture, hsup, if_true], rfl, hin⟩
  · intro hrej hnoremap hnoconv
    obtain ⟨pre, hrun, _⟩ := CreateProxyTexture_unconvertible ops proxy v t rd hrej hnoremap
      hnoconv
    exact ⟨_, hrun, rfl, hin⟩
  · intro hrej hblock h3d hacc hsubs
    have hrun := CreateProxyTexture_remap ops proxy v t rd hrej hblock h3d hacc hsubs
    have hentry : ∀ (i : Nat) (a : Nat × Nat),
        (remapped rd.subresources t.depth t.mips)[i]? = some a →
        ∃ old, rd.subresources[i % t.mips]? = some old ∧
          old.1 ≤ a.1 ∧ a.1 + a.2 ≤ old.1 + old.2 := by
      intro i a ha
      obtain ⟨old, hold, hs, rfl⟩ := remapped_entry rd.subresources t.depth t.mips hsubs i a ha
      exact ⟨old, hold, Nat.le_add_right _ _, slice_within old.1 old.2 t.depth _ hs⟩
    refine ⟨_, hrun, rfl, ?_, hentry, ?_⟩
    · intro e he
      obtain ⟨i, hi, hie⟩ := List.getElem_of_mem he
      have ha : (remapped rd.subresources t.depth t.mips)[i]? = some e := by
        rw [List.getElem?_eq_getElem hi, hie]
      obtain ⟨old, hold, _, hle⟩ := hentry i e ha
      have := hin old (List.mem_iff_getElem?.mpr ⟨_, hold⟩)
      exact Nat.le_trans hle this
    · intro i j a b hij hmod ha hb
      obtain ⟨old, hold, _, rfl⟩ := remapped_entry rd.subresources t.depth t.mips hsubs i a ha
      obtain ⟨old2, hold2, _, rfl⟩ := remapped_entry rd.subresources t.depth t.mips hsubs j b hb
      rw [hmod, hold2] at hold
      obtain rfl := Option.some.inj hold
      have hdiv : i / t.mips ≠ j / t.mips := by
        intro hd
        apply hij
        rw [← Nat.div_add_mod i t.mips, ← Nat.div_add_mod j t.mips, hd, hmod]
      unfold disjointRanges
      rcases Nat.lt_or_gt_of_ne hdiv with h | h
      · exact Or.inl (slices_apart _ _ _ _ h)
      · exact Or.inr (slices_apart _ _ _ _ h)
  · intro hrej hnoremap hdds hconv hmips hsubs
    obtain ⟨n, hrun, _, _, hnlen, hbuf, hget, _⟩ := CreateProxyTexture_convert_summary ops proxy
      v t rd hrej hnoremap hdds hconv hsubs hmips
    have hb : n.read_data.buffer.length = convertedOffset t (u32 (t.arraysize * t.mips)) := by
      rw [hbuf]
      exact convertedData_length ops t rd _
    have hexact : rd.subresources.length = u32 (t.arraysize * t.mips) →
        RangesInBuffer n.read_data ∧
        Tiles n.read_data.subresources n.read_data.buffer.length := by
      intro hlen
      obtain ⟨htiles, hwithin⟩ := converted_tiles t n.read_data.subresources
        (u32 (t.arraysize * t.mips)) (by rw [hnlen, hlen]) hget
      refine ⟨?_, ?_⟩
      · intro e he
        rw [hb]
        exact hwithin e he
      · rw [hb]
        exact htiles
    refine ⟨n, hrun, ?_, hexact, ?_⟩
    · exact CreateProxyTexture_convert_tail ops proxy v t rd hrej hnoremap hdds hconv hsubs
        hmips n hrun
    · intro hno hlen
      apply hexact
      rw [hlen]
      exact (Nat.mod_eq_of_lt hno).symm

set_option maxRecDepth 8000 in
/-- C16 on the conversion of `arrayData3`, whose list has exactly
`arraysize * mips = 6` entries, and on the remap of `volumeData`. -/
theorem C16_ranges_after_negotiation_witness :
    (RangesInBuffer arrayData3 ∧
      ∃ n, CreateProxyTexture sampleOps sampleProxy (initialViewer blankDetails)
          arrayDetails3 arrayData3 = some n ∧
        RangesInBuffer n.read_data ∧
        Tiles n.read_data.subresources n.read_data.buffer.length) ∧
    (RangesInBuffer volumeData ∧
      ∃ n, CreateProxyTexture sampleOps sampleProxy (initialViewer blankDetails)
          volumeDetails volumeData = some n ∧
        n.read_data.buffer = volumeData.buffer ∧
        RangesInBuffer n.read_data ∧
        (∀ (i : Nat) (a : Nat × Nat), n.read_data.subresources[i]? = some a →
          ∃ old, volumeData.subresources[i % volumeDetails.mips]? = some old ∧
            old.1 ≤ a.1 ∧ a.1 + a.2 ≤ old.1 + old.2) ∧
        (∀ (i j : Nat) (a b : Nat × Nat), i ≠ j →
          i % volumeDetails.mips = j % volumeDetails.mips →
          n.read_data.subresources[i]? = some a → n.read_data.subresources[j]? = some b →
          disjointRanges a b)) := by
  have h1 : RangesInBuffer arrayData3 := by unfold RangesInBuffer; decide
  have h2 : RangesInBuffer volumeData := by unfold RangesInBuffer; decide
  obtain ⟨n, hrun, _, _, hwell⟩ := (C16_ranges_after_negotiation sampleOps sampleProxy
    (initialViewer blankDetails) arrayDetails3 arrayData3 h1).2.2.2 (by decide) (by decide)
    (by decide) (by decide) (by decide) (by decide)
  obtain ⟨hr, ht⟩ := hwell (by decide) (by decide)
  exact ⟨⟨h1, n, hrun, hr, ht⟩,
    ⟨h2, (C16_ranges_after_negotiation sampleOps sampleProxy (initialViewer blankDetails)
      volumeDetails volumeData h2).2.2.1 (by decide) (by decide) (by decide) (by decide)
      (by decide)⟩⟩

/-- C16, counterexample: `hugeArrayDetails` has `2^31` slices of two mips and
`hugeArrayData` has exactly `arraysize * mips = 2^32` entries, each (0, 4), in a
buffer of `2^32` bytes, so every range lies within the buffer.  The conversion
path is taken; the loop bound is the 32-bit product, which is 0, so no entry is
rewritten and the converted buffer that is swapped in is empty: afterwards
entry 0 is still (0, 4), a range that ends at 4, outside the buffer of 0
bytes. -/
theorem C16_counterexample_product_wraps :
    RangesInBuffer hugeArrayData ∧
    hugeArrayData.subresources.length = hugeArrayDetails.arraysize * hugeArrayDetails.mips ∧
    sampleProxy.IsTextureSupported hugeArrayDetails = false ∧
    sampleOps.BlockFormat hugeArrayDetails.format = false ∧
    hugeArrayData.width ≠ 0 ∧
    sampleOps.convertSupported hugeArrayDetails.format = true ∧
    hugeArrayDetails.mips ≤ 32 ∧
    ∃ n, CreateProxyTexture sampleOps sampleProxy (initialViewer blankDetails)
        hugeArrayDetails hugeArrayData = some n ∧
      n.read_data.buffer = [] ∧
      n.read_data.subresources[0]? = some (0, 4) ∧
      ¬ RangesInBuffer n.read_data := by
  have hrej : sampleProxy.IsTextureSupported hugeArrayDetails = false := by decide
  have hnoremap : ¬ (sampleOps.BlockFormat hugeArrayDetails.format = true ∧
      hugeArrayDetails.type = TextureType.Texture3D ∧
      sampleProxy.IsTextureSupported (arrayDetailsOf hugeArrayDetails) = true) := by decide
  have hzero : u32 (hugeArrayDetails.arraysize * hugeArrayDetails.mips) = 0 := by decide
  have hlen : hugeArrayData.subresources.length =
      hugeArrayDetails.arraysize * hugeArrayDetails.mips :=
    List.length_replicate 4294967296 (0, 4)
  have hbuflen : hugeArrayData.buffer.length = 4294967296 :=
    List.length_replicate 4294967296 0
  have hin : RangesInBuffer hugeArrayData := by
    intro e he
    have he2 : e = (0, 4) := List.eq_of_mem_replicate he
    rw [he2, hbuflen]
    decide
  have hsubs : u32 (hugeArrayDetails.arraysize * hugeArrayDetails.mips) ≤
      hugeArrayData.subresources.length := by
    rw [hzero]
    exact Nat.zero_le _
  obtain ⟨n, hrun, _, _, _, hbuf, _, _⟩ := CreateProxyTexture_convert_summary sampleOps
    sampleProxy (initialViewer blankDetails) hugeArrayDetails hugeArrayData hrej hnoremap
    (by decide) (by decide) hsubs (by decide)
  have htail := CreateProxyTexture_convert_tail sampleOps sampleProxy
    (initialViewer blankDetails) hugeArrayDetails hugeArrayData hrej hnoremap
    (by decide) (by decide) hsubs (by decide) n hrun 0 (by rw [hzero])
  have hsub0 : n.read_data.subresources[0]? = some (0, 4) := by
    rw [htail]
    exact List.getElem?_replicate_of_lt (by decide)
  have hbuf0 : n.read_data.buffer = [] := by
    rw [hbuf, hzero]
    rfl
  refine ⟨hin, hlen, hrej, by decide, by decide, by decide, by decide, n, hrun, hbuf0, hsub0,
    ?_⟩
  intro hall
  have h := hall (0, 4) (List.mem_iff_getElem?.mpr ⟨0, hsub0⟩)
  rw [hbuf0] at h
  exact absurd h (by decide)

/-! ## The retained pixel store across refreshes -/

/-- C17 fails on a file that is replaced: the constructor loads `r4g4File`
through the CPU conversion, which retains its byte 7 in `m_RealTexData`; the
file is then replaced by `rgbaDds`, whose description the proxy supports, and
refreshed.  The handle 2 is created on the direct path, yet `m_RealTexData`
still holds the byte of the first file, and a read-back of the primary texture
returns it without any call to the proxy. -/
theorem C17_stale_store_after_replacement :
    (construct sampleOps sampleProxy blankDetails r4g4File).map (fun p => p.1)
      = some viewerAfterR4G4 ∧
    viewerAfterR4G4.m_RealTexData = [[7]] ∧
    sampleProxy.IsTextureSupported (rgbaDdsDetails 1) = true ∧
    (RefreshFile sampleOps sampleProxy rgbaDds viewerAfterR4G4).map
      (fun p => (p.1.m_Error, p.1.m_TextureID, p.1.m_RealTexData))
      = some (ResultCode.Succeeded, 2, [[7]]) ∧
    (RefreshFile sampleOps sampleProxy rgbaDds viewerAfterR4G4).map
      (fun p => (p.1.m_TexDetails, createsOf p.2))
      = some (storedDetails (rgbaDdsDetails 1) 2 128,
              [Event.CreateProxyTexture (rgbaDdsDetails 1)]) ∧
    (RefreshFile sampleOps sampleProxy rgbaDds viewerAfterR4G4).bind
      (fun p => GetTextureData sampleProxy p.1 p.1.m_TextureID
        { mip := 0, slice := 0, sample := 0 } { remap := RemapTexture.NoRemap })
      = some ([7], []) ∧
    (performAll sampleOps sampleProxy (initialViewer blankDetails)
      [Call.FileChanged r4g4File, Call.FileChanged rgbaDds]).map
        (fun p => (p.1.m_TextureID, p.1.m_RealTexData))
      = some (2, [[7]]) :=
  ⟨by decide, by decide, by decide, by decide, by decide, by decide, by decide⟩

/-! ## The byte length of a decoded raster -/

/-- Below `2^30` pixels the 32-bit product does not wrap: `datasize` is
`W * H * 4 * elem`. -/
theorem datasizeOf_exact (W H elem : Nat) (h : W * H < 1073741824) :
    datasizeOf W H elem = W * H * 4 * elem := by
  unfold datasizeOf u32
  rw [Nat.mod_eq_of_lt (by omega : W * H < 4294967296),
    Nat.mod_eq_of_lt (by omega : W * H * 4 < 4294967296)]

/-- C18 fails at 32768 by 32768 pixels: both dimensions are within
[1, 65535] and `W * H * 4` is `2^32`, but the 32-bit product of line 823 is 0.
For the raster the refresh succeeds, uploads 0 bytes and records 0 as the
uncompressed size; for an EXR image of the same dimensions the allocation of
line 730 has 0 bytes and the pixel loop writes past it, so the model has no
result. -/
theorem C18_size_wraps_at_32768 :
    (1 ≤ 32768 ∧ 32768 ≤ 65535) ∧
    32768 * 32768 * 4 = 4294967296 ∧
    datasizeOf 32768 32768 1 = 0 ∧
    (RefreshFile sampleOps sampleProxy bigRaster (initialViewer blankDetails)).map
      (fun p => (p.1.m_Error, p.1.m_TexDetails.width, p.1.m_TexDetails.height,
                 p.1.frameInfo.uncompressedFileSize))
      = some (ResultCode.Succeeded, 32768, 32768, 0) ∧
    (RefreshFile sampleOps sampleProxy bigRaster (initialViewer blankDetails)).map
      (fun p => uploadsOf p.2)
      = some [Event.SetProxyTextureData 1 { mip := 0, slice := 0, sample := 0 } [] 0] ∧
    datasizeOf 32768 32768 4 = 0 ∧
    exrRejected (exrFile bigExr) = false ∧
    loadFile (exrFile bigExr) (initialViewer blankDetails) = none :=
  ⟨by decide, by decide, by decide, by decide, by decide, by decide, by decide, by decide⟩

/-! ## The upload loop -/

/-- `RefreshFile` ends with the calls of its upload loop, issued with the
handle and on the description and data that the negotiation left. -/
theorem RefreshFile_ends_with_uploads (ops : FormatOps) (proxy : IReplayDriver)
    (w : FileWorld) (v v1 : ImageViewer) (d : Decoded)
    (hopen : (openLoop w.fopen 10 0).1 = true)
    (hload : loadFile w v = some (Loaded.ok v1 d)) (r : ImageViewer × List Event)
    (h : RefreshFile ops proxy w v = some r) :
    ∃ n ups, negotiate ops proxy
        { invalidateIfChanged v1 d.texDetails with m_TexDetails := d.texDetails } d = some n ∧
      uploads r.1.m_TextureID d n = some ups ∧
      r.2 = (openLoop w.fopen 10 0).2 ++ (n.events ++ ups) := by
  obtain ⟨r1, hfin, h1, h2⟩ := RefreshFile_load_ok ops proxy w v v1 d hopen hload r h
  unfold finishRefresh at hfin
  simp only [] at hfin
  split at hfin
  · simp at hfin
  · rename_i n hn
    split at hfin
    · simp at hfin
    · rename_i ups hups
      simp only [Option.some.injEq] at hfin
      subst hfin
      refine ⟨n, ups, hn, ?_, h2⟩
      rw [h1]
      exact hups

theorem uploadCall_eq (id : ResourceId) (t : TextureDescription) (rd : read_dds_data)
    (i : Nat) (hi : i < u32 (t.arraysize * t.mips))
    (hsubs : u32 (t.arraysize * t.mips) ≤ rd.subresources.length) :
    ∃ e, rd.subresources[i]? = some e ∧
      uploadCall id t rd i =
        some (Event.SetProxyTextureData id
          { mip := i % t.mips, slice := i / t.mips, sample := 0 }
          ((rd.buffer.drop e.1).take e.2) e.2) := by
  have hm : t.mips ≠ 0 := by
    intro h0
    rw [h0, Nat.mul_zero] at hi
    have : u32 0 = 0 := rfl
    omega
  have hlt : i < rd.subresources.length := by omega
  refine ⟨rd.subresources[i], List.getElem?_eq_getElem hlt, ?_⟩
  unfold uploadCall
  rw [if_neg hm, List.getElem?_eq_getElem hlt]

/-- C19 (as amended): for a DDS load whose list has an entry for every index
below `(A * M) mod 2^32`, where `A` and `M` are the array size and the mip count
of the description used for upload, the upload loop completes and issues
exactly `(A * M) mod 2^32` calls; call `i` addresses mip `i mod M` and slice
`i div M` with the bytes and the length of entry `i`.  When `A * M < 2^32` these
are `A * M` calls, and for every `mip < M` and `slice < A` the call with that
coordinate is the one at index `slice * M + mip`, with the entry at that index,
and at no other index.  When `A * M = 0` the loop issues no call and is
defined: no division or modulo by zero is evaluated. -/
theorem C19_upload_loop (id : ResourceId) (d : Decoded) (r : Negotiated)
    (hdds : d.dds = true)
    (hsubs : u32 (r.texDetails.arraysize * r.texDetails.mips)
      ≤ r.read_data.subresources.length) :
    ∃ ups, uploads id d r = some ups ∧
      ups.length = u32 (r.texDetails.arraysize * r.texDetails.mips) ∧
      (∀ i, i < u32 (r.texDetails.arraysize * r.texDetails.mips) →
        ∃ e, r.read_data.subresources[i]? = some e ∧
          ups[i]? = some (Event.SetProxyTextureData id
            { mip := i % r.texDetails.mips, slice := i / r.texDetails.mips, sample := 0 }
            ((r.read_data.buffer.drop e.1).take e.2) e.2)) ∧
      (r.texDetails.arraysize * r.texDetails.mips < 4294967296 →
        ups.length = r.texDetails.arraysize * r.texDetails.mips ∧
        ∀ mip slice, mip < r.texDetails.mips → slice < r.texDetails.arraysize →
          (∃ e, r.read_data.subresources[slice * r.texDetails.mips + mip]? = some e ∧
            ups[slice * r.texDetails.mips + mip]? = some (Event.SetProxyTextureData id
              { mip := mip, slice := slice, sample := 0 }
              ((r.read_data.buffer.drop e.1).take e.2) e.2)) ∧
          ∀ i tid sample data size,
            ups[i]? = some (Event.SetProxyTextureData tid
              { mip := mip, slice := slice, sample := sample } data size) →
            i = slice * r.texDetails.mips + mip) ∧
      (r.texDetails.arraysize * r.texDetails.mips = 0 → ups = []) := by
  obtain ⟨ups, hups⟩ := uploadCall_defined id r.texDetails r.read_data _ rfl hsubs
  have hlen := collect_length _ _ ups hups
  have hget : ∀ i, i < u32 (r.texDetails.arraysize * r.texDetails.mips) →
      ∃ e, r.read_data.subresources[i]? = some e ∧
        ups[i]? = some (Event.SetProxyTextureData id
          { mip := i % r.texDetails.mips, slice := i / r.texDetails.mips, sample := 0 }
          ((r.read_data.buffer.drop e.1).take e.2) e.2) := by
    intro i hi
    obtain ⟨e, he, hcall⟩ := uploadCall_eq id r.texDetails r.read_data i hi hsubs
    exact ⟨e, he, by rw [← collect_get _ _ ups hups i hi, hcall]⟩
  refine ⟨ups, by simp only [uploads, hdds, Bool.true_eq_false, if_false]; exact hups, hlen,
    hget, ?_, ?_⟩
  · intro hno
    have hu : u32 (r.texDetails.arraysize * r.texDetails.mips) =
        r.texDetails.arraysize * r.texDetails.mips := Nat.mod_eq_of_lt hno
    refine ⟨by rw [hlen, hu], ?_⟩
    intro mip slice hmip hslice
    have hidx : slice * r.texDetails.mips + mip <
        u32 (r.texDetails.arraysize * r.texDetails.mips) := by
      rw [hu]
      calc slice * r.texDetails.mips + mip
          < slice * r.texDetails.mips + r.texDetails.mips := by omega
        _ = (slice + 1) * r.texDetails.mips := by ring
        _ ≤ r.texDetails.arraysize * r.texDetails.mips := Nat.mul_le_mul_right _ hslice
    have hmod : (slice * r.texDetails.mips + mip) % r.texDetails.mips = mip := by
      rw [Nat.add_comm, Nat.add_mul_mod_self_right]
      exact Nat.mod_eq_of_lt hmip
    have hdiv : (slice * r.texDetails.mips + mip) / r.texDetails.mips = slice := by
      rw [Nat.add_comm, Nat.add_mul_div_right _ _ (by omega), Nat.div_eq_of_lt hmip]
      omega
    refine ⟨?_, ?_⟩
    · obtain ⟨e, he, hcall⟩ := hget _ hidx
      rw [hmod, hdiv] at hcall
      exact ⟨e, he, hcall⟩
    · intro i tid sample data size hi
      have hin : i < u32 (r.texDetails.arraysize * r.texDetails.mips) := by
        rw [← hlen]
        exact (List.getElem?_eq_some_iff.mp hi).1
      obtain ⟨e, _, hcall⟩ := hget i hin
      rw [hcall] at hi
      simp only [Option.some.injEq, Event.SetProxyTextureData.injEq,
        Subresource.mk.injEq] at hi
      obtain ⟨_, ⟨h1, h2, _⟩, _⟩ := hi
      rw [← h1, ← h2]
      exact (Nat.div_add_mod' i r.texDetails.mips).symm
  · intro hzero
    have : ups.length = 0 := by
      rw [hlen, hzero]
      rfl
    exact List.length_eq_zero.mp this

/-- C19 on `arrayData3`: three slices of two mips give six calls, and the call
for mip 1 of slice 2 is the one at index 5. -/
theorem C19_upload_loop_witness :
    ∃ ups, uploads 1 decodedArray3 negotiatedArray3 = some ups ∧
      ups.length = 6 ∧
      ups[5]? = some (Event.SetProxyTextureData 1 { mip := 1, slice := 2, sample := 0 }
        [34] 1) := by
  obtain ⟨ups, hrun, hlen, hget, _, _⟩ := C19_upload_loop 1 decodedArray3 negotiatedArray3 rfl
    (by decide)
  obtain ⟨e, he, hcall⟩ := hget 5 (by decide)
  have he5 : e = (14, 1) := by
    have h5 : negotiatedArray3.read_data.subresources[5]? = some (14, 1) := by decide
    rw [h5] at he
    exact (Option.some.inj he).symm
  subst he5
  exact ⟨ups, hrun, hlen, hcall⟩

/-- C19, counterexample: `hugeRgbaFile` is a DDS file with `2^31` slices of two
mips in a format that the proxy supports.  The refresh succeeds and reports
that array size and mip count, so `A * M` is `2^32`, but the upload loop issues
no call. -/
theorem C19_counterexample_product_wraps :
    (RefreshFile sampleOps sampleProxy hugeRgbaFile (initialViewer blankDetails)).map
      (fun p => (p.1.m_Error, p.1.m_TexDetails.arraysize, p.1.m_TexDetails.mips,
                 uploadsOf p.2))
      = some (ResultCode.Succeeded, 2147483648, 2, []) ∧
    2147483648 * 2 = 4294967296 := by
  refine ⟨by decide, by decide⟩

end RenderDoc
